import Mathlib

/-!
# FrogPilot settings controls: a verification development

Shallow embedding of the parameter-bound controls of
`selfdrive/frogpilot/ui/qt/widgets/frogpilot_controls.h` and of the parts of
`selfdrive/ui/qt/offroad/settings.cc` that drive them.

Conventions of the embedding:

* C++ `float`/`double` values are rationals (`ℚ`): no NaN, no infinities.
  Division by zero follows `ℚ` (`x / 0 = 0`) where C++ would produce an
  infinity or NaN. The acceleration test of `updateValue` (lines 433-434)
  rounds every operation to its format (`fl32`, `fl64`); elsewhere the
  arithmetic is exact.
* C++ `int` is `ℤ`; the conversions in the embedded code are undefined in C++
  when the value does not fit, so no wrap-around is modelled.
* Qt widgets are reduced to the state the embedded code reads or writes
  (checked, checkable, enabled, visible, text); a method that may emit signals
  returns what it emitted next to the new state.
* A method of a class with a `Params` member takes the store and returns it.
* A background thread of settings.cc is a function run to completion on a host
  (`std::system`, file calls) over an arbitrary world state; what it does that
  is visible outside (status text, enabling, commands with their exit codes)
  is recorded in order as a trace. Threads are taken one at a time.
-/

namespace FrogPilot

/-! ## Numeric helpers -/

/-- Conversion of a floating value to `int` as C++ performs it: truncation toward zero. -/
def toInt (x : ℚ) : ℤ :=
  if 0 ≤ x then ⌊x⌋ else -⌊-x⌋

/-- The C library `round`: nearest integer, halfway cases away from zero. -/
def round (x : ℚ) : ℤ :=
  if 0 ≤ x then ⌊x + 1 / 2⌋ else -⌊-x + 1 / 2⌋

/-- The C++ `std::max(a, b)`: `(a < b) ? b : a`. -/
def stdMax (a b : ℚ) : ℚ := if a < b then b else a

/-- The C++ `std::min(a, b)`: `(b < a) ? b : a`. -/
def stdMin (a b : ℚ) : ℚ := if b < a then b else a

/-- The position of the leading binary digit of `n` (0 for `n < 2`), by halving; `fuel`
bounds the number of halvings. -/
def log2Fuel : ℕ → ℕ → ℕ
  | 0, _ => 0
  | fuel + 1, n => if n < 2 then 0 else log2Fuel fuel (n / 2) + 1

/-- The binary exponent of a non-zero `x`: the `e` with `2 ^ e ≤ |x| < 2 ^ (e + 1)`. -/
def binade (x : ℚ) : ℤ :=
  let e : ℤ := (log2Fuel x.num.natAbs x.num.natAbs : ℤ) - (log2Fuel x.den x.den : ℤ)
  if (2 : ℚ) ^ e ≤ |x| then e else e - 1

/-- Rounding to the nearest integer, halfway cases to the even one. -/
def roundHalfEven (q : ℚ) : ℤ :=
  if q - ⌊q⌋ < 1 / 2 then ⌊q⌋
  else if 1 / 2 < q - ⌊q⌋ then ⌊q⌋ + 1
  else if ⌊q⌋ % 2 = 0 then ⌊q⌋ else ⌊q⌋ + 1

/-- Rounding of an exact result to the binary floating-point format with a significand of
`precision` bits (round to nearest, ties to even), as IEEE 754 arithmetic performs it after
every operation. The exponent range is not modelled (no overflow to infinity, no
subnormal numbers). -/
def fl (precision : ℕ) (x : ℚ) : ℚ :=
  if x = 0 then 0
  else
    roundHalfEven (x / 2 ^ (binade x - ((precision : ℤ) - 1))) *
      2 ^ (binade x - ((precision : ℤ) - 1))

/-- Rounding to `float` (binary32, 24-bit significand). -/
def fl32 (x : ℚ) : ℚ := fl 24 x

/-- Rounding to `double` (binary64, 53-bit significand). -/
def fl64 (x : ℚ) : ℚ := fl 53 x

/-! ## Key-Value Store -/

/-- A typed value held by the store. -/
inductive ParamValue where
  | bool (b : Bool)
  | float (x : ℚ)
  | text (s : String)
  deriving DecidableEq

/-- Modelled from the spec: the Key-Value Store (class `Params`, declared in
`common/params.h`, which is not among the sources). A map from string keys to typed
values; a read of an absent boolean gives `false`, of an absent float gives `0.0`;
a read returns what the last write under that key stored. -/
structure Params where
  data : String → Option ParamValue

namespace Params

/-- Modelled from the spec: `getBool(key)`, `false` when the key holds no boolean. -/
def getBool (p : Params) (key : String) : Bool :=
  match p.data key with
  | some (.bool b) => b
  | _ => false

/-- Modelled from the spec: `getFloat(key)`, `0.0` when the key holds no float. -/
def getFloat (p : Params) (key : String) : ℚ :=
  match p.data key with
  | some (.float x) => x
  | _ => 0

/-- Modelled from the spec: `putBool(key, value)`. -/
def putBool (p : Params) (key : String) (value : Bool) : Params :=
  ⟨fun k => if k = key then some (.bool value) else p.data k⟩

/-- Modelled from the spec: `putFloat(key, value)`. -/
def putFloat (p : Params) (key : String) (value : ℚ) : Params :=
  ⟨fun k => if k = key then some (.float value) else p.data k⟩

/-- Modelled from the spec: `remove(key)`. -/
def remove (p : Params) (key : String) : Params :=
  ⟨fun k => if k = key then none else p.data k⟩

/-- A store built from a list of entries (the first entry of a key wins). -/
def ofList (entries : List (String × ParamValue)) : Params :=
  ⟨fun k => entries.lookup k⟩

end Params

/-! ## Displayed text -/

/-- One piece of a `QString` built by the controls: either literal text or the result of
`QString::number(x, format, precision)`, kept symbolic (Qt renders it). -/
inductive TextPiece where
  | literal (s : String)
  | number (x : ℚ) (format : Char) (precision : ℤ)
  deriving DecidableEq

/-! ## FrogPilotParamValueControl -/

/-- The data members of `FrogPilotParamValueControl` (lines 500-518), with the text of
`valueLabel` in place of the label widget. `valueLabelMappings` is the `std::map<int, QString>`
as an association list. -/
structure FrogPilotParamValueControl where
  key : String
  loop : Bool
  division : ℚ
  interval : ℚ
  maxValue : ℚ
  minValue : ℚ
  previousValue : ℚ
  value : ℚ
  labelText : String
  valueLabelMappings : List (ℤ × String)
  valueLabel : List TextPiece

namespace FrogPilotParamValueControl

/-- Lines 433-434: `round(x * 100) / 100 / intervalChange` converted to `int`. The product
of the `float` `x` and 100 is a `float`, so it is rounded to binary32; `round` is the C
function on `double`, whose result is an integer and exact; the two divisions are then
carried out in `double` and rounded to binary64; the conversion to `int` truncates. -/
def adjusted (x intervalChange : ℚ) : ℤ :=
  toInt (fl64 (fl64 ((round (fl32 (x * 100)) : ℚ) / 100) / intervalChange))

/-- Line 436: the condition under which the step is multiplied by 5. -/
def accelerated (previousValue value intervalChange : ℚ) : Bool :=
  decide (|adjusted previousValue intervalChange - adjusted value intervalChange| > 5 ∧
    Int.tmod (adjusted value intervalChange) 5 = 0)

/-- Lines 433-438: the step added to `value`. -/
def appliedStep (previousValue value intervalChange : ℚ) : ℚ :=
  if accelerated previousValue value intervalChange then intervalChange * 5 else intervalChange

/-- Lines 442-450: wrap to the opposite bound (`loop`) or clamp. -/
def bounded (loop : Bool) (minValue maxValue value : ℚ) : ℚ :=
  if loop then
    if value < minValue then maxValue
    else if value > maxValue then minValue
    else value
  else
    stdMax minValue (stdMin maxValue value)

/-- Line 461: `interval < 1.0f ? static_cast<int>(-std::log10(interval)) : 2`. For
`0 < interval < 1` the truncation of `-log10(interval)` is the largest `n` with
`10 ^ n ≤ 1 / interval`. -/
def decimals (interval : ℚ) : ℤ :=
  if interval < 1 then (Nat.log 10 ⌊1 / interval⌋₊ : ℤ) else 2

/-- Lines 456-483: `refresh()`. -/
def refresh (c : FrogPilotParamValueControl) (params : Params) : FrogPilotParamValueControl :=
  let value := params.getFloat c.key
  let it := c.valueLabelMappings.lookup (toInt value)
  let text : List TextPiece :=
    if c.division > 1 then
      [.number (value / c.division) 'g' (if c.division ≥ 10 then 4 else 3)]
    else
      match it with
      | some label => [.literal label]
      | none =>
        if value ≥ 100 then [.number value 'f' 0]
        else [.number value (if c.interval < 1 then 'f' else 'g') (decimals c.interval)]
  let text := if !c.labelText.isEmpty then text ++ [.literal c.labelText] else text
  { c with value := value, valueLabel := text }

/-- Lines 432-454: `updateValue(intervalChange)`; returns the control and the store. -/
def updateValue (c : FrogPilotParamValueControl) (params : Params) (intervalChange : ℚ) :
    FrogPilotParamValueControl × Params :=
  let intervalChange := appliedStep c.previousValue c.value intervalChange
  let value := c.value + intervalChange
  let value := bounded c.loop c.minValue c.maxValue value
  let params := params.putFloat c.key value
  (refresh { c with value := value } params, params)

/-- Lines 428-430: `handleTimeout()`. -/
def handleTimeout (c : FrogPilotParamValueControl) : FrogPilotParamValueControl :=
  { c with previousValue := c.value }

/-- Lines 492-495: `showEvent`. -/
def showEvent (c : FrogPilotParamValueControl) (params : Params) : FrogPilotParamValueControl :=
  let c := refresh c params
  { c with previousValue := c.value }

end FrogPilotParamValueControl

/-- A control with the given bounds, baseline, value, `division` and override labels,
bound to key `"K"`, with `interval = 1` and no label suffix. -/
def sampleValueControl (loop : Bool) (minValue maxValue previousValue value division : ℚ)
    (labels : List (ℤ × String)) : FrogPilotParamValueControl :=
  { key := "K", loop := loop, division := division, interval := 1, maxValue := maxValue,
    minValue := minValue, previousValue := previousValue, value := value, labelText := "",
    valueLabelMappings := labels, valueLabel := [] }

/-! ## Qt buttons and button groups -/

/-- The state of a `QPushButton` that the controls read or write. -/
structure QPushButton where
  text : String
  checkable : Bool
  checked : Bool
  enabled : Bool
  visible : Bool
  deriving DecidableEq

/-- The button with its check state erased: what `setChecked` leaves untouched. -/
def QPushButton.unchecked (b : QPushButton) : QPushButton := { b with checked := false }

/-- A `QButtonGroup`: the `exclusive` flag and its buttons; the button with id `i` stands
at position `i`. -/
structure QButtonGroup where
  exclusive : Bool
  buttons : List QPushButton
  deriving DecidableEq

namespace QButtonGroup

/-- The call `button(id)`: the button with that id, or none (a null pointer). -/
def button (g : QButtonGroup) (id : ℤ) : Option QPushButton :=
  if 0 ≤ id then g.buttons[id.toNat]? else none

/-- The call `addButton(button)`: in an exclusive group, adding a checked button unchecks
the buttons checked before (Qt keeps one checked button per exclusive group). -/
def addButton (g : QButtonGroup) (b : QPushButton) : QButtonGroup :=
  if g.exclusive && b.checked then
    { g with buttons := g.buttons.map (fun x => { x with checked := false }) ++ [b] }
  else
    { g with buttons := g.buttons ++ [b] }

/-- The call `setChecked(checked)` on the button at position `i`, with the `toggled`
signals it emits (position, new state) in emission order. Nothing happens for a button
that is not checkable or already in that state; the checked button of an exclusive group
cannot be unchecked; checking a button of an exclusive group unchecks its siblings. -/
def setChecked (g : QButtonGroup) (i : ℕ) (checked : Bool) : QButtonGroup × List (ℕ × Bool) :=
  match g.buttons[i]? with
  | none => (g, [])
  | some b =>
    if !b.checkable || b.checked == checked then (g, [])
    else if checked then
      if g.exclusive then
        ({ g with
            buttons :=
              List.set (g.buttons.map (fun x => { x with checked := false })) i
                ({ b with checked := true }) },
          ((List.range g.buttons.length).filter
              (fun j => j != i && (g.buttons[j]?.map (fun x => x.checked)) == some true)).map
            (fun j => (j, false)) ++ [(i, true)])
      else
        ({ g with buttons := g.buttons.set i { b with checked := true } }, [(i, true)])
    else
      if g.exclusive then (g, [])
      else ({ g with buttons := g.buttons.set i { b with checked := false } }, [(i, false)])

/-- A user click delivered to the button at position `i`: a disabled button receives none;
a checkable button goes to its next check state (`setChecked(!checked)`). Returns the
`toggled` signals emitted. -/
def click (g : QButtonGroup) (i : ℕ) : QButtonGroup × List (ℕ × Bool) :=
  match g.buttons[i]? with
  | none => (g, [])
  | some b =>
    if !b.enabled then (g, [])
    else if b.checkable then g.setChecked i (!b.checked)
    else (g, [])

end QButtonGroup

/-! ## FrogPilotButtonsControl -/

/-- The class `FrogPilotButtonsControl` (lines 86-160): its button group. The class has no
`Params` member. -/
structure FrogPilotButtonsControl where
  button_group : QButtonGroup
  deriving DecidableEq

namespace FrogPilotButtonsControl

/-- Lines 90-127: the constructor; one button per label, ids 0, 1, ... in an exclusive
group, none checked. Each button's `clicked` is connected to `emit buttonClicked(i)`. -/
def new (button_labels : List String) (checkable : Bool) : FrogPilotButtonsControl :=
  { button_group :=
      button_labels.foldl
        (fun g label =>
          g.addButton
            { text := label, checkable := checkable, checked := false, enabled := true,
              visible := true })
        { exclusive := true, buttons := [] } }

/-- Lines 135-139: `setCheckedButton(id)`. The store is threaded through and the
`buttonClicked` signals emitted are returned: only `clicked` is connected (line 125), and
`setChecked` emits `toggled` alone, which has no slot in this class. -/
def setCheckedButton (c : FrogPilotButtonsControl) (params : Params) (id : ℤ) :
    FrogPilotButtonsControl × Params × List ℤ :=
  match c.button_group.button id with
  | some _ => ({ c with button_group := (c.button_group.setChecked id.toNat true).1 }, params, [])
  | none => (c, params, [])

/-- Line 125: a user click on the button with id `i` emits `buttonClicked(i)`. -/
def clicked (c : FrogPilotButtonsControl) (params : Params) (i : ℕ) :
    FrogPilotButtonsControl × Params × List ℤ :=
  match c.button_group.buttons[i]? with
  | none => (c, params, [])
  | some b =>
    if !b.enabled then (c, params, [])
    else ({ c with button_group := (c.button_group.click i).1 }, params, [(i : ℤ)])

end FrogPilotButtonsControl

/-! ## ButtonParamControl and TogglesPanel::updateState -/

/-- Modelled from the spec: the exclusive button-group control `ButtonParamControl`
(declared in `selfdrive/ui/qt/widgets/controls.h`, which is not among the sources): one
parameter key and an exclusive group of checkable buttons. -/
structure ButtonParamControl where
  key : String
  button_group : QButtonGroup
  deriving DecidableEq

/-- Modelled from the spec: the non-interactive `ButtonParamControl::setCheckedButton(id)`
(not among the sources): it checks the button with that id, emits no user-click signal and
performs no write-through. -/
def ButtonParamControl.setCheckedButton (c : ButtonParamControl) (id : ℤ) : ButtonParamControl :=
  match c.button_group.button id with
  | some _ => { c with button_group := (c.button_group.setChecked id.toNat true).1 }
  | none => c

/-- The fields of `UIState::scene` read and written by `TogglesPanel::updateState`. -/
structure UIScene where
  personality : ℤ
  started : Bool
  deriving DecidableEq

/-- The part of `TogglesPanel` that `updateState` touches: the store member `params`, the
personality control, widget visibility, and the scene of the global `UIState`. -/
structure TogglesPanelState where
  params : Params
  long_personality_setting : ButtonParamControl
  isVisible : Bool
  scene : UIScene

/-- Lines 175-185 of settings.cc: `TogglesPanel::updateState`. `updated` is
`sm.updated("controlsState")` and `personality` the value carried by that message. -/
def TogglesPanel.updateState (panel : TogglesPanelState) (updated : Bool) (personality : ℤ) :
    TogglesPanelState :=
  if updated then
    let panel :=
      if personality != panel.scene.personality && panel.scene.started && panel.isVisible then
        { panel with
          long_personality_setting := panel.long_personality_setting.setCheckedButton personality }
      else panel
    { panel with scene := { panel.scene with personality := personality } }
  else panel

/-! ## FrogPilotButtonsParamControl -/

/-- Modelled from the spec: `ParamControl::refresh()` of the base class (declared in
`selfdrive/ui/qt/widgets/controls.h`, which is not among the sources): the toggle position
re-read from the bound boolean; nothing is written. -/
def ParamControl.refresh (params : Params) (key : String) : Bool :=
  params.getBool key

/-- The class `FrogPilotButtonsParamControl` (lines 162-234): the key of the `ParamControl`
base with its (hidden) toggle position, the `(parameter, label)` pairs captured by the
button handlers, and the exclusive button group. -/
structure FrogPilotButtonsParamControl where
  key : String
  toggle_on : Bool
  button_params : List (String × String)
  button_group : QButtonGroup

namespace FrogPilotButtonsParamControl

/-- Lines 165-220: the constructor. Each button is created checkable, checked from the
stored boolean (lines 199-200) before its handler is connected (line 205), then added to
the exclusive group (line 216). The toggle of the base class starts off and is hidden
(line 219). -/
def new (param : String) (button_params : List (String × String)) (params : Params) :
    FrogPilotButtonsParamControl :=
  { key := param
    toggle_on := false
    button_params := button_params
    button_group :=
      button_params.foldl
        (fun g param_pair =>
          g.addButton
            { text := param_pair.2, checkable := true, checked := params.getBool param_pair.1,
              enabled := true, visible := true })
        { exclusive := true, buttons := [] } }

/-- Lines 205-214: the slot connected to `toggled` of the button bound to `param_toggle`.
When `checked`, every parameter of the group is written (`true` for `param_toggle`, `false`
for the others), then `refresh()` of the `ParamControl` base runs, then `buttonClicked` is
emitted; the third component counts these emissions. -/
def toggled (c : FrogPilotButtonsParamControl) (params : Params) (param_toggle : String)
    (checked : Bool) : FrogPilotButtonsParamControl × Params × ℕ :=
  if checked then
    let params :=
      c.button_params.foldl
        (fun p inner_param_pair =>
          p.putBool inner_param_pair.1 (inner_param_pair.1 == param_toggle))
        params
    ({ c with toggle_on := ParamControl.refresh params c.key }, params, 1)
  else (c, params, 0)

/-- Delivery of a list of `toggled` signals to the slots of the buttons that emitted
them. The third component counts the `buttonClicked` emissions. -/
def deliver (c : FrogPilotButtonsParamControl) (params : Params) :
    List (ℕ × Bool) → FrogPilotButtonsParamControl × Params × ℕ
  | [] => (c, params, 0)
  | (j, checked) :: rest =>
    match c.button_params[j]? with
    | none => deliver c params rest
    | some param_pair =>
      let r := toggled c params param_pair.1 checked
      let r2 := deliver r.1 r.2.1 rest
      (r2.1, r2.2.1, r.2.2 + r2.2.2)

/-- A user click on the button at position `i`: Qt moves the check state and the emitted
`toggled` signals run the slots. -/
def click (c : FrogPilotButtonsParamControl) (params : Params) (i : ℕ) :
    FrogPilotButtonsParamControl × Params × ℕ :=
  deliver { c with button_group := (c.button_group.click i).1 } params
    (c.button_group.click i).2

/-- A sequence of user clicks. -/
def clicks (c : FrogPilotButtonsParamControl) (params : Params) :
    List ℕ → FrogPilotButtonsParamControl × Params
  | [] => (c, params)
  | i :: rest => clicks (click c params i).1 (click c params i).2.1 rest

/-- Among the parameters of the group `button_params`, the one at position `i` is the only
one stored `true`. -/
def OnlyTrue (button_params : List (String × String)) (params : Params) (i : ℕ) : Prop :=
  ∀ (j : ℕ) (param_pair : String × String), button_params[j]? = some param_pair →
    (params.getBool param_pair.1 = true ↔ j = i)

/-- The invariant kept by user clicks: the group is exclusive with one checkable, enabled
button per parameter, and a checked button's parameter is the only one stored `true`. -/
def Consistent (button_params : List (String × String)) (c : FrogPilotButtonsParamControl)
    (params : Params) : Prop :=
  c.button_params = button_params ∧ c.button_group.exclusive = true ∧
  c.button_group.buttons.length = button_params.length ∧
  (∀ (j : ℕ) (b : QPushButton), c.button_group.buttons[j]? = some b →
    b.checkable = true ∧ b.enabled = true) ∧
  (∀ (j : ℕ) (b : QPushButton), c.button_group.buttons[j]? = some b → b.checked = true →
    OnlyTrue button_params params j)

end FrogPilotButtonsParamControl

/-! ## FrogPilotParamToggleControl -/

/-- The class `FrogPilotParamToggleControl` (lines 284-382): the primary key, the toggle
position `toggle.on`, the secondary parameter names and the non-exclusive button group. -/
structure FrogPilotParamToggleControl where
  key : String
  toggle_on : Bool
  button_params : List String
  button_group : QButtonGroup

namespace FrogPilotParamToggleControl

/-- Lines 352-356: `refreshButtons(state)`; this is also the slot of `toggleFlipped`
(lines 295-297). -/
def refreshButtons (c : FrogPilotParamToggleControl) (params : Params) (state : Bool) :
    FrogPilotParamToggleControl × Params :=
  ({ c with
      button_group :=
        { c.button_group with
          buttons := c.button_group.buttons.map (fun button => { button with visible := state }) } },
    params)

/-- Lines 358-366: the loop of `updateButtonStates()` from index `i` on, `n` iterations
left. An index outside `button_params` is undefined behaviour (no result). `setChecked`
emits `toggled` only, which has no slot in this class (line 331 connects `clicked`). -/
def updateButtonStatesFrom (c : FrogPilotParamToggleControl) (params : Params) :
    ℕ → ℕ → Option (FrogPilotParamToggleControl × Params)
  | _, 0 => some (c, params)
  | i, n + 1 =>
    match c.button_params[i]? with
    | none => none
    | some button_param =>
      let checked := params.getBool button_param
      let c :=
        match c.button_group.button (i : ℤ) with
        | some _ => { c with button_group := (c.button_group.setChecked i checked).1 }
        | none => c
      updateButtonStatesFrom c params (i + 1) n

/-- Lines 358-366: `updateButtonStates()`. -/
def updateButtonStates (c : FrogPilotParamToggleControl) (params : Params) :
    Option (FrogPilotParamToggleControl × Params) :=
  updateButtonStatesFrom c params 0 c.button_group.buttons.length

/-- Lines 342-350: `refresh()`. `toggle.togglePosition()` flips `toggle.on`. -/
def refresh (c : FrogPilotParamToggleControl) (params : Params) :
    Option (FrogPilotParamToggleControl × Params) :=
  let state := params.getBool c.key
  let c := if state != c.toggle_on then { c with toggle_on := !c.toggle_on } else c
  let r := refreshButtons c params state
  updateButtonStates r.1 r.2

end FrogPilotParamToggleControl

/-- Three `(parameter, label)` pairs of an exclusive group, with distinct keys. -/
def sampleButtonParams : List (String × String) :=
  [("A", "a"), ("B", "b"), ("C", "c")]

/-- The members of `SettingsWindow` that the handlers of settings.cc read or write. -/
structure SettingsWindow where
  parentToggleOpen : Bool
  subParentToggleOpen : Bool
  subSubParentToggleOpen : Bool
  previousScrollPosition : ℤ
  deriving DecidableEq

/-- The signals `SettingsWindow` emits from these handlers. -/
inductive SettingsSignal where
  | closeParentToggle
  | closeSubParentToggle
  | closeSubSubParentToggle
  | closeSettings
  deriving DecidableEq

/-- The events of the disclosure state machine: the three open signals of the panels
(lines 886-888, 891-892), a click on the Back button (line 861) and `hideEvent`. -/
inductive SettingsEvent where
  | openParentToggle
  | openSubParentToggle
  | openSubSubParentToggle
  | back
  | hide
  deriving DecidableEq

namespace SettingsWindow

/-- The window with every disclosure flag false. -/
def initial : SettingsWindow :=
  { parentToggleOpen := false, subParentToggleOpen := false, subSubParentToggleOpen := false,
    previousScrollPosition := 0 }

/-- Lines 816-824: `hideEvent`. -/
def hideEvent (s : SettingsWindow) : SettingsWindow × List SettingsSignal :=
  ({ s with
      parentToggleOpen := false, subParentToggleOpen := false, subSubParentToggleOpen := false,
      previousScrollPosition := 0 },
    [.closeParentToggle])

/-- Lines 861-874: the slot of `close_btn` clicked (the Back button). -/
def closeButtonClicked (s : SettingsWindow) : SettingsWindow × List SettingsSignal :=
  if s.subSubParentToggleOpen then
    ({ s with subSubParentToggleOpen := false }, [.closeSubSubParentToggle])
  else if s.subParentToggleOpen then
    ({ s with subParentToggleOpen := false }, [.closeSubParentToggle])
  else if s.parentToggleOpen then
    ({ s with parentToggleOpen := false }, [.closeParentToggle])
  else
    (s, [.closeSettings])

/-- Lines 886 and 891: the slot of `openParentToggle`. -/
def openParentToggle (s : SettingsWindow) : SettingsWindow :=
  { s with parentToggleOpen := true }

/-- Lines 887 and 892: the slot of `openSubParentToggle`. -/
def openSubParentToggle (s : SettingsWindow) : SettingsWindow :=
  { s with subParentToggleOpen := true }

/-- Line 888: the slot of `openSubSubParentToggle`. -/
def openSubSubParentToggle (s : SettingsWindow) : SettingsWindow :=
  { s with subSubParentToggleOpen := true }

/-- The state after one event. -/
def handle (s : SettingsWindow) : SettingsEvent → SettingsWindow
  | .openParentToggle => s.openParentToggle
  | .openSubParentToggle => s.openSubParentToggle
  | .openSubSubParentToggle => s.openSubSubParentToggle
  | .back => s.closeButtonClicked.1
  | .hide => s.hideEvent.1

/-- The states reached along a sequence of events, the starting state first. -/
def reached (s : SettingsWindow) : List SettingsEvent → List SettingsWindow
  | [] => [s]
  | e :: rest => s :: reached (s.handle e) rest

/-- The nesting of the disclosure levels: sub-sub open implies sub open implies parent
open. -/
def Nested (s : SettingsWindow) : Prop :=
  (s.subSubParentToggleOpen = true → s.subParentToggleOpen = true) ∧
  (s.subParentToggleOpen = true → s.parentToggleOpen = true)

/-- A sequence of events in which every open event arrives from its immediate parent
state: open-sub-parent only while the parent level is open, open-sub-sub-parent only while
the sub-parent level is open. -/
def OpensFromParent (s : SettingsWindow) : List SettingsEvent → Prop
  | [] => True
  | e :: rest =>
    (e = .openSubParentToggle → s.parentToggleOpen = true) ∧
    (e = .openSubSubParentToggle → s.subParentToggleOpen = true) ∧
    OpensFromParent (s.handle e) rest

end SettingsWindow

/-! ## Shell commands, the host and background workflows (settings.cc) -/

/-- A command line handed to `std::system`, by shape; `render` gives the string. -/
inductive Command where
  | mkdirP (dir : String)
  | rsync (options source destination : String)
  | tarCreate (archive dir : String)
  | tarExtract (archive dir : String)
  | mv (source destination : String)
  | rm (options path : String)
  | andThen (first second : Command)
  deriving DecidableEq

namespace Command

/-- The command line as the source concatenates it. -/
def render : Command → String
  | mkdirP dir => "mkdir -p " ++ dir
  | rsync options source destination =>
    "rsync " ++ options ++ " " ++ source ++ " " ++ destination
  | tarCreate archive dir => "tar -czf " ++ archive ++ " -C " ++ dir ++ " ."
  | tarExtract archive dir => "tar --strip-components=1 -xzf " ++ archive ++ " -C " ++ dir
  | mv source destination => "mv " ++ source ++ " " ++ destination
  | rm options path => "rm " ++ options ++ " " ++ path
  | andThen first second => first.render ++ " && " ++ second.render

/-- The paths a command creates, overwrites, moves or deletes. -/
def touches : Command → List String
  | mkdirP dir => [dir]
  | rsync _ _ destination => [destination]
  | tarCreate archive _ => [archive]
  | tarExtract _ dir => [dir]
  | mv source destination => [source, destination]
  | rm _ path => [path]
  | andThen first second => first.touches ++ second.touches

/-- A delete command (`rm -f`, `rm -rf`). -/
def isDelete : Command → Bool
  | rm _ _ => true
  | _ => false

end Command

/-- Two spellings of one path: equal, or equal up to one trailing slash. -/
def sameDir (a b : String) : Bool :=
  decide (a = b) || decide (a = b ++ "/") || decide (a ++ "/" = b)

/-- The call `s.endsWith(suffix)` of `QString`. -/
def endsWith (s suffix : String) : Bool :=
  suffix.data.isSuffixOf s.data

/-- What a background workflow does that is visible outside it, in order. -/
inductive Event where
  | setEnabled (enable : Bool)
  | setValue (text : String)
  | system (command : Command) (result : ℤ)
  | sleep_for (ms : ℕ)
  | ofstream (path : String) (ok : Bool)
  | putBool (key : String) (value : Bool)
  | remove_all (path : String)
  | remove (path : String) (ok : Bool)
  | removeRecursively (path : String) (ok : Bool)
  | updateFrogPilotToggles
  | reboot
  deriving DecidableEq

/-- The machine the workflows run on (the Bulk Transfer Runner and the filesystem calls),
over an arbitrary world state: `std::system` with its exit code, opening a `std::ofstream`,
`std::filesystem::remove_all`, `QFile::remove` and `QDir::removeRecursively`. -/
structure Host (σ : Type) where
  system : σ → Command → ℤ × σ
  ofstream : σ → String → Bool × σ
  remove_all : σ → String → σ
  remove : σ → String → Bool × σ
  removeRecursively : σ → String → Bool × σ

/-- A workflow in progress: the world, the store and the events so far. -/
structure Run (σ : Type) where
  world : σ
  params : Params
  trace : List Event

namespace Run

variable {σ : Type}

/-- A workflow about to start. -/
def start (world : σ) (params : Params) : Run σ :=
  { world := world, params := params, trace := [] }

/-- Record an event. -/
def emit (r : Run σ) (e : Event) : Run σ :=
  { r with trace := r.trace ++ [e] }

/-- The call `std::system(command)`: the exit code and the run after it. -/
def system (h : Host σ) (r : Run σ) (command : Command) : ℤ × Run σ :=
  ((h.system r.world command).1,
    { r with
      world := (h.system r.world command).2,
      trace := r.trace ++ [.system command (h.system r.world command).1] })

/-- The lines `util::sleep_for(2000); btn->setValue(""); btn->setEnabled(true);` that end
a workflow. -/
def idle (r : Run σ) : Run σ :=
  ((r.emit (.sleep_for 2000)).emit (.setValue "")).emit (.setEnabled true)

end Run

/-- The `std::system` calls of a trace, in order, with their exit codes. -/
def systemCalls : List Event → List (Command × ℤ)
  | [] => []
  | .system command result :: rest => (command, result) :: systemCalls rest
  | _ :: rest => systemCalls rest

/-- Lines 417-419: the names offered for delete or restore, from the directory listing
`entries` of `/data/backups`. The filter keeps the names matching
`^(?!.*_in_progress$).*$`: for a name without line break, those not ending in
`_in_progress`. -/
def backupNames (entries : List String) : List String :=
  entries.filter (fun name => !endsWith name "_in_progress")

/-- Line 429: `fullBackupPath` of the FrogPilot backup. -/
def fullBackupPath (nameSelection : String) : String :=
  "/data/backups" ++ "/" ++ nameSelection

/-- Line 430: `inProgressBackupPath`. -/
def inProgressBackupPath (nameSelection : String) : String :=
  fullBackupPath nameSelection ++ "_in_progress"

/-- Line 438: `tarFilePathInProgress`. -/
def tarFilePathInProgress (nameSelection : String) : String :=
  fullBackupPath nameSelection ++ "_in_progress.tar.gz"

/-- Line 443: `tarFilePath`. -/
def tarFilePath (nameSelection : String) : String :=
  fullBackupPath nameSelection ++ ".tar.gz"

/-- Line 431: the copy command of the FrogPilot backup. -/
def backupCopyCommand (nameSelection : String) : Command :=
  .andThen (.mkdirP (inProgressBackupPath nameSelection))
    (.rsync "-av" "/data/openpilot/" (inProgressBackupPath nameSelection ++ "/"))

/-- Line 439: the compression command of the FrogPilot backup. -/
def backupCompressCommand (nameSelection : String) : Command :=
  .andThen
    (.tarCreate (tarFilePathInProgress nameSelection) (inProgressBackupPath nameSelection))
    (.rm "-rf" (inProgressBackupPath nameSelection))

section Workflows

variable {σ : Type}

/-- Lines 425-477: the thread of the FrogPilot backup (`id == 0`). -/
def frogpilotBackup (h : Host σ) (world : σ) (params : Params) (nameSelection : String)
    (compressed : Bool) : Run σ :=
  let r := ((Run.start world params).emit (.setEnabled false)).emit (.setValue "Backing up...")
  let copy := r.system h (backupCopyCommand nameSelection)
  let r :=
    if copy.1 = 0 then
      if compressed then
        let r := copy.2.emit (.setValue "Compressing backup...")
        let compress := r.system h (backupCompressCommand nameSelection)
        if compress.1 = 0 then
          let rename :=
            compress.2.system h
              (.mv (tarFilePathInProgress nameSelection) (tarFilePath nameSelection))
          if rename.1 = 0 then
            rename.2.emit (.setValue "Success!")
          else
            ((rename.2.emit (.setValue "Failed...")).system h
              (.rm "-f" (tarFilePathInProgress nameSelection))).2
        else
          (((compress.2.emit (.setValue "Failed...")).system h
            (.rm "-f" (tarFilePathInProgress nameSelection))).2.system h
            (.rm "-rf" (inProgressBackupPath nameSelection))).2
      else
        let rename :=
          copy.2.system h
            (.mv (inProgressBackupPath nameSelection) (fullBackupPath nameSelection))
        if rename.1 = 0 then
          rename.2.emit (.setValue "Success!")
        else
          ((rename.2.emit (.setValue "Failed...")).system h
            (.rm "-rf" (inProgressBackupPath nameSelection))).2
    else
      ((copy.2.emit (.setValue "Failed...")).system h
        (.rm "-rf" (inProgressBackupPath nameSelection))).2
  r.idle

/-- Lines 484-498: the thread of the FrogPilot backup delete (`id == 1`). -/
def frogpilotDelete (h : Host σ) (world : σ) (params : Params) (selection : String) : Run σ :=
  let r := ((Run.start world params).emit (.setEnabled false)).emit (.setValue "Deleting...")
  let dirToDelete := "/data/backups" ++ "/" ++ selection
  let r :=
    if endsWith selection ".tar.gz" then
      let removed := h.remove r.world dirToDelete
      ({ r with world := removed.2 }.emit (.remove dirToDelete removed.1)).emit
        (.setValue (if removed.1 then "Deleted!" else "Failed..."))
    else
      let removed := h.removeRecursively r.world dirToDelete
      ({ r with world := removed.2 }.emit (.removeRecursively dirToDelete removed.1)).emit
        (.setValue (if removed.1 then "Deleted!" else "Failed..."))
  r.idle

/-- Line 510: `sourcePath` of the FrogPilot restore, as first assigned. -/
def restoreSourcePath (selection : String) : String :=
  "/data/backups" ++ "/" ++ selection

/-- Line 511: `targetPath` of the FrogPilot restore, the live target. -/
def restoreTargetPath : String := "/data/safe_staging/finalized"

/-- Line 513: `extractDirectory` of the FrogPilot restore. -/
def extractDirectory : String := "/data/restore_temp"

/-- Line 538: the mirror sync of the FrogPilot restore from `sourcePath`. -/
def restoreSyncCommand (sourcePath : String) : Command :=
  .rsync "-av --delete -l --exclude='.overlay_consistent'" (sourcePath ++ "/")
    (restoreTargetPath ++ "/")

/-- Lines 538-562: the sync, the marker file and the reboot of the FrogPilot restore. -/
def frogpilotRestoreSync (h : Host σ) (r : Run σ) (sourcePath : String) : Run σ :=
  let sync := r.system h (restoreSyncCommand sourcePath)
  if sync.1 = 0 then
    let consistentFilePath := restoreTargetPath ++ "/.overlay_consistent"
    let consistentFile := h.ofstream sync.2.world consistentFilePath
    let r :=
      { sync.2 with world := consistentFile.2 }.emit
        (.ofstream consistentFilePath consistentFile.1)
    if consistentFile.1 then
      let r := r.emit (.setValue "Restored!")
      let r := { r with params := r.params.putBool "AutomaticUpdates" false }.emit
        (.putBool "AutomaticUpdates" false)
      let r := (r.emit (.sleep_for 2000)).emit (.setValue "Rebooting...")
      let r := { r with world := h.remove_all r.world extractDirectory }.emit
        (.remove_all extractDirectory)
      (r.emit (.sleep_for 2000)).emit .reboot
    else
      (r.emit (.setValue "Failed...")).idle
  else
    (sync.2.emit (.setValue "Failed...")).idle

/-- Lines 506-563: the thread of the FrogPilot restore (`id == 2`). -/
def frogpilotRestore (h : Host σ) (world : σ) (params : Params) (selection : String) : Run σ :=
  let r := ((Run.start world params).emit (.setEnabled false)).emit (.setValue "Restoring...")
  let sourcePath := restoreSourcePath selection
  if endsWith selection ".tar.gz" then
    let r := r.emit (.setValue "Extracting...")
    let mkdir := r.system h (.mkdirP extractDirectory)
    if mkdir.1 ≠ 0 then
      (mkdir.2.emit (.setValue "Failed...")).idle
    else
      let extract := mkdir.2.system h (.tarExtract sourcePath extractDirectory)
      if extract.1 ≠ 0 then
        (extract.2.emit (.setValue "Failed...")).idle
      else
        frogpilotRestoreSync h (extract.2.emit (.setValue "Restoring...")) extractDirectory
  else
    frogpilotRestoreSync h r sourcePath

/-- Line 583: `fullBackupPath` of the toggle backup. -/
def toggleBackupPath (nameSelection : String) : String :=
  "/data/toggle_backups" ++ "/" ++ nameSelection ++ "/"

/-- Line 584: the one command of the toggle backup. -/
def toggleBackupCommand (nameSelection : String) : Command :=
  .andThen (.mkdirP (toggleBackupPath nameSelection))
    (.rsync "-av" "/data/params/d/" (toggleBackupPath nameSelection))

/-- Lines 579-592: the thread of the toggle backup (`id == 0`). -/
def toggleBackup (h : Host σ) (world : σ) (params : Params) (nameSelection : String) : Run σ :=
  let r := ((Run.start world params).emit (.setEnabled false)).emit (.setValue "Backing up...")
  let copy := r.system h (toggleBackupCommand nameSelection)
  (copy.2.emit (.setValue (if copy.1 = 0 then "Success!" else "Failed..."))).idle

/-- Lines 599-610: the thread of the toggle backup delete (`id == 1`). -/
def toggleDelete (h : Host σ) (world : σ) (params : Params) (selection : String) : Run σ :=
  let r := ((Run.start world params).emit (.setEnabled false)).emit (.setValue "Deleting...")
  let dirToDelete := "/data/toggle_backups" ++ "/" ++ selection
  let removed := h.removeRecursively r.world dirToDelete
  (({ r with world := removed.2 }.emit (.removeRecursively dirToDelete removed.1)).emit
    (.setValue (if removed.1 then "Deleted!" else "Failed..."))).idle

/-- Line 621: `targetPath` of the toggle restore, the live parameter directory. -/
def toggleTargetPath : String := "/data/params/d/"

/-- Line 622: `tempBackupPath` of the toggle restore, the safety snapshot. -/
def tempBackupPath : String := "/data/params/d_backup/"

/-- Line 630: `sourcePath` of the toggle restore. -/
def toggleSourcePath (selection : String) : String :=
  "/data/toggle_backups" ++ "/" ++ selection ++ "/"

/-- Lines 618-650: the thread of the toggle restore (`id == 2`). -/
def toggleRestore (h : Host σ) (world : σ) (params : Params) (selection : String) : Run σ :=
  let r := (Run.start world params).emit (.setEnabled false)
  let backup := r.system h (.rsync "-av --delete -l" toggleTargetPath tempBackupPath)
  let r :=
    if backup.1 = 0 then
      let r := backup.2.emit (.setValue "Restoring...")
      let sourcePath := toggleSourcePath selection
      let restore := r.system h (.rsync "-av --delete -l" sourcePath toggleTargetPath)
      if restore.1 = 0 then
        (((restore.2.emit (.setValue "Success!")).emit .updateFrogPilotToggles).system h
          (.rm "-rf" tempBackupPath)).2
      else
        ((restore.2.emit (.setValue "Failed...")).system h
          (.rsync "-av --delete -l" tempBackupPath toggleTargetPath)).2
    else
      backup.2.emit (.setValue "Failed...")
  r.idle

end Workflows

/-! ## Vocabulary for the workflow claims -/

/-- The rollback command of the toggle restore (line 641): the safety snapshot synced back
onto the live parameter directory. -/
def rollbackCommand : Command :=
  .rsync "-av --delete -l" tempBackupPath toggleTargetPath

/-- A cleanup or rollback command: a delete, or the rollback sync of the toggle restore. -/
def isCleanupOrRollback (c : Command) : Bool :=
  c.isDelete || decide (c = rollbackCommand)

/-- The forward steps of the FrogPilot backup, in order: copy, then compress and rename the
archive, or rename the working directory. -/
def backupPlan (nameSelection : String) (compressed : Bool) : List Command :=
  if compressed then
    [backupCopyCommand nameSelection, backupCompressCommand nameSelection,
      .mv (tarFilePathInProgress nameSelection) (tarFilePath nameSelection)]
  else
    [backupCopyCommand nameSelection,
      .mv (inProgressBackupPath nameSelection) (fullBackupPath nameSelection)]

/-- The forward steps of the FrogPilot restore, in order: for an archive, create the
extraction directory, extract, sync from it; for a directory, sync from it. -/
def restorePlan (selection : String) : List Command :=
  if endsWith selection ".tar.gz" then
    [.mkdirP extractDirectory,
      .tarExtract (restoreSourcePath selection) extractDirectory,
      restoreSyncCommand extractDirectory]
  else
    [restoreSyncCommand (restoreSourcePath selection)]

/-- The forward steps of the toggle restore, in order: the safety snapshot, then the sync
from the selected backup. -/
def toggleRestorePlan (selection : String) : List Command :=
  [.rsync "-av --delete -l" toggleTargetPath tempBackupPath,
    .rsync "-av --delete -l" (toggleSourcePath selection) toggleTargetPath]

/-- After a call that exits non-zero, every later call is a cleanup or rollback command. -/
def OnlyCleanupAfterFailure : List (Command × ℤ) → Prop
  | [] => True
  | call :: rest =>
    (call.2 ≠ 0 → ∀ later ∈ rest, isCleanupOrRollback later.1 = true) ∧
      OnlyCleanupAfterFailure rest

/-- The forward steps among the calls of a trace, in the order issued. -/
def forwardSteps (trace : List Event) : List Command :=
  ((systemCalls trace).filter (fun call => !isCleanupOrRollback call.1)).map Prod.fst

/-- The events before the failure status is shown. -/
def beforeFailure (trace : List Event) : List Event :=
  trace.takeWhile (fun e => decide (e ≠ .setValue "Failed..."))

/-- The events after the failure status is shown. -/
def afterFailure (trace : List Event) : List Event :=
  (trace.dropWhile (fun e => decide (e ≠ .setValue "Failed..."))).drop 1

/-- A trace that starts by disabling the triggering control and whose last two events clear
its status text and re-enable it. -/
def RevertsToIdle (trace : List Event) : Prop :=
  trace.head? = some (.setEnabled false) ∧
    trace.reverse.take 2 = [.setEnabled true, .setValue ""]

/-! ## A simulated host -/

/-- A small world for running the workflows: one content per path spelling, the exit
codes the coming `std::system` calls return (0 once the list is used up) and whether a
file can be opened for writing. -/
structure SimWorld where
  content : String → Option String
  exits : List ℤ
  writable : Bool

namespace SimWorld

/-- Set the content of a path, under each of its spellings. -/
def write (content : String → Option String) (path : String) (value : Option String) :
    String → Option String :=
  fun p => if sameDir path p then value else content p

/-- The effect of a command that succeeds: `mkdir -p` creates an empty directory if there
is none, a sync or an archive step gives the destination the content of its source, `mv`
moves, `rm` deletes. -/
def apply : Command → (String → Option String) → (String → Option String)
  | .mkdirP dir, content =>
    if (content dir).isSome then content else write content dir (some "")
  | .rsync _ source destination, content => write content destination (content source)
  | .tarCreate archive dir, content => write content archive (content dir)
  | .tarExtract archive dir, content => write content dir (content archive)
  | .mv source destination, content =>
    write (write content destination (content source)) source none
  | .rm _ path, content => write content path none
  | .andThen first second, content => apply second (apply first content)

/-- The simulated host: a command that exits non-zero has no effect. -/
def host : Host SimWorld where
  system w command :=
    match w.exits with
    | [] => (0, { w with content := apply command w.content })
    | e :: rest =>
      if e = 0 then (0, { w with content := apply command w.content, exits := rest })
      else (e, { w with exits := rest })
  ofstream w path :=
    if w.writable then (true, { w with content := write w.content path (some "") })
    else (false, w)
  remove_all w path := { w with content := write w.content path none }
  remove w path := ((w.content path).isSome, { w with content := write w.content path none })
  removeRecursively w path :=
    ((w.content path).isSome, { w with content := write w.content path none })

/-- A world from a list of `(path, content)` entries (the first entry of a path wins). -/
def ofList (entries : List (String × String)) (exits : List ℤ) (writable : Bool) : SimWorld :=
  { content := entries.foldr (fun entry content => write content entry.1 (some entry.2))
      (fun _ => none),
    exits := exits, writable := writable }

end SimWorld

/-! ## SettingsWindow navigation and DevicePanel slots (settings.cc) -/

/-- Lines 951-956: the slot of a sidebar navigation button's `clicked`. The checked
navigation button and the current panel widget are display state and left out. -/
def SettingsWindow.navButtonClicked (s : SettingsWindow) : SettingsWindow × List SettingsSignal :=
  ({ s with previousScrollPosition := 0 }, [.closeParentToggle])

/-- A dialog opened by `DevicePanel::reboot` or `DevicePanel::poweroff`. -/
inductive Dialog where
  | confirm (prompt_text confirm_text : String)
  | alert (text : String)
  deriving DecidableEq

namespace DevicePanel

/-- Lines 783-794: `DevicePanel::reboot`. `engaged` is `uiState()->engaged()` when the
action starts, `confirmed` the answer of the confirmation dialog, `engagedAgain` the value
of `uiState()->engaged()` at the re-check after the dialog. Returns the store and the
dialogs opened. -/
def reboot (params : Params) (engaged confirmed engagedAgain : Bool) : Params × List Dialog :=
  if !engaged then
    if confirmed then
      if !engagedAgain then
        (params.putBool "DoReboot" true, [.confirm "Are you sure you want to reboot?" "Reboot"])
      else (params, [.confirm "Are you sure you want to reboot?" "Reboot"])
    else (params, [.confirm "Are you sure you want to reboot?" "Reboot"])
  else
    (params, [.alert "Disengage to Reboot"])

/-- Lines 796-807: `DevicePanel::poweroff`, with the same inputs as `reboot`. -/
def poweroff (params : Params) (engaged confirmed engagedAgain : Bool) : Params × List Dialog :=
  if !engaged then
    if confirmed then
      if !engagedAgain then
        (params.putBool "DoShutdown" true,
          [.confirm "Are you sure you want to power off?" "Power Off"])
      else (params, [.confirm "Are you sure you want to power off?" "Power Off"])
    else (params, [.confirm "Are you sure you want to power off?" "Power Off"])
  else
    (params, [.alert "Disengage to Power Off"])

/-- Line 715: the Force Started State control as constructed (checkable buttons OFFROAD,
ONROAD, OFF), after `setCheckedButton(2)` of line 729. -/
def forceStartedBtn : FrogPilotButtonsControl :=
  ((FrogPilotButtonsControl.new ["OFFROAD", "ONROAD", "OFF"] true).setCheckedButton
    (Params.ofList []) 2).1

/-- Lines 716-728: the slot of `forceStartedBtn`'s `buttonClicked(id)`; `paramsMemory` is
the in-memory store. -/
def forceStartedClicked (btn : FrogPilotButtonsControl) (paramsMemory : Params) (id : ℤ) :
    FrogPilotButtonsControl × Params :=
  let paramsMemory :=
    if id = 0 then
      (paramsMemory.putBool "ForceOffroad" true).putBool "ForceOnroad" false
    else if id = 1 then
      (paramsMemory.putBool "ForceOffroad" false).putBool "ForceOnroad" true
    else if id = 2 then
      (paramsMemory.putBool "ForceOffroad" false).putBool "ForceOnroad" false
    else paramsMemory
  ((btn.setCheckedButton paramsMemory id).1, (btn.setCheckedButton paramsMemory id).2.1)

/-- A sequence of clicks on the Force Started State control, by id. -/
def forceStartedClicks (btn : FrogPilotButtonsControl) (paramsMemory : Params) :
    List ℤ → FrogPilotButtonsControl × Params
  | [] => (btn, paramsMemory)
  | id :: rest =>
    forceStartedClicks (forceStartedClicked btn paramsMemory id).1
      (forceStartedClicked btn paramsMemory id).2 rest

end DevicePanel

/-! ## FrogPilotParamToggleControl: construction and the secondary buttons' click slot -/

/-- The signals of `FrogPilotParamToggleControl` (lines 373-375). -/
inductive ToggleControlSignal where
  | buttonClicked (checked : Bool)
  | buttonTypeClicked (i : ℤ)
  deriving DecidableEq

namespace FrogPilotParamToggleControl

/-- Lines 287-340: the constructor. The buttons are created from `button_texts` (loop of
line 324), checkable, in a non-exclusive group, with ids 0, 1, ...; `button_params` is
stored as given (line 322). The toggle of the base `ParamControl` starts in the off
position. -/
def new (param : String) (button_params button_texts : List String) :
    FrogPilotParamToggleControl :=
  { key := param, toggle_on := false, button_params := button_params,
    button_group :=
      button_texts.foldl
        (fun g text =>
          g.addButton
            { text := text, checkable := true, checked := false, enabled := true,
              visible := true })
        { exclusive := false, buttons := [] } }

/-- Lines 331-336: the slot connected to `clicked(checked)` of the button created at loop
index `i`. An index outside `button_params` is undefined behaviour (no result), and so is
a null `button_group->button(i)`. -/
def buttonClicked (c : FrogPilotParamToggleControl) (params : Params) (i : ℕ) (checked : Bool) :
    Option (FrogPilotParamToggleControl × Params × List ToggleControlSignal) :=
  match c.button_params[i]? with
  | none => none
  | some button_param =>
    let params := params.putBool button_param checked
    match c.button_group.button (i : ℤ) with
    | none => none
    | some _ =>
      some ({ c with button_group := (c.button_group.setChecked i checked).1 }, params,
        [.buttonClicked checked, .buttonTypeClicked (i : ℤ)])

/-- A user click on the secondary button `i`: Qt moves a checkable, enabled button to its
next check state and emits `clicked(checked)` with the new state, which runs the slot of
lines 331-336. A missing or disabled button receives no click. -/
def click (c : FrogPilotParamToggleControl) (params : Params) (i : ℕ) :
    Option (FrogPilotParamToggleControl × Params × List ToggleControlSignal) :=
  match c.button_group.buttons[i]? with
  | none => some (c, params, [])
  | some b =>
    if !b.enabled then some (c, params, [])
    else
      let g := (c.button_group.click i).1
      match g.buttons[i]? with
      | none => some ({ c with button_group := g }, params, [])
      | some pressed => buttonClicked { c with button_group := g } params i pressed.checked

/-- A control as the constructor builds it from `button_params` and `button_texts`, in any
check, enablement and visibility state of its buttons. -/
def BuiltFrom (c : FrogPilotParamToggleControl) (button_params button_texts : List String) :
    Prop :=
  c.button_params = button_params ∧ c.button_group.exclusive = false ∧
    c.button_group.buttons.map (fun b => b.text) = button_texts ∧
    ∀ b ∈ c.button_group.buttons.map (fun b => b.checkable), b = true

end FrogPilotParamToggleControl

/-! ## TogglesPanel: construction and updateToggles (settings.cc) -/

/-- Modelled from the spec: `Params::get(key)`, the bytes stored under the key, empty when
the key is absent. A key holds one type for its lifetime, so a key that holds no byte
string reads as empty here. -/
def Params.get (p : Params) (key : String) : String :=
  match p.data key with
  | some (.text s) => s
  | _ => ""

/-- Modelled from the spec: the toggle control `ParamControl` (declared in
`selfdrive/ui/qt/widgets/controls.h`, which is not among the sources): its key, the toggle
position, whether the toggle is enabled, whether the widget is visible, and the
description text. -/
structure ParamControl where
  key : String
  toggle_on : Bool
  enabled : Bool
  visible : Bool
  description : String
  deriving DecidableEq

/-- Modelled from the spec: `ParamControl::refresh()` on a toggle, which moves the toggle
to the stored value of its key. -/
def ParamControl.refreshToggle (t : ParamControl) (params : Params) : ParamControl :=
  { t with toggle_on := ParamControl.refresh params t.key }

/-- Modelled from the spec: `ButtonParamControl::setEnabled(enable)`, which enables or
disables every button of the group. -/
def ButtonParamControl.setEnabled (c : ButtonParamControl) (enable : Bool) :
    ButtonParamControl :=
  { c with
    button_group :=
      { c.button_group with
        buttons := c.button_group.buttons.map (fun btn => { btn with enabled := enable }) } }

/-- The fields of a parsed `cereal::CarParams` message that `updateToggles` and
`hasLongitudinalControl` read. -/
structure CarParams where
  experimentalLongitudinalAvailable : Bool
  openpilotLongitudinalControl : Bool
  deriving DecidableEq

/-- How a call can fail instead of returning: a member access through a null toggle
pointer (the key `toggles[...]` did not hold a toggle), or an exception that leaves the
function because nothing catches it. -/
inductive Failure where
  | nullDereference (key : String)
  | uncaughtException
  deriving DecidableEq

/-- The failure of a call, none when it returned. -/
def Failure.of {α : Type} (r : Except Failure α) : Option Failure :=
  match r with
  | .error e => some e
  | .ok _ => none

/-- The members of `TogglesPanel` used by the constructor and `updateToggles`: the map
`toggles` from parameter name to toggle (a name without a toggle maps to none, the null
pointer that `operator[]` inserts) and the driving-personality control. -/
structure TogglesPanel where
  toggles : String → Option ParamControl
  long_personality_setting : ButtonParamControl

namespace TogglesPanel

/-- Lines 29-131: `toggle_defs`, as (param, desc); title and icon are not modelled. The
last two entries are compiled only under `ENABLE_MAPS`. -/
def toggle_defs ( ENABLE_MAPS : Bool) : List (String × String) :=
  [("OpenpilotEnabledToggle",
      "Use the openpilot system for adaptive cruise control and lane keep driver assistance. Your attention is required at all times to use this feature. Changing this setting takes effect when the car is powered off."),
    ("ExperimentalLongitudinalEnabled",
      "<b>" ++ "WARNING: openpilot longitudinal control is in alpha for this car and will disable Automatic Emergency Braking (AEB)." ++ "</b><br><br>" ++
        "On this car, openpilot defaults to the car's built-in ACC instead of openpilot's longitudinal control. Enable this to switch to openpilot longitudinal control. Enabling Experimental mode is recommended when enabling openpilot longitudinal control alpha."),
    ("ExperimentalMode", ""),
    ("ExperimentalLongTune",
      "Enable the longitudinal auto-tuning feature. Slowly adjusts the acceleration gain to minimize error"),
    ("BlendedACC", "Blend stock MRCC and Experimental Mode longitudinal control."),
    ("TorqueInterceptorEnabled", "Enable the torque interceptor to control the steering wheel."),
    ("RadarInterceptorEnabled", "Enable if you have installed the radar Iterceptor."),
    ("NoMRCC", "Enable if your car does not have stock MRCC."),
    ("NoFSC", "Enable if your car does not have stock FSC."),
    ("DisengageOnAccelerator",
      "When enabled, pressing the accelerator pedal will disengage openpilot."),
    ("IsLdwEnabled",
      "Receive alerts to steer back into the lane when your vehicle drifts over a detected lane line without a turn signal activated while driving over 31 mph (50 km/h)."),
    ("RecordFront",
      "Upload data from the driver facing camera and help improve the driver monitoring algorithm."),
    ("RecordBack", "Upload data from the road cameras."),
    ("IsMetric", "Display speed in km/h instead of mph.")] ++
  (if ENABLE_MAPS then
    [("NavSettingTime24h", "Use 24h format instead of am/pm"),
      ("NavSettingLeftSide", "Show map on left side when in split screen view.")]
  else [])

/-- The statement `toggles[key] = toggle`. -/
def setToggle (panel : TogglesPanel) (key : String) (toggle : ParamControl) : TogglesPanel :=
  { panel with toggles := fun k => if k = key then some toggle else panel.toggles k }

/-- The access `toggles[key]->`: the toggle the pointer leads to, or a failure for a null
pointer. -/
def toggle (panel : TogglesPanel) (key : String) : Except Failure ParamControl :=
  match panel.toggles key with
  | some t => .ok t
  | none => .error (.nullDereference key)

/-- Lines 27-173: the constructor. Each toggle of `toggle_defs` is created in the off
position with its description, enabled unless `param + "Lock"` is true in the store
(lines 148-149), and entered into `toggles` (line 152). The personality control is built
by `ButtonParamControl` (not among the sources) and passed in. Icons, confirmation flags
and signal connections (lines 161-172) are not modelled. -/
def new ( ENABLE_MAPS : Bool) (params : Params) (long_personality_setting : ButtonParamControl) :
    TogglesPanel :=
  (toggle_defs ENABLE_MAPS).foldl
    (fun panel def_ =>
      let locked := params.getBool (def_.1 ++ "Lock")
      panel.setToggle def_.1
        { key := def_.1, toggle_on := false, enabled := !locked, visible := true,
          description := def_.2 })
    { toggles := fun _ => none, long_personality_setting := long_personality_setting }

/-- Lines 205-216: `e2e_description`. -/
def e2e_description : String :=
  "openpilot defaults to driving in <b>chill mode</b>. Experimental mode enables <b>alpha-level features</b> that aren't ready for chill mode. Experimental features are listed below:" ++ "<br>" ++
  "<h4>" ++ "End-to-End Longitudinal Control" ++ "</h4><br>" ++
  "Let the driving model control the gas and brakes. openpilot will drive as it thinks a human would, including stopping for red lights and stop signs. Since the driving model decides the speed to drive, the set speed will only act as an upper bound. This is an alpha quality feature; mistakes should be expected." ++ "<br>" ++
  "<h4>" ++ "New Driving Visualization" ++ "</h4><br>" ++
  "The driving visualization will transition to the road-facing wide-angle camera at low speeds to better show some turns. The Experimental mode logo will also be shown in the top right corner." ++ "<br>"

/-- Lines 245-252: the description of the Experimental Mode toggle when the car has no
openpilot longitudinal control. -/
def unavailable_description (experimentalLongitudinalAvailable : Bool) : String :=
  let unavailable :=
    "Experimental mode is currently unavailable on this car since the car's stock ACC is used for longitudinal control."
  let long_desc :=
    if experimentalLongitudinalAvailable then
      "Enable the openpilot longitudinal control (alpha) toggle to allow Experimental mode."
    else unavailable ++ " " ++ "openpilot longitudinal control may come in a future update."
  "<b>" ++ long_desc ++ "</b><br><br>" ++ e2e_description

/-- Lines 195-260: `TogglesPanel::updateToggles`. `parse` stands for the capnp reader of
lines 220-222 (not among the sources): none means that the reader throws, and since
`updateToggles` has no `try` block the exception leaves the function.
`hasLongitudinalControl` (declared in `selfdrive/ui/ui.h`, not among the sources) is given
the descriptor and the store as it is at the call of line 228. -/
def updateToggles (parse : String → Option CarParams)
    (hasLongitudinalControl : CarParams → Params → Bool) (panel : TogglesPanel)
    (params : Params) : Except Failure (TogglesPanel × Params) :=
  match panel.toggle "DisengageOnAccelerator" with
  | .error e => .error e
  | .ok disengage_on_accelerator_toggle =>
  let panel := panel.setToggle "DisengageOnAccelerator"
    { disengage_on_accelerator_toggle with visible := !params.getBool "AlwaysOnLateral" }
  match panel.toggle "RecordFront" with
  | .error e => .error e
  | .ok driver_camera_toggle =>
  let panel := panel.setToggle "RecordFront"
    { driver_camera_toggle with
      visible :=
        !(params.getBool "DeviceManagement" && params.getBool "NoLogging" &&
          params.getBool "NoUploads") }
  match panel.toggle "NavSettingLeftSide" with
  | .error e => .error e
  | .ok nav_settings_left_toggle =>
  let panel := panel.setToggle "NavSettingLeftSide"
    { nav_settings_left_toggle with visible := !params.getBool "FullMap" }
  let cp_bytes := params.get "CarParamsPersistent"
  if cp_bytes ≠ "" then
    match parse cp_bytes with
    | none => .error .uncaughtException
    | some CP =>
    let params :=
      if !CP.experimentalLongitudinalAvailable then
        params.remove "ExperimentalLongitudinalEnabled"
      else params
    match panel.toggle "ExperimentalLongitudinalEnabled" with
    | .error e => .error e
    | .ok op_long_toggle =>
    let panel := panel.setToggle "ExperimentalLongitudinalEnabled"
      { op_long_toggle with visible := CP.experimentalLongitudinalAvailable }
    match panel.toggle "ExperimentalMode" with
    | .error e => .error e
    | .ok experimental_mode_toggle =>
    if hasLongitudinalControl CP params then
      let conditional_experimental := params.getBool "ConditionalExperimental"
      let params :=
        if conditional_experimental then
          (params.putBool "ExperimentalMode" true).putBool "ExperimentalModeConfirmed" true
        else params
      let experimental_mode_toggle :=
        if conditional_experimental then experimental_mode_toggle.refreshToggle params
        else experimental_mode_toggle
      let experimental_mode_toggle :=
        { experimental_mode_toggle with
          enabled := !conditional_experimental, description := e2e_description }
      let panel :=
        { panel with long_personality_setting := panel.long_personality_setting.setEnabled true }
      .ok (panel.setToggle "ExperimentalMode" (experimental_mode_toggle.refreshToggle params),
        params)
    else
      let experimental_mode_toggle := { experimental_mode_toggle with enabled := false }
      let panel :=
        { panel with long_personality_setting := panel.long_personality_setting.setEnabled false }
      let params := params.remove "ExperimentalMode"
      let experimental_mode_toggle :=
        { experimental_mode_toggle with
          description := unavailable_description CP.experimentalLongitudinalAvailable }
      .ok (panel.setToggle "ExperimentalMode" (experimental_mode_toggle.refreshToggle params),
        params)
  else
    match panel.toggle "ExperimentalMode" with
    | .error e => .error e
    | .ok experimental_mode_toggle =>
    let panel := panel.setToggle "ExperimentalMode"
      { experimental_mode_toggle with description := e2e_description }
    match panel.toggle "ExperimentalLongitudinalEnabled" with
    | .error e => .error e
    | .ok op_long_toggle =>
    .ok (panel.setToggle "ExperimentalLongitudinalEnabled" { op_long_toggle with visible := false },
      params)

end TogglesPanel

/-- A stand-in for the capnp reader in evaluations: three byte strings are read as
descriptors, on every other one the reader throws. -/
def sampleParse : String → Option CarParams
  | "long" => some { experimentalLongitudinalAvailable := false, openpilotLongitudinalControl := true }
  | "alpha" => some { experimentalLongitudinalAvailable := true, openpilotLongitudinalControl := false }
  | "stock" => some { experimentalLongitudinalAvailable := false, openpilotLongitudinalControl := false }
  | _ => none

/-- A longitudinal-control predicate for evaluations: the alpha toggle decides where
experimental longitudinal control is available, the descriptor elsewhere. -/
def sampleHasLongitudinalControl ( CP : CarParams) (params : Params) : Bool :=
  if CP.experimentalLongitudinalAvailable then params.getBool "ExperimentalLongitudinalEnabled"
  else CP.openpilotLongitudinalControl

/-- The driving-personality control of lines 134-140 with no button checked. -/
def samplePersonalityControl : ButtonParamControl :=
  { key := "LongitudinalPersonality",
    button_group :=
      { exclusive := true,
        buttons :=
          [⟨"Aggressive", true, false, true, true⟩, ⟨"Standard", true, false, true, true⟩,
            ⟨"Relaxed", true, false, true, true⟩] } }

/-! ## Lemmas: store and numeric helpers -/

theorem Params.getFloat_putFloat (p : Params) (key : String) (x : ℚ) :
    (p.putFloat key x).getFloat key = x := by
  simp [Params.getFloat, Params.putFloat]

theorem floor_intCast_add_half (m : ℤ) : ⌊(m : ℚ) + 1 / 2⌋ = m := by
  rw [Int.floor_eq_iff]
  constructor
  · linarith
  · linarith

theorem round_intCast (m : ℤ) : round (m : ℚ) = m := by
  unfold round
  split
  · exact floor_intCast_add_half m
  · have h : -(m : ℚ) = ((-m : ℤ) : ℚ) := by push_cast; ring
    rw [h, floor_intCast_add_half]
    simp

theorem toInt_intCast (m : ℤ) : toInt (m : ℚ) = m := by
  unfold toInt
  split
  · exact Int.floor_intCast m
  · have h : -(m : ℚ) = ((-m : ℤ) : ℚ) := by push_cast; ring
    rw [h, Int.floor_intCast]
    simp

theorem log2Fuel_le (fuel n K : ℕ) (h : n < 2 ^ (K + 1)) : log2Fuel fuel n ≤ K := by
  induction fuel generalizing n K with
  | zero => simp [log2Fuel]
  | succ fuel ih =>
    unfold log2Fuel
    split_ifs with h2
    · exact Nat.zero_le _
    · cases K with
      | zero => simp at h; omega
      | succ K =>
        have : n / 2 < 2 ^ (K + 1) := by
          rw [Nat.div_lt_iff_lt_mul (by norm_num)]
          rw [pow_succ] at h
          exact h
        have := ih (n / 2) K this
        omega

theorem binade_intCast_le (n : ℤ) (K : ℕ) (h : |n| < 2 ^ (K + 1)) : binade (n : ℚ) ≤ K := by
  have h1 : log2Fuel n.natAbs n.natAbs ≤ K := by
    apply log2Fuel_le
    have : (n.natAbs : ℤ) < 2 ^ (K + 1) := by rw [Int.natCast_natAbs]; exact h
    exact_mod_cast this
  have h2 : log2Fuel 1 1 = 0 := by decide
  unfold binade
  simp only [Rat.num_intCast, Rat.den_intCast, h2]
  split_ifs <;> omega

theorem roundHalfEven_intCast (m : ℤ) : roundHalfEven (m : ℚ) = m := by
  unfold roundHalfEven
  simp

theorem fl_of_quotient (precision : ℕ) (x : ℚ) (m : ℤ)
    (h : x / 2 ^ (binade x - ((precision : ℤ) - 1)) = m) : fl precision x = x := by
  unfold fl
  split_ifs with h0
  · exact h0.symm
  · rw [h, roundHalfEven_intCast, ← h]
    have : (2 : ℚ) ^ (binade x - ((precision : ℤ) - 1)) ≠ 0 := zpow_ne_zero _ (by norm_num)
    field_simp

/-- An integer multiple of `2 ^ k` below `2 ^ (precision + k)` in magnitude is a value of
the format: rounding leaves it as it is. -/
theorem fl_intCast (precision k : ℕ) (hp : 1 ≤ precision) (n : ℤ) (hk : (2 : ℤ) ^ k ∣ n)
    (h : |n| < 2 ^ (precision + k)) : fl precision (n : ℚ) = n := by
  have hb : binade (n : ℚ) ≤ ((precision + k - 1 : ℕ) : ℤ) := by
    apply binade_intCast_le
    have : precision + k - 1 + 1 = precision + k := by omega
    rw [this]
    exact h
  obtain ⟨c, hc⟩ := hk
  by_cases hj : binade (n : ℚ) - ((precision : ℤ) - 1) ≤ 0
  · obtain ⟨t, ht⟩ : ∃ t : ℕ, binade (n : ℚ) - ((precision : ℤ) - 1) = -(t : ℤ) :=
      ⟨(-(binade (n : ℚ) - ((precision : ℤ) - 1))).toNat, by omega⟩
    apply fl_of_quotient precision _ (n * 2 ^ t)
    rw [ht, zpow_neg, zpow_natCast]
    push_cast
    field_simp
  · obtain ⟨t, ht⟩ : ∃ t : ℕ, binade (n : ℚ) - ((precision : ℤ) - 1) = (t : ℤ) :=
      ⟨(binade (n : ℚ) - ((precision : ℤ) - 1)).toNat, by omega⟩
    have htk : t ≤ k := by
      have : ((precision + k - 1 : ℕ) : ℤ) = (precision : ℤ) + k - 1 := by omega
      omega
    apply fl_of_quotient precision _ (2 ^ (k - t) * c)
    rw [ht, zpow_natCast, hc]
    push_cast
    have h2 : (2 : ℚ) ^ k = 2 ^ t * 2 ^ (k - t) := by
      rw [← pow_add]
      congr 1
      omega
    rw [h2]
    field_simp
    ring

/-- For an integer of magnitude at most 671088 the hundredfold is below `2 ^ 26` and a
multiple of 4, so the binary32 product of line 433 is exact. -/
theorem fl32_hundredfold (n : ℤ) (h : |n| ≤ 671088) :
    fl32 ((n : ℚ) * 100) = ((n * 100 : ℤ) : ℚ) := by
  have e : (n : ℚ) * 100 = ((n * 100 : ℤ) : ℚ) := by push_cast; ring
  rw [e]
  apply fl_intCast 24 2 (by norm_num)
  · exact ⟨n * 25, by ring⟩
  · have h1 := abs_le.mp h
    rw [abs_lt]
    constructor <;> norm_num <;> omega

theorem fl64_intCast (n : ℤ) (h : |n| ≤ 671088) : fl64 (n : ℚ) = n := by
  apply fl_intCast 53 0 (by norm_num)
  · simp
  · have h1 := abs_le.mp h
    rw [abs_lt]
    constructor <;> norm_num <;> omega

namespace FrogPilotParamValueControl

theorem adjusted_intCast_one (n : ℤ) (h : |n| ≤ 671088) : adjusted (n : ℚ) 1 = n := by
  unfold adjusted
  rw [fl32_hundredfold n h, round_intCast]
  have h2 : (((n * 100 : ℤ) : ℚ)) / 100 = (n : ℚ) := by push_cast; field_simp
  rw [h2, fl64_intCast n h, div_one, fl64_intCast n h, toInt_intCast]

theorem adjusted_intCast_neg_one (n : ℤ) (h : |n| ≤ 671088) : adjusted (n : ℚ) (-1) = -n := by
  unfold adjusted
  rw [fl32_hundredfold n h, round_intCast]
  have h2 : (((n * 100 : ℤ) : ℚ)) / 100 = (n : ℚ) := by push_cast; field_simp
  have h3 : (n : ℚ) / (-1) = ((-n : ℤ) : ℚ) := by push_cast; field_simp
  rw [h2, fl64_intCast n h, h3, fl64_intCast (-n) (by rwa [abs_neg]), toInt_intCast]

theorem bounded_mem (loop : Bool) (lo hi v : ℚ) (h : lo ≤ hi) :
    lo ≤ bounded loop lo hi v ∧ bounded loop lo hi v ≤ hi := by
  unfold bounded stdMax stdMin
  constructor <;> (split_ifs <;> linarith)

@[simp] theorem refresh_value (c : FrogPilotParamValueControl) (params : Params) :
    (refresh c params).value = params.getFloat c.key := rfl

@[simp] theorem refresh_previousValue (c : FrogPilotParamValueControl) (params : Params) :
    (refresh c params).previousValue = c.previousValue := rfl

@[simp] theorem refresh_key (c : FrogPilotParamValueControl) (params : Params) :
    (refresh c params).key = c.key := rfl

@[simp] theorem refresh_loop (c : FrogPilotParamValueControl) (params : Params) :
    (refresh c params).loop = c.loop := rfl

@[simp] theorem refresh_minValue (c : FrogPilotParamValueControl) (params : Params) :
    (refresh c params).minValue = c.minValue := rfl

@[simp] theorem refresh_maxValue (c : FrogPilotParamValueControl) (params : Params) :
    (refresh c params).maxValue = c.maxValue := rfl

theorem updateValue_stored (c : FrogPilotParamValueControl) (params : Params) (s : ℚ) :
    (updateValue c params s).2.getFloat c.key =
      bounded c.loop c.minValue c.maxValue (c.value + appliedStep c.previousValue c.value s) := by
  simp [updateValue, Params.getFloat_putFloat]

theorem updateValue_value (c : FrogPilotParamValueControl) (params : Params) (s : ℚ) :
    (updateValue c params s).1.value =
      bounded c.loop c.minValue c.maxValue (c.value + appliedStep c.previousValue c.value s) := by
  simp [updateValue, Params.getFloat_putFloat]

end FrogPilotParamValueControl

/-! ## Lemmas: button groups -/

theorem Params.getBool_putBool (p : Params) (key k : String) (v : Bool) :
    (p.putBool key v).getBool k = if k = key then v else p.getBool k := by
  unfold Params.getBool Params.putBool
  by_cases h : k = key <;> simp [h]

theorem List.map_set_of_getElem? {α β : Type} (f : α → β) (l : List α) (i : ℕ) (a b : α)
    (h : l[i]? = some b) (hf : f a = f b) : (l.set i a).map f = l.map f := by
  apply List.ext_getElem?
  intro j
  rw [List.getElem?_map, List.getElem?_map, List.getElem?_set]
  by_cases hji : i = j
  · subst hji
    have hlt : i < l.length := by
      by_contra hc
      rw [List.getElem?_eq_none (not_lt.mp hc)] at h
      cases h
    simp [hlt, h, hf]
  · simp [hji]

namespace QButtonGroup

theorem setChecked_exclusive (g : QButtonGroup) (i : ℕ) (checked : Bool) :
    (g.setChecked i checked).1.exclusive = g.exclusive := by
  unfold setChecked
  split
  · rfl
  · split_ifs <;> rfl

theorem setChecked_unchecked (g : QButtonGroup) (i : ℕ) (checked : Bool) :
    (g.setChecked i checked).1.buttons.map QPushButton.unchecked =
      g.buttons.map QPushButton.unchecked := by
  unfold setChecked
  split
  · rfl
  · rename_i b hb
    split_ifs
    · rfl
    · show (List.set (g.buttons.map (fun x => { x with checked := false })) i _).map _ = _
      have hb' : (g.buttons.map (fun x : QPushButton => { x with checked := false }))[i]?
          = some { b with checked := false } := by
        rw [List.getElem?_map, hb]; rfl
      rw [List.map_set_of_getElem? QPushButton.unchecked _ i { b with checked := true }
        { b with checked := false } hb' rfl, List.map_map]
      rfl
    · exact List.map_set_of_getElem? _ _ _ _ _ hb rfl
    · rfl
    · exact List.map_set_of_getElem? _ _ _ _ _ hb rfl

theorem setChecked_visible (g : QButtonGroup) (i : ℕ) (checked : Bool) :
    (g.setChecked i checked).1.buttons.map (fun b => b.visible) =
      g.buttons.map (fun b => b.visible) := by
  have h := congrArg (List.map (fun b : QPushButton => b.visible)) (setChecked_unchecked g i checked)
  simpa [List.map_map, Function.comp_def, QPushButton.unchecked] using h

theorem setChecked_length (g : QButtonGroup) (i : ℕ) (checked : Bool) :
    (g.setChecked i checked).1.buttons.length = g.buttons.length := by
  have h := congrArg List.length (setChecked_unchecked g i checked)
  simpa using h

/-- The button at position `j` after `setChecked(true)` on the button at position `i`:
nothing changes unless that button exists, is checkable and is unchecked; then it becomes
checked and, in an exclusive group, every other button is unchecked. -/
theorem setChecked_true_get (g : QButtonGroup) (i j : ℕ) (b : QPushButton)
    (hb : g.buttons[j]? = some b) :
    (g.setChecked i true).1.buttons[j]? =
      some
        (match g.buttons[i]? with
        | none => b
        | some t =>
          if t.checkable = true ∧ t.checked = false then
            if j = i then { b with checked := true }
            else if g.exclusive = true then { b with checked := false }
            else b
          else b) := by
  have hj : j < g.buttons.length := by
    by_contra hn
    rw [List.getElem?_eq_none (by omega)] at hb
    cases hb
  unfold setChecked
  cases ht : g.buttons[i]? with
  | none => simpa using hb
  | some t =>
    have hi : i < g.buttons.length := by
      by_contra hn
      rw [List.getElem?_eq_none (by omega)] at ht
      cases ht
    by_cases hc : t.checkable = true
    · by_cases hk : t.checked = true
      · simp [hc, hk, hb]
      · have hk2 : t.checked = false := by simpa using hk
        by_cases hji : j = i
        · subst hji
          have hbt : b = t := by
            rw [hb] at ht
            exact Option.some.inj ht
          subst hbt
          cases hex : g.exclusive <;> simp [hc, hk2, hex, hj]
        · have hij : i ≠ j := fun h => hji h.symm
          cases hex : g.exclusive <;>
            simp [hc, hk2, hex, hji, List.getElem?_set_ne hij, hb]
    · have hc2 : t.checkable = false := by simpa using hc
      simp [hc2, hb]

end QButtonGroup

namespace FrogPilotParamToggleControl

theorem updateButtonStatesFrom_spec (c : FrogPilotParamToggleControl) (params : Params)
    (i n : ℕ) (h : i + n ≤ c.button_params.length) :
    ∃ r, updateButtonStatesFrom c params i n = some r ∧ r.2 = params ∧
      r.1.button_group.buttons.map (fun b => b.visible) =
        c.button_group.buttons.map (fun b => b.visible) := by
  induction n generalizing c i with
  | zero => exact ⟨(c, params), rfl, rfl, rfl⟩
  | succ n ih =>
    have hi : i < c.button_params.length := by omega
    rw [updateButtonStatesFrom, List.getElem?_eq_getElem hi]
    cases hb : c.button_group.button (i : ℤ) with
    | none =>
      simp only []
      exact ih c (i + 1) (by omega)
    | some b =>
      simp only []
      obtain ⟨r, hr, hp, hv⟩ :=
        ih { c with button_group := (c.button_group.setChecked i (params.getBool c.button_params[i])).1 }
          (i + 1) (by simp only []; omega)
      exact ⟨r, hr, hp, hv.trans (QButtonGroup.setChecked_visible _ _ _)⟩

end FrogPilotParamToggleControl

namespace FrogPilotButtonsParamControl

theorem writeAll_getBool (l : List (String × String)) (t : String) (s : Params) (k : String) :
    (l.foldl (fun p x => p.putBool x.1 (x.1 == t)) s).getBool k =
      if k ∈ l.map Prod.fst then (k == t) else s.getBool k := by
  induction l generalizing s with
  | nil => simp
  | cons x rest ih =>
    rw [List.foldl_cons, ih, Params.getBool_putBool]
    by_cases h1 : k ∈ rest.map Prod.fst
    · simp [h1]
    · by_cases h2 : k = x.1
      · simp [h2]
      · have h3 : k ∉ (x :: rest).map Prod.fst := by
          simp only [List.map_cons, List.mem_cons, not_or]
          exact ⟨h2, h1⟩
        simp [h1, h2, h3]

theorem deliver_unchecked (c : FrogPilotButtonsParamControl) (params : Params) (l : List ℕ)
    (rest : List (ℕ × Bool)) :
    deliver c params (l.map (fun j => (j, false)) ++ rest) = deliver c params rest := by
  induction l with
  | nil => rfl
  | cons j l ih =>
    rw [List.map_cons, List.cons_append, deliver]
    cases c.button_params[j]? with
    | none => simpa using ih
    | some param_pair => simp [toggled, ih]

theorem new_group (button_params : List (String × String)) (params : Params) :
    (button_params.foldl
        (fun g param_pair =>
          QButtonGroup.addButton g
            { text := param_pair.2, checkable := true, checked := params.getBool param_pair.1,
              enabled := true, visible := true })
        { exclusive := true, buttons := [] }).exclusive = true ∧
    (button_params.foldl
        (fun g param_pair =>
          QButtonGroup.addButton g
            { text := param_pair.2, checkable := true, checked := params.getBool param_pair.1,
              enabled := true, visible := true })
        { exclusive := true, buttons := [] }).buttons.length = button_params.length ∧
    ∀ (j : ℕ) (b : QPushButton),
      (button_params.foldl
        (fun g param_pair =>
          QButtonGroup.addButton g
            { text := param_pair.2, checkable := true, checked := params.getBool param_pair.1,
              enabled := true, visible := true })
        { exclusive := true, buttons := [] }).buttons[j]? = some b →
      b.checkable = true ∧ b.enabled = true ∧
        (b.checked = true →
          ∃ param_pair : String × String, button_params[j]? = some param_pair ∧
            params.getBool param_pair.1 = true) := by
  induction button_params using List.reverseRecOn with
  | nil => simp
  | append_singleton l x ih =>
    obtain ⟨hex, hlen, hall⟩ := ih
    rw [List.foldl_append, List.foldl_cons, List.foldl_nil]
    set g := l.foldl
        (fun g param_pair =>
          QButtonGroup.addButton g
            { text := param_pair.2, checkable := true, checked := params.getBool param_pair.1,
              enabled := true, visible := true })
        { exclusive := true, buttons := [] } with hg
    refine ⟨?_, ?_, ?_⟩
    · unfold QButtonGroup.addButton
      split_ifs <;> exact hex
    · unfold QButtonGroup.addButton
      split_ifs <;> simp [hlen]
    · intro j b hb
      by_cases hj : j < l.length
      · have hl : (l ++ [x])[j]? = l[j]? := List.getElem?_append_left hj
        rw [hl]
        unfold QButtonGroup.addButton at hb
        split_ifs at hb
        · rw [List.getElem?_append_left (by simpa [hlen] using hj), List.getElem?_map] at hb
          cases hbj : g.buttons[j]? with
          | none => rw [hbj] at hb; cases hb
          | some b0 =>
            rw [hbj] at hb
            simp only [Option.map_some', Option.some.injEq] at hb
            obtain ⟨h1, h2, _⟩ := hall j b0 hbj
            subst hb
            exact ⟨h1, h2, fun h => by cases h⟩
        · rw [List.getElem?_append_left (by simpa [hlen] using hj)] at hb
          exact hall j b hb
      · have hjl : l.length ≤ j := not_lt.mp hj
        unfold QButtonGroup.addButton at hb
        have hb2 : ([(⟨x.2, true, params.getBool x.1, true, true⟩ : QPushButton)])[j - l.length]?
            = some b := by
          split_ifs at hb
          · rwa [List.getElem?_append_right (by simpa [hlen] using hjl), List.length_map,
              hlen] at hb
          · rwa [List.getElem?_append_right (by simpa [hlen] using hjl), hlen] at hb
        have hx : (l ++ [x])[j]? = [x][j - l.length]? := List.getElem?_append_right hjl
        rw [hx]
        cases hk : j - l.length with
        | zero =>
          rw [hk] at hb2
          simp only [List.getElem?_cons_zero, Option.some.injEq] at hb2
          subst hb2
          exact ⟨rfl, rfl, fun h => ⟨x, by simp, h⟩⟩
        | succ k =>
          rw [hk] at hb2
          simp at hb2

theorem click_of_checked (c : FrogPilotButtonsParamControl) (params : Params) (i : ℕ)
    (b : QPushButton) (hb : c.button_group.buttons[i]? = some b) (hen : b.enabled = true)
    (hca : b.checkable = true) (hch : b.checked = true) (hex : c.button_group.exclusive = true) :
    click c params i = (c, params, 0) := by
  simp [click, QButtonGroup.click, QButtonGroup.setChecked, hb, hen, hca, hch, hex, deliver]

theorem click_of_unchecked (c : FrogPilotButtonsParamControl) (params : Params) (i : ℕ)
    (b : QPushButton) (param_pair : String × String)
    (hb : c.button_group.buttons[i]? = some b) (hen : b.enabled = true)
    (hca : b.checkable = true) (hch : b.checked = false)
    (hex : c.button_group.exclusive = true) (hp : c.button_params[i]? = some param_pair) :
    (click c params i).1.button_params = c.button_params ∧
    (click c params i).1.button_group =
      { c.button_group with
        buttons :=
          List.set (c.button_group.buttons.map (fun x => { x with checked := false })) i
            ({ b with checked := true }) } ∧
    (click c params i).2.1 =
      c.button_params.foldl (fun p x => p.putBool x.1 (x.1 == param_pair.1)) params := by
  have hclick : c.button_group.click i = c.button_group.setChecked i true := by
    simp [QButtonGroup.click, hb, hen, hca, hch]
  have hset : c.button_group.setChecked i true =
      ({ c.button_group with
          buttons :=
            List.set (c.button_group.buttons.map (fun x => { x with checked := false })) i
              ({ b with checked := true }) },
        ((List.range c.button_group.buttons.length).filter
            (fun j => j != i &&
              (c.button_group.buttons[j]?.map (fun x => x.checked)) == some true)).map
          (fun j => (j, false)) ++ [(i, true)]) := by
    simp [QButtonGroup.setChecked, hb, hca, hch, hex]
  unfold click
  rw [hclick, hset, deliver_unchecked]
  simp [deliver, hp, toggled]

theorem index_eq_of_key_eq (bp : List (String × String)) (hnd : (bp.map Prod.fst).Nodup)
    {i j : ℕ} {pi pj : String × String} (hi : bp[i]? = some pi) (hj : bp[j]? = some pj)
    (h : pi.1 = pj.1) : i = j := by
  obtain ⟨hil, hie⟩ := List.getElem?_eq_some.mp hi
  obtain ⟨hjl, hje⟩ := List.getElem?_eq_some.mp hj
  have hil' : i < (bp.map Prod.fst).length := by simpa using hil
  have hjl' : j < (bp.map Prod.fst).length := by simpa using hjl
  have e : (bp.map Prod.fst)[i] = (bp.map Prod.fst)[j] := by
    simp only [List.getElem_map, hie, hje, h]
  exact (List.Nodup.getElem_inj_iff hnd).mp e

theorem onlyTrue_writeAll (bp : List (String × String)) (hnd : (bp.map Prod.fst).Nodup)
    (params : Params) (i : ℕ) (pi : String × String) (hi : bp[i]? = some pi) :
    OnlyTrue bp (bp.foldl (fun p x => p.putBool x.1 (x.1 == pi.1)) params) i := by
  intro j pj hj
  have hmem : pj.1 ∈ bp.map Prod.fst := List.mem_map.mpr ⟨pj, List.getElem?_mem hj, rfl⟩
  rw [writeAll_getBool, if_pos hmem]
  constructor
  · intro h
    exact index_eq_of_key_eq bp hnd hj hi (by simpa using h)
  · intro h
    subst h
    rw [hj] at hi
    cases hi
    simp

theorem click_consistent (bp : List (String × String)) (hnd : (bp.map Prod.fst).Nodup)
    (c : FrogPilotButtonsParamControl) (params : Params) (i : ℕ)
    (hc : Consistent bp c params) (hi : i < bp.length) :
    Consistent bp (click c params i).1 (click c params i).2.1 ∧
      OnlyTrue bp (click c params i).2.1 i := by
  obtain ⟨hbp, hex, hlen, hce, hchk⟩ := hc
  have hib : i < c.button_group.buttons.length := by omega
  have hb : c.button_group.buttons[i]? = some c.button_group.buttons[i] :=
    List.getElem?_eq_getElem hib
  have hp : c.button_params[i]? = some bp[i] := by
    rw [hbp]; exact List.getElem?_eq_getElem hi
  obtain ⟨hca, hen⟩ := hce i _ hb
  cases hch : c.button_group.buttons[i].checked with
  | true =>
    rw [click_of_checked c params i _ hb hen hca hch hex]
    exact ⟨⟨hbp, hex, hlen, hce, hchk⟩, hchk i _ hb hch⟩
  | false =>
    obtain ⟨e1, e2, e3⟩ := click_of_unchecked c params i _ _ hb hen hca hch hex hp
    have hot : OnlyTrue bp (click c params i).2.1 i := by
      rw [e3, hbp]
      exact onlyTrue_writeAll bp hnd params i bp[i] (List.getElem?_eq_getElem hi)
    refine ⟨⟨e1.trans hbp, ?_, ?_, ?_, ?_⟩, hot⟩
    · rw [e2]; exact hex
    · rw [e2]; simpa using hlen
    · intro j b hj
      rw [e2] at hj
      simp only [List.getElem?_set, List.getElem?_map] at hj
      by_cases h1 : i = j
      · subst h1
        simp only [if_true, List.length_map, hib] at hj
        cases hj
        exact ⟨hca, hen⟩
      · simp only [h1, if_false] at hj
        cases hbj : c.button_group.buttons[j]? with
        | none => rw [hbj] at hj; cases hj
        | some b0 =>
          rw [hbj] at hj
          cases hj
          exact hce j b0 hbj
    · intro j b hj hbc
      rw [e2] at hj
      simp only [List.getElem?_set, List.getElem?_map] at hj
      by_cases h1 : i = j
      · subst h1
        exact hot
      · simp only [h1, if_false] at hj
        cases hbj : c.button_group.buttons[j]? with
        | none => rw [hbj] at hj; cases hj
        | some b0 =>
          rw [hbj] at hj
          cases hj
          cases hbc

theorem clicks_onlyTrue (bp : List (String × String)) (hnd : (bp.map Prod.fst).Nodup)
    (cs : List ℕ) (hne : cs ≠ []) (c : FrogPilotButtonsParamControl) (params : Params)
    (hc : Consistent bp c params) (hcs : ∀ i ∈ cs, i < bp.length) :
    OnlyTrue bp (clicks c params cs).2 (cs.getLast hne) := by
  induction cs generalizing c params with
  | nil => exact absurd rfl hne
  | cons i rest ih =>
    have hstep := click_consistent bp hnd c params i hc (hcs i (List.mem_cons_self i rest))
    by_cases hr : rest = []
    · subst hr
      simpa [clicks] using hstep.2
    · rw [List.getLast_cons hr]
      exact ih hr _ _ hstep.1 (fun k hk => hcs k (List.mem_cons_of_mem i hk))

theorem new_consistent (param : String) (bp : List (String × String)) (params : Params)
    (hone : ∀ (i j : ℕ) (pi pj : String × String), bp[i]? = some pi → bp[j]? = some pj →
      params.getBool pi.1 = true → params.getBool pj.1 = true → i = j) :
    Consistent bp (new param bp params) params := by
  obtain ⟨hex, hlen, hall⟩ := new_group bp params
  refine ⟨rfl, hex, hlen, fun j b hb => ⟨(hall j b hb).1, (hall j b hb).2.1⟩, ?_⟩
  intro j b hb hbc
  obtain ⟨pj, hpj, hget⟩ := (hall j b hb).2.2 hbc
  intro k pk hk
  constructor
  · intro h
    exact hone k j pk pj hk hpj h hget
  · intro h
    subst h
    rw [hk] at hpj
    cases hpj
    exact hget

end FrogPilotButtonsParamControl

/-! ## FrogPilotParamValueControl: range, step and write-through -/

section ValueControlClaims
open FrogPilotParamValueControl

/-- C1: with `minValue ≤ maxValue`, for every cached `value`, `previousValue` and step, the
value that `updateValue` stores in the Key-Value Store and leaves in the `value` field lies
in `[minValue, maxValue]`, whether `loop` is false (clamping) or true (wrapping). -/
theorem updateValue_within_bounds (c : FrogPilotParamValueControl) (params : Params)
    (intervalChange : ℚ) (h : c.minValue ≤ c.maxValue) :
    (c.minValue ≤ (updateValue c params intervalChange).2.getFloat c.key ∧
      (updateValue c params intervalChange).2.getFloat c.key ≤ c.maxValue) ∧
    (c.minValue ≤ (updateValue c params intervalChange).1.value ∧
      (updateValue c params intervalChange).1.value ≤ c.maxValue) := by
  rw [updateValue_stored, updateValue_value]
  exact ⟨bounded_mem _ _ _ _ h, bounded_mem _ _ _ _ h⟩

theorem updateValue_within_bounds_witness :
    ((0 : ℚ) ≤ (updateValue (sampleValueControl true 0 100 0 100 1 []) (Params.ofList []) 1).2.getFloat "K" ∧
      (updateValue (sampleValueControl true 0 100 0 100 1 []) (Params.ofList []) 1).2.getFloat "K" ≤ 100) ∧
    ((0 : ℚ) ≤ (updateValue (sampleValueControl true 0 100 0 100 1 []) (Params.ofList []) 1).1.value ∧
      (updateValue (sampleValueControl true 0 100 0 100 1 []) (Params.ofList []) 1).1.value ≤ 100) :=
  updateValue_within_bounds (sampleValueControl true 0 100 0 100 1 []) (Params.ofList []) 1
    (by decide!)

/-- C3, as stated, fails: at the integer value 671101 with baseline 0 and `interval = 1`,
the binary32 product `value * 100` of line 434 is 67110096, so `valueAdjusted` is 671100,
a multiple of 5 more than 5 away from the baseline, and `updateValue(+1)` moves the value
by 5, to 671106, although 671101 is not divisible by 5. -/
theorem updateValue_unit_step_inexact_product :
    (sampleValueControl false 0 1000000 0 671101 1 []).interval = 1 ∧
    (sampleValueControl false 0 1000000 0 671101 1 []).value = ((671101 : ℤ) : ℚ) ∧
    (sampleValueControl false 0 1000000 0 671101 1 []).previousValue = ((0 : ℤ) : ℚ) ∧
    fl32 (671101 * 100) = 67110096 ∧
    adjusted 671101 1 = 671100 ∧
    (671101 : ℤ) % 5 = 1 ∧
    appliedStep (sampleValueControl false 0 1000000 0 671101 1 []).previousValue
      (sampleValueControl false 0 1000000 0 671101 1 []).value 1 = 5 ∧
    (updateValue (sampleValueControl false 0 1000000 0 671101 1 []) (Params.ofList []) 1).1.value
      = 671106 := by
  decide!

/-- C3, amended: with `interval = 1` and integer-valued `value` and `previousValue` of
magnitude at most 671088 (so that the binary32 products of lines 433-434 are exact), one
`updateValue(+1)` or `updateValue(-1)` moves the value, before clamping or wrapping, by 5 in
the pressed direction exactly when `|value - previousValue| > 5` and `value` is divisible by
5, and by 1 in the pressed direction otherwise. -/
theorem updateValue_unit_step (c : FrogPilotParamValueControl) (params : Params)
    (v p : ℤ) (d : ℚ) (hi : c.interval = 1) (hd : d = c.interval ∨ d = -c.interval)
    (hv : c.value = (v : ℚ)) (hp : c.previousValue = (p : ℚ))
    (hvb : |v| ≤ 671088) (hpb : |p| ≤ 671088) :
    appliedStep c.previousValue c.value d = (if |v - p| > 5 ∧ 5 ∣ v then 5 * d else d) ∧
    (updateValue c params d).1.value =
      bounded c.loop c.minValue c.maxValue
        (c.value + (if |v - p| > 5 ∧ 5 ∣ v then 5 * d else d)) := by
  have key : appliedStep c.previousValue c.value d
      = (if |v - p| > 5 ∧ 5 ∣ v then 5 * d else d) := by
    rw [hv, hp]
    rw [hi] at hd
    rcases hd with hd | hd
    · have hc : (|p - v| > 5 ∧ Int.tmod v 5 = 0) ↔ (|v - p| > 5 ∧ 5 ∣ v) := by
        rw [abs_sub_comm, ← Int.dvd_iff_tmod_eq_zero]
      subst hd
      simp only [appliedStep, accelerated, adjusted_intCast_one v hvb,
        adjusted_intCast_one p hpb, decide_eq_true_eq, hc]
      split_ifs <;> ring
    · have hc : (|-p - -v| > 5 ∧ Int.tmod (-v) 5 = 0) ↔ (|v - p| > 5 ∧ 5 ∣ v) := by
        rw [← Int.dvd_iff_tmod_eq_zero, Int.dvd_neg]
        have e : -p - -v = v - p := by ring
        rw [e]
      subst hd
      simp only [appliedStep, accelerated, adjusted_intCast_neg_one v hvb,
        adjusted_intCast_neg_one p hpb, decide_eq_true_eq, hc]
      split_ifs <;> ring
  exact ⟨key, by rw [updateValue_value, key]⟩

theorem updateValue_unit_step_witness :
    appliedStep (sampleValueControl false 0 100 0 10 1 []).previousValue
        (sampleValueControl false 0 100 0 10 1 []).value 1
      = (if |(10 : ℤ) - 0| > 5 ∧ (5 : ℤ) ∣ 10 then 5 * 1 else 1) ∧
    (updateValue (sampleValueControl false 0 100 0 10 1 []) (Params.ofList []) 1).1.value =
      bounded (sampleValueControl false 0 100 0 10 1 []).loop
        (sampleValueControl false 0 100 0 10 1 []).minValue
        (sampleValueControl false 0 100 0 10 1 []).maxValue
        ((sampleValueControl false 0 100 0 10 1 []).value +
          (if |(10 : ℤ) - 0| > 5 ∧ (5 : ℤ) ∣ 10 then 5 * 1 else 1)) :=
  updateValue_unit_step (sampleValueControl false 0 100 0 10 1 []) (Params.ofList []) 10 0 1
    rfl (Or.inl rfl) (by decide!) (by decide!) (by decide) (by decide)

/-- C6, as stated, fails: with `division = 10`, stored value 0 and an override label for
key 0, `refresh` shows the division-formatted number, not the override label. -/
theorem refresh_division_ignores_override :
    (sampleValueControl false 0 100 0 0 10 [(0, "Off")]).valueLabelMappings.lookup
        (toInt ((Params.ofList [("K", .float 0)]).getFloat "K")) = some "Off" ∧
    (refresh (sampleValueControl false 0 100 0 0 10 [(0, "Off")])
        (Params.ofList [("K", .float 0)])).valueLabel ≠ [.literal "Off"] ∧
    (refresh (sampleValueControl false 0 100 0 0 10 [(0, "Off")])
        (Params.ofList [("K", .float 0)])).valueLabel = [.number 0 'g' 4] := by
  decide!

/-- C6, amended: in `refresh` the division-based format comes first: when `division > 1` the
displayed text is the formatted `value / division` (followed by the label suffix when one is
set) whether or not an override matches; when `division ≤ 1`, for every stored value whose
integer key has an entry in `valueLabelMappings` the displayed text is that override label
(followed by the label suffix when one is set). -/
theorem refresh_override_after_division (c : FrogPilotParamValueControl) (params : Params) :
    (c.division > 1 →
      (refresh c params).valueLabel =
        [.number (params.getFloat c.key / c.division) 'g' (if c.division ≥ 10 then 4 else 3)]
          ++ (if c.labelText.isEmpty then [] else [.literal c.labelText])) ∧
    (∀ label, c.division ≤ 1 →
      c.valueLabelMappings.lookup (toInt (params.getFloat c.key)) = some label →
      (refresh c params).valueLabel =
        [.literal label] ++ (if c.labelText.isEmpty then [] else [.literal c.labelText])) := by
  constructor
  · intro hd
    simp only [refresh, hd, if_true]
    split_ifs <;> simp_all
  · intro label hd hl
    have hd' : ¬ c.division > 1 := not_lt.mpr hd
    simp only [refresh, hd', if_false, hl]
    split_ifs <;> simp_all

theorem refresh_override_after_division_witness :
    (refresh (sampleValueControl false 0 100 0 0 1 [(0, "Off")])
        (Params.ofList [("K", .float 0)])).valueLabel =
      [.literal "Off"] ++
        (if (sampleValueControl false 0 100 0 0 1 [(0, "Off")]).labelText.isEmpty then []
         else [.literal (sampleValueControl false 0 100 0 0 1 [(0, "Off")]).labelText]) :=
  (refresh_override_after_division (sampleValueControl false 0 100 0 0 1 [(0, "Off")])
    (Params.ofList [("K", .float 0)])).2 "Off" (by decide!) (by decide!)

/-- C7, as stated, fails: with `division = 1`, stored value 0.7 and an override for key 0
only, the map has no entry for `round(0.7) = 1`, yet `refresh` shows the label of key 0. -/
theorem refresh_override_not_rounded :
    round ((Params.ofList [("K", .float (7 / 10))]).getFloat "K") = 1 ∧
    (sampleValueControl false 0 100 0 0 1 [(0, "Off")]).valueLabelMappings.lookup
        (round ((Params.ofList [("K", .float (7 / 10))]).getFloat "K")) = none ∧
    (refresh (sampleValueControl false 0 100 0 0 1 [(0, "Off")])
        (Params.ofList [("K", .float (7 / 10))])).valueLabel = [.literal "Off"] := by
  decide!

/-- C7, amended: in `refresh` with `division ≤ 1` the override label is selected by an exact
match on the stored value truncated toward zero to an integer (the conversion of `find`):
the text shown is the entry of `trunc(v)` when it exists, and no override is shown (the
number is formatted) when the map has no entry for `trunc(v)`; for an integer-valued stored
value the truncation and `round` agree. -/
theorem refresh_override_by_truncation (c : FrogPilotParamValueControl) (params : Params)
    (h : c.division ≤ 1) :
    (∀ label, c.valueLabelMappings.lookup (toInt (params.getFloat c.key)) = some label →
      (refresh c params).valueLabel =
        [.literal label] ++ (if c.labelText.isEmpty then [] else [.literal c.labelText])) ∧
    (c.valueLabelMappings.lookup (toInt (params.getFloat c.key)) = none →
      (refresh c params).valueLabel =
        (if params.getFloat c.key ≥ 100 then [.number (params.getFloat c.key) 'f' 0]
         else [.number (params.getFloat c.key) (if c.interval < 1 then 'f' else 'g')
                (decimals c.interval)])
          ++ (if c.labelText.isEmpty then [] else [.literal c.labelText])) ∧
    (∀ n : ℤ, toInt (n : ℚ) = round (n : ℚ)) := by
  have hd' : ¬ c.division > 1 := not_lt.mpr h
  refine ⟨?_, ?_, ?_⟩
  · intro label hl
    simp only [refresh, hd', if_false, hl]
    split_ifs <;> simp_all
  · intro hl
    simp only [refresh, hd', if_false, hl]
    split_ifs <;> simp_all
  · intro n
    rw [toInt_intCast, round_intCast]

theorem refresh_override_by_truncation_witness :
    (refresh (sampleValueControl false 0 100 0 0 1 [(0, "Off")])
        (Params.ofList [("K", .float (7 / 10))])).valueLabel =
      [.literal "Off"] ++
        (if (sampleValueControl false 0 100 0 0 1 [(0, "Off")]).labelText.isEmpty then []
         else [.literal (sampleValueControl false 0 100 0 0 1 [(0, "Off")]).labelText]) :=
  (refresh_override_by_truncation (sampleValueControl false 0 100 0 0 1 [(0, "Off")])
    (Params.ofList [("K", .float (7 / 10))]) (by decide!)).1 "Off" (by decide!)

end ValueControlClaims

/-! ## Button controls: programmatic selection and visibility -/

section ButtonControlClaims

/-- C9, as stated, fails: in the checkable three-button control of "Force Started State",
after `setCheckedButton(2)` the call `setCheckedButton(0)` also changes the checked state
of the button with id 2 (the group is exclusive), not only that of the button with id 0. -/
theorem setCheckedButton_unchecks_sibling :
    (((FrogPilotButtonsControl.new ["OFFROAD", "ONROAD", "OFF"] true).setCheckedButton
        (Params.ofList []) 2).1.button_group.buttons.map (fun b => b.checked))
      = [false, false, true] ∧
    (((((FrogPilotButtonsControl.new ["OFFROAD", "ONROAD", "OFF"] true).setCheckedButton
        (Params.ofList []) 2).1).setCheckedButton (Params.ofList []) 0).1.button_group.buttons.map
        (fun b => b.checked))
      = [true, false, false] := by
  decide!

/-- C9, amended: `setCheckedButton(id)` changes nothing but checked states of the control's
buttons (the button with that id and, the group being exclusive, its checked sibling), and
nothing at all when no button has that id: the button with that id changes only by
becoming checked, and any other button changes only if it was checked, the group is
exclusive and the button with that id goes from unchecked to checked, and then it becomes
unchecked. The call emits no `buttonClicked` signal and leaves the Key-Value Store
unchanged; `TogglesPanel::updateState` writes no parameter to the store. -/
theorem setCheckedButton_no_write_through (c : FrogPilotButtonsControl) (params : Params)
    (id : ℤ) (panel : TogglesPanelState) (updated : Bool) (personality : ℤ) :
    (c.setCheckedButton params id).2.2 = [] ∧
    (c.setCheckedButton params id).2.1 = params ∧
    (c.button_group.button id = none → (c.setCheckedButton params id).1 = c) ∧
    (c.setCheckedButton params id).1.button_group.exclusive = c.button_group.exclusive ∧
    (c.setCheckedButton params id).1.button_group.buttons.map QPushButton.unchecked =
      c.button_group.buttons.map QPushButton.unchecked ∧
    (∀ (j : ℕ) (b : QPushButton), c.button_group.buttons[j]? = some b →
      ∃ after : QPushButton,
        (c.setCheckedButton params id).1.button_group.buttons[j]? = some after ∧
        ((j : ℤ) = id → after.checked ≠ b.checked → after.checked = true) ∧
        ((j : ℤ) ≠ id → after.checked ≠ b.checked →
          b.checked = true ∧ after.checked = false ∧ c.button_group.exclusive = true ∧
          ∃ target selected : QPushButton,
            c.button_group.button id = some target ∧ target.checked = false ∧
            (c.setCheckedButton params id).1.button_group.button id = some selected ∧
            selected.checked = true)) ∧
    (TogglesPanel.updateState panel updated personality).params = panel.params := by
  refine ⟨?_, ?_, ?_, ?_, ?_, ?_, ?_⟩
  · unfold FrogPilotButtonsControl.setCheckedButton
    split <;> rfl
  · unfold FrogPilotButtonsControl.setCheckedButton
    split <;> rfl
  · intro h
    unfold FrogPilotButtonsControl.setCheckedButton
    rw [h]
  · unfold FrogPilotButtonsControl.setCheckedButton
    split
    · exact QButtonGroup.setChecked_exclusive _ _ _
    · rfl
  · unfold FrogPilotButtonsControl.setCheckedButton
    split
    · exact QButtonGroup.setChecked_unchecked _ _ _
    · rfl
  · intro j b hb
    unfold FrogPilotButtonsControl.setCheckedButton
    cases hid : c.button_group.button id with
    | none =>
      refine ⟨b, hb, fun _ h => absurd rfl h, fun _ h => absurd rfl h⟩
    | some target =>
      have h0 : 0 ≤ id := by
        by_contra hn
        simp [QButtonGroup.button, hn] at hid
      have hti : c.button_group.buttons[id.toNat]? = some target := by
        simpa [QButtonGroup.button, h0] using hid
      have hget := QButtonGroup.setChecked_true_get c.button_group id.toNat j b hb
      have hself := QButtonGroup.setChecked_true_get c.button_group id.toNat id.toNat target hti
      rw [hti] at hget hself
      simp only [] at hget hself ⊢
      have hjid : (j : ℤ) = id ↔ j = id.toNat := by omega
      by_cases hch : target.checkable = true ∧ target.checked = false
      · rw [if_pos hch] at hget hself
        simp only [if_true] at hself
        by_cases hj : j = id.toNat
        · rw [if_pos hj] at hget
          exact ⟨_, hget, fun _ _ => rfl, fun hne => absurd (hjid.mpr hj) hne⟩
        · rw [if_neg hj] at hget
          by_cases hex : c.button_group.exclusive = true
          · rw [if_pos hex] at hget
            refine ⟨_, hget, fun he => absurd (hjid.mp he) hj, fun _ hne => ?_⟩
            refine ⟨?_, rfl, hex, target, { target with checked := true }, rfl, hch.2, ?_, rfl⟩
            · cases hb2 : b.checked
              · exact absurd hb2.symm hne
              · rfl
            · simp only [QButtonGroup.button, h0, if_true]
              exact hself
          · rw [if_neg hex] at hget
            exact ⟨_, hget, fun _ h => absurd rfl h, fun _ h => absurd rfl h⟩
      · rw [if_neg hch] at hget
        exact ⟨_, hget, fun _ h => absurd rfl h, fun _ h => absurd rfl h⟩
  · unfold TogglesPanel.updateState
    split_ifs <;> rfl

/-- C8, as stated, fails for a store that already holds two keys of the group `true`: the
constructor leaves the button of `"B"` checked, a click on it changes no check state, no
`toggled` signal runs the handler, and `"A"` and `"B"` are both still `true` afterwards. -/
theorem click_on_checked_button_writes_nothing :
    (sampleButtonParams.map Prod.fst).Nodup ∧
    ((FrogPilotButtonsParamControl.new "P" sampleButtonParams
        (Params.ofList [("A", .bool true), ("B", .bool true)])).button_group.buttons.map
      (fun b => b.checked)) = [false, true, false] ∧
    ((FrogPilotButtonsParamControl.new "P" sampleButtonParams
        (Params.ofList [("A", .bool true), ("B", .bool true)])).clicks
      (Params.ofList [("A", .bool true), ("B", .bool true)]) [1]).2.getBool "A" = true ∧
    ((FrogPilotButtonsParamControl.new "P" sampleButtonParams
        (Params.ofList [("A", .bool true), ("B", .bool true)])).clicks
      (Params.ofList [("A", .bool true), ("B", .bool true)]) [1]).2.getBool "B" = true := by
  decide!

/-- C8, amended: for every `FrogPilotButtonsParamControl` whose button parameter keys are
pairwise distinct, every initial store content in which at most one key of the group is
`true`, and every non-empty sequence of user clicks on its buttons, after the sequence
exactly one parameter of the group is `true` in the store, namely the key of the button
clicked last, and every sibling key is `false`. -/
theorem exclusive_clicks_single_true (param : String) (button_params : List (String × String))
    (params : Params) (cs : List ℕ) (hne : cs ≠ [])
    (hnd : (button_params.map Prod.fst).Nodup)
    (hone : ∀ k1 ∈ button_params.map Prod.fst, ∀ k2 ∈ button_params.map Prod.fst,
      params.getBool k1 = true → params.getBool k2 = true → k1 = k2)
    (hcs : ∀ i ∈ cs, i < button_params.length) :
    ∀ (j : ℕ) (param_pair : String × String), button_params[j]? = some param_pair →
      ((((FrogPilotButtonsParamControl.new param button_params params).clicks params cs).2.getBool
          param_pair.1 = true ↔ j = cs.getLast hne) ∧
        (j ≠ cs.getLast hne →
          ((FrogPilotButtonsParamControl.new param button_params params).clicks params cs).2.getBool
            param_pair.1 = false)) := by
  have hc : FrogPilotButtonsParamControl.Consistent button_params
      (FrogPilotButtonsParamControl.new param button_params params) params := by
    apply FrogPilotButtonsParamControl.new_consistent
    intro i j pi pj hi hj h1 h2
    have hk : pi.1 = pj.1 :=
      hone pi.1 (List.mem_map.mpr ⟨pi, List.getElem?_mem hi, rfl⟩) pj.1
        (List.mem_map.mpr ⟨pj, List.getElem?_mem hj, rfl⟩) h1 h2
    exact FrogPilotButtonsParamControl.index_eq_of_key_eq button_params hnd hi hj hk
  have h := FrogPilotButtonsParamControl.clicks_onlyTrue button_params hnd cs hne _ params hc hcs
  intro j param_pair hj
  refine ⟨h j param_pair hj, fun hne2 => ?_⟩
  cases hv : ((FrogPilotButtonsParamControl.new param button_params params).clicks params
      cs).2.getBool param_pair.1 with
  | false => rfl
  | true => exact absurd ((h j param_pair hj).mp hv) hne2

theorem exclusive_clicks_single_true_witness :
    ((((FrogPilotButtonsParamControl.new "P" sampleButtonParams
          (Params.ofList [("A", .bool true)])).clicks (Params.ofList [("A", .bool true)])
          [2, 1]).2.getBool "B" = true ↔ 1 = [2, 1].getLast (List.cons_ne_nil 2 [1])) ∧
      (1 ≠ [2, 1].getLast (List.cons_ne_nil 2 [1]) →
        ((FrogPilotButtonsParamControl.new "P" sampleButtonParams
          (Params.ofList [("A", .bool true)])).clicks (Params.ofList [("A", .bool true)])
          [2, 1]).2.getBool "B" = false)) :=
  exclusive_clicks_single_true "P" sampleButtonParams (Params.ofList [("A", .bool true)]) [2, 1]
    (List.cons_ne_nil 2 [1]) (by decide) (by decide!) (by decide) 1 ("B", "b") rfl

end ButtonControlClaims

/-! ## SettingsWindow: disclosure state machine -/

section SettingsWindowClaims
open SettingsWindow

theorem SettingsWindow.handle_nested (s : SettingsWindow) (e : SettingsEvent) (hs : Nested s)
    (h1 : e = .openSubParentToggle → s.parentToggleOpen = true)
    (h2 : e = .openSubSubParentToggle → s.subParentToggleOpen = true) :
    Nested (s.handle e) := by
  obtain ⟨p, sp, ssp, pos⟩ := s
  obtain ⟨n1, n2⟩ := hs
  cases e <;>
    simp_all [Nested, handle, SettingsWindow.openParentToggle,
      SettingsWindow.openSubParentToggle, SettingsWindow.openSubSubParentToggle,
      closeButtonClicked, hideEvent]
  all_goals (cases p <;> cases sp <;> cases ssp <;> simp_all)

theorem SettingsWindow.reached_nested (events : List SettingsEvent) (s : SettingsWindow)
    (hs : Nested s) (h : OpensFromParent s events) : ∀ t ∈ reached s events, Nested t := by
  induction events generalizing s with
  | nil =>
    intro t ht
    simp only [reached, List.mem_singleton] at ht
    exact ht ▸ hs
  | cons e rest ih =>
    intro t ht
    obtain ⟨h1, h2, h3⟩ := h
    simp only [reached, List.mem_cons] at ht
    rcases ht with ht | ht
    · exact ht ▸ hs
    · exact ih (s.handle e) (SettingsWindow.handle_nested s e hs h1 h2) h3 t ht

/-- C11, as stated, fails: the slot of `openSubSubParentToggle` (line 888) sets its flag
whatever the other flags are, so from all flags false the one-event sequence
open-sub-sub-parent reaches a state with `subSubParentToggleOpen` true and both ancestor
flags false. -/
theorem open_sub_sub_without_ancestors :
    initial.handle .openSubSubParentToggle ∈ reached initial [.openSubSubParentToggle] ∧
    (initial.handle .openSubSubParentToggle).subSubParentToggleOpen = true ∧
    (initial.handle .openSubSubParentToggle).subParentToggleOpen = false ∧
    (initial.handle .openSubSubParentToggle).parentToggleOpen = false := by
  decide

/-- C11, amended: for every sequence of open-parent, open-sub-parent, open-sub-sub-parent,
back-button and hide events, starting from all flags false, in which every open event
arrives from its immediate parent state (open-sub-parent while the parent level is open,
open-sub-sub-parent while the sub-parent level is open), every reached state satisfies
`subSubParentToggleOpen` implies `subParentToggleOpen` implies `parentToggleOpen`. -/
theorem disclosure_nested_when_opened_from_parent (events : List SettingsEvent)
    (h : OpensFromParent initial events) :
    ∀ s ∈ reached initial events,
      (s.subSubParentToggleOpen = true → s.subParentToggleOpen = true) ∧
      (s.subParentToggleOpen = true → s.parentToggleOpen = true) :=
  SettingsWindow.reached_nested events initial
    ⟨fun h0 => Bool.noConfusion h0, fun h0 => Bool.noConfusion h0⟩ h

theorem disclosure_nested_when_opened_from_parent_witness :
    OpensFromParent initial
        [.openParentToggle, .openSubParentToggle, .openSubSubParentToggle, .back, .hide] ∧
      (((⟨true, true, true, 0⟩ : SettingsWindow).subSubParentToggleOpen = true →
          (⟨true, true, true, 0⟩ : SettingsWindow).subParentToggleOpen = true) ∧
        ((⟨true, true, true, 0⟩ : SettingsWindow).subParentToggleOpen = true →
          (⟨true, true, true, 0⟩ : SettingsWindow).parentToggleOpen = true)) :=
  ⟨by simp [OpensFromParent, handle, initial, SettingsWindow.openParentToggle,
      SettingsWindow.openSubParentToggle, SettingsWindow.openSubSubParentToggle,
      closeButtonClicked],
    disclosure_nested_when_opened_from_parent
      [.openParentToggle, .openSubParentToggle, .openSubSubParentToggle, .back, .hide]
      (by simp [OpensFromParent, handle, initial, SettingsWindow.openParentToggle,
        SettingsWindow.openSubParentToggle, SettingsWindow.openSubSubParentToggle,
        closeButtonClicked])
      ⟨true, true, true, 0⟩ (by decide)⟩

/-- C12: in every state with a disclosure flag set, one press of the Back button clears
the innermost set flag only (`subSubParentToggleOpen` before `subParentToggleOpen` before
`parentToggleOpen`), emits the matching close signal and not `closeSettings`, and leaves
the other two flags unchanged; with all three flags false it emits `closeSettings` and
changes no flag. -/
theorem back_closes_innermost_level (s : SettingsWindow) :
    (s.subSubParentToggleOpen = true →
      s.closeButtonClicked.1.subSubParentToggleOpen = false ∧
      s.closeButtonClicked.1.subParentToggleOpen = s.subParentToggleOpen ∧
      s.closeButtonClicked.1.parentToggleOpen = s.parentToggleOpen ∧
      s.closeButtonClicked.2 = [.closeSubSubParentToggle]) ∧
    (s.subSubParentToggleOpen = false → s.subParentToggleOpen = true →
      s.closeButtonClicked.1.subSubParentToggleOpen = false ∧
      s.closeButtonClicked.1.subParentToggleOpen = false ∧
      s.closeButtonClicked.1.parentToggleOpen = s.parentToggleOpen ∧
      s.closeButtonClicked.2 = [.closeSubParentToggle]) ∧
    (s.subSubParentToggleOpen = false → s.subParentToggleOpen = false →
      s.parentToggleOpen = true →
      s.closeButtonClicked.1.subSubParentToggleOpen = false ∧
      s.closeButtonClicked.1.subParentToggleOpen = false ∧
      s.closeButtonClicked.1.parentToggleOpen = false ∧
      s.closeButtonClicked.2 = [.closeParentToggle]) ∧
    (s.subSubParentToggleOpen = false → s.subParentToggleOpen = false →
      s.parentToggleOpen = false →
      s.closeButtonClicked.1 = s ∧ s.closeButtonClicked.2 = [.closeSettings]) ∧
    ((s.subSubParentToggleOpen = true ∨ s.subParentToggleOpen = true ∨
        s.parentToggleOpen = true) →
      SettingsSignal.closeSettings ∉ s.closeButtonClicked.2 ∧
      s.closeButtonClicked.1.previousScrollPosition = s.previousScrollPosition) := by
  obtain ⟨p, sp, ssp, pos⟩ := s
  cases p <;> cases sp <;> cases ssp <;> simp [closeButtonClicked]

theorem back_closes_innermost_level_witness :
    (⟨true, true, false, 7⟩ : SettingsWindow).closeButtonClicked.1.subSubParentToggleOpen = false ∧
    (⟨true, true, false, 7⟩ : SettingsWindow).closeButtonClicked.1.subParentToggleOpen = false ∧
    (⟨true, true, false, 7⟩ : SettingsWindow).closeButtonClicked.1.parentToggleOpen =
      (⟨true, true, false, 7⟩ : SettingsWindow).parentToggleOpen ∧
    (⟨true, true, false, 7⟩ : SettingsWindow).closeButtonClicked.2 = [.closeSubParentToggle] :=
  (back_closes_innermost_level ⟨true, true, false, 7⟩).2.1 rfl rfl

/-- C13: after `hideEvent` the three disclosure flags are false and
`previousScrollPosition` is 0, whatever the state before. -/
theorem hideEvent_resets_disclosure (s : SettingsWindow) :
    s.hideEvent.1.parentToggleOpen = false ∧
    s.hideEvent.1.subParentToggleOpen = false ∧
    s.hideEvent.1.subSubParentToggleOpen = false ∧
    s.hideEvent.1.previousScrollPosition = 0 ∧
    s.hideEvent.1 = initial ∧
    s.hideEvent.2 = [.closeParentToggle] :=
  ⟨rfl, rfl, rfl, rfl, rfl, rfl⟩

end SettingsWindowClaims

/-! ## Lemmas: paths and workflows -/

theorem append_left_cancel_iff (s a b : String) : s ++ a = s ++ b ↔ a = b := by
  constructor
  · intro h
    have hd := congrArg String.data h
    simp only [String.data_append, List.append_cancel_left_eq] at hd
    exact String.ext hd
  · intro h
    rw [h]

theorem sameDir_append (s a b : String) : sameDir (s ++ a) (s ++ b) = sameDir a b := by
  unfold sameDir
  simp only [String.append_assoc, append_left_cancel_iff]

theorem sameDir_inProgress_tarFile (n : String) :
    sameDir (inProgressBackupPath n) (tarFilePath n) = false := by
  unfold inProgressBackupPath tarFilePath
  rw [sameDir_append]
  decide

theorem sameDir_inProgress_slash_tarFile (n : String) :
    sameDir (inProgressBackupPath n ++ "/") (tarFilePath n) = false := by
  unfold inProgressBackupPath tarFilePath
  rw [String.append_assoc, sameDir_append]
  decide

theorem sameDir_tarInProgress_tarFile (n : String) :
    sameDir (tarFilePathInProgress n) (tarFilePath n) = false := by
  unfold tarFilePathInProgress tarFilePath
  rw [sameDir_append]
  decide

/-- The events that end a workflow that returns to idle. -/
theorem Run.idle_trace {σ : Type} (r : Run σ) :
    r.idle.trace = r.trace ++ [.sleep_for 2000, .setValue "", .setEnabled true] := by
  simp [Run.idle, Run.emit]

theorem frogpilotBackup_trace {σ : Type} (h : Host σ) (world : σ) (params : Params)
    (n : String) (compressed : Bool) :
    (∃ r1 r2 : ℤ, r1 ≠ 0 ∧
      (frogpilotBackup h world params n compressed).trace =
        [.setEnabled false, .setValue "Backing up...", .system (backupCopyCommand n) r1,
          .setValue "Failed...", .system (.rm "-rf" (inProgressBackupPath n)) r2,
          .sleep_for 2000, .setValue "", .setEnabled true]) ∨
    (compressed = true ∧ ∃ r2 r3 r4 : ℤ, r2 ≠ 0 ∧
      (frogpilotBackup h world params n compressed).trace =
        [.setEnabled false, .setValue "Backing up...", .system (backupCopyCommand n) 0,
          .setValue "Compressing backup...", .system (backupCompressCommand n) r2,
          .setValue "Failed...", .system (.rm "-f" (tarFilePathInProgress n)) r3,
          .system (.rm "-rf" (inProgressBackupPath n)) r4,
          .sleep_for 2000, .setValue "", .setEnabled true]) ∨
    (compressed = true ∧ ∃ r3 r4 : ℤ, r3 ≠ 0 ∧
      (frogpilotBackup h world params n compressed).trace =
        [.setEnabled false, .setValue "Backing up...", .system (backupCopyCommand n) 0,
          .setValue "Compressing backup...", .system (backupCompressCommand n) 0,
          .system (.mv (tarFilePathInProgress n) (tarFilePath n)) r3,
          .setValue "Failed...", .system (.rm "-f" (tarFilePathInProgress n)) r4,
          .sleep_for 2000, .setValue "", .setEnabled true]) ∨
    (compressed = true ∧
      (frogpilotBackup h world params n compressed).trace =
        [.setEnabled false, .setValue "Backing up...", .system (backupCopyCommand n) 0,
          .setValue "Compressing backup...", .system (backupCompressCommand n) 0,
          .system (.mv (tarFilePathInProgress n) (tarFilePath n)) 0,
          .setValue "Success!", .sleep_for 2000, .setValue "", .setEnabled true]) ∨
    (compressed = false ∧ ∃ r2 r3 : ℤ, r2 ≠ 0 ∧
      (frogpilotBackup h world params n compressed).trace =
        [.setEnabled false, .setValue "Backing up...", .system (backupCopyCommand n) 0,
          .system (.mv (inProgressBackupPath n) (fullBackupPath n)) r2,
          .setValue "Failed...", .system (.rm "-rf" (inProgressBackupPath n)) r3,
          .sleep_for 2000, .setValue "", .setEnabled true]) ∨
    (compressed = false ∧
      (frogpilotBackup h world params n compressed).trace =
        [.setEnabled false, .setValue "Backing up...", .system (backupCopyCommand n) 0,
          .system (.mv (inProgressBackupPath n) (fullBackupPath n)) 0,
          .setValue "Success!", .sleep_for 2000, .setValue "", .setEnabled true]) := by
  by_cases h1 : (h.system world (backupCopyCommand n)).1 = 0
  · cases compressed
    · by_cases h2 : (h.system (h.system world (backupCopyCommand n)).2
          (.mv (inProgressBackupPath n) (fullBackupPath n))).1 = 0
      · simp [frogpilotBackup, Run.system, Run.emit, Run.idle, Run.start, h1, h2]
      · simp [frogpilotBackup, Run.system, Run.emit, Run.idle, Run.start, h1, h2]
    · by_cases h2 : (h.system (h.system world (backupCopyCommand n)).2
          (backupCompressCommand n)).1 = 0
      · by_cases h3 : (h.system (h.system (h.system world (backupCopyCommand n)).2
            (backupCompressCommand n)).2
            (.mv (tarFilePathInProgress n) (tarFilePath n))).1 = 0
        · simp [frogpilotBackup, Run.system, Run.emit, Run.idle, Run.start, h1, h2, h3]
        · simp [frogpilotBackup, Run.system, Run.emit, Run.idle, Run.start, h1, h2, h3]
      · simp [frogpilotBackup, Run.system, Run.emit, Run.idle, Run.start, h1, h2]
  · simp [frogpilotBackup, Run.system, Run.emit, Run.idle, Run.start, h1]

theorem backupCompress_ne_backupCopy (n : String) :
    backupCompressCommand n ≠ backupCopyCommand n := by
  simp [backupCompressCommand, backupCopyCommand]

theorem backupCompress_ne_rm (n options path : String) :
    backupCompressCommand n ≠ .rm options path := by
  simp [backupCompressCommand]

theorem backupCompress_ne_mv (n source destination : String) :
    backupCompressCommand n ≠ .mv source destination := by
  simp [backupCompressCommand]

theorem backupCopy_ne_mv (n source destination : String) :
    backupCopyCommand n ≠ .mv source destination := by
  simp [backupCopyCommand]

theorem backupCopy_ne_rm (n options path : String) :
    backupCopyCommand n ≠ .rm options path := by
  simp [backupCopyCommand]

theorem frogpilotRestore_trace {σ : Type} (h : Host σ) (world : σ) (params : Params)
    (selection : String) :
    (endsWith selection ".tar.gz" = true ∧ ∃ r1 : ℤ, r1 ≠ 0 ∧
      (frogpilotRestore h world params selection).trace =
        [.setEnabled false, .setValue "Restoring...", .setValue "Extracting...",
          .system (.mkdirP extractDirectory) r1,
          .setValue "Failed...", .sleep_for 2000, .setValue "", .setEnabled true]) ∨
    (endsWith selection ".tar.gz" = true ∧ ∃ r2 : ℤ, r2 ≠ 0 ∧
      (frogpilotRestore h world params selection).trace =
        [.setEnabled false, .setValue "Restoring...", .setValue "Extracting...",
          .system (.mkdirP extractDirectory) 0,
          .system (.tarExtract (restoreSourcePath selection) extractDirectory) r2,
          .setValue "Failed...", .sleep_for 2000, .setValue "", .setEnabled true]) ∨
    (endsWith selection ".tar.gz" = true ∧ ∃ r3 : ℤ, r3 ≠ 0 ∧
      (frogpilotRestore h world params selection).trace =
        [.setEnabled false, .setValue "Restoring...", .setValue "Extracting...",
          .system (.mkdirP extractDirectory) 0,
          .system (.tarExtract (restoreSourcePath selection) extractDirectory) 0,
          .setValue "Restoring...", .system (restoreSyncCommand extractDirectory) r3,
          .setValue "Failed...", .sleep_for 2000, .setValue "", .setEnabled true]) ∨
    (endsWith selection ".tar.gz" = true ∧
      (frogpilotRestore h world params selection).trace =
        [.setEnabled false, .setValue "Restoring...", .setValue "Extracting...",
          .system (.mkdirP extractDirectory) 0,
          .system (.tarExtract (restoreSourcePath selection) extractDirectory) 0,
          .setValue "Restoring...", .system (restoreSyncCommand extractDirectory) 0,
          .ofstream (restoreTargetPath ++ "/.overlay_consistent") false,
          .setValue "Failed...", .sleep_for 2000, .setValue "", .setEnabled true]) ∨
    (endsWith selection ".tar.gz" = true ∧
      (frogpilotRestore h world params selection).trace =
        [.setEnabled false, .setValue "Restoring...", .setValue "Extracting...",
          .system (.mkdirP extractDirectory) 0,
          .system (.tarExtract (restoreSourcePath selection) extractDirectory) 0,
          .setValue "Restoring...", .system (restoreSyncCommand extractDirectory) 0,
          .ofstream (restoreTargetPath ++ "/.overlay_consistent") true,
          .setValue "Restored!", .putBool "AutomaticUpdates" false, .sleep_for 2000,
          .setValue "Rebooting...", .remove_all extractDirectory, .sleep_for 2000, .reboot]) ∨
    (endsWith selection ".tar.gz" = false ∧ ∃ r3 : ℤ, r3 ≠ 0 ∧
      (frogpilotRestore h world params selection).trace =
        [.setEnabled false, .setValue "Restoring...",
          .system (restoreSyncCommand (restoreSourcePath selection)) r3,
          .setValue "Failed...", .sleep_for 2000, .setValue "", .setEnabled true]) ∨
    (endsWith selection ".tar.gz" = false ∧
      (frogpilotRestore h world params selection).trace =
        [.setEnabled false, .setValue "Restoring...",
          .system (restoreSyncCommand (restoreSourcePath selection)) 0,
          .ofstream (restoreTargetPath ++ "/.overlay_consistent") false,
          .setValue "Failed...", .sleep_for 2000, .setValue "", .setEnabled true]) ∨
    (endsWith selection ".tar.gz" = false ∧
      (frogpilotRestore h world params selection).trace =
        [.setEnabled false, .setValue "Restoring...",
          .system (restoreSyncCommand (restoreSourcePath selection)) 0,
          .ofstream (restoreTargetPath ++ "/.overlay_consistent") true,
          .setValue "Restored!", .putBool "AutomaticUpdates" false, .sleep_for 2000,
          .setValue "Rebooting...", .remove_all extractDirectory, .sleep_for 2000, .reboot]) := by
  cases ha : endsWith selection ".tar.gz"
  · by_cases h3 : (h.system world
        (restoreSyncCommand (restoreSourcePath selection))).1 = 0
    · cases h4 : (h.ofstream (h.system world
          (restoreSyncCommand (restoreSourcePath selection))).2
          (restoreTargetPath ++ "/.overlay_consistent")).1 <;>
        simp [frogpilotRestore, frogpilotRestoreSync, Run.system, Run.emit, Run.idle,
          Run.start, ha, h3, h4]
    · simp [frogpilotRestore, frogpilotRestoreSync, Run.system, Run.emit, Run.idle,
        Run.start, ha, h3]
  · by_cases h1 : (h.system world (.mkdirP extractDirectory)).1 = 0
    · by_cases h2 : (h.system (h.system world (.mkdirP extractDirectory)).2
          (.tarExtract (restoreSourcePath selection) extractDirectory)).1 = 0
      · by_cases h3 : (h.system (h.system (h.system world (.mkdirP extractDirectory)).2
            (.tarExtract (restoreSourcePath selection) extractDirectory)).2
            (restoreSyncCommand extractDirectory)).1 = 0
        · cases h4 : (h.ofstream (h.system (h.system (h.system world
              (.mkdirP extractDirectory)).2
              (.tarExtract (restoreSourcePath selection) extractDirectory)).2
              (restoreSyncCommand extractDirectory)).2
              (restoreTargetPath ++ "/.overlay_consistent")).1 <;>
            simp [frogpilotRestore, frogpilotRestoreSync, Run.system, Run.emit, Run.idle,
              Run.start, ha, h1, h2, h3, h4]
        · simp [frogpilotRestore, frogpilotRestoreSync, Run.system, Run.emit, Run.idle,
            Run.start, ha, h1, h2, h3]
      · simp [frogpilotRestore, frogpilotRestoreSync, Run.system, Run.emit, Run.idle,
          Run.start, ha, h1, h2]
    · simp [frogpilotRestore, frogpilotRestoreSync, Run.system, Run.emit, Run.idle,
        Run.start, ha, h1]

theorem toggleRestore_trace {σ : Type} (h : Host σ) (world : σ) (params : Params)
    (selection : String) :
    (∃ r1 : ℤ, r1 ≠ 0 ∧
      (toggleRestore h world params selection).trace =
        [.setEnabled false, .system (.rsync "-av --delete -l" toggleTargetPath tempBackupPath) r1,
          .setValue "Failed...", .sleep_for 2000, .setValue "", .setEnabled true]) ∨
    (∃ r2 r3 : ℤ, r2 ≠ 0 ∧
      (toggleRestore h world params selection).trace =
        [.setEnabled false, .system (.rsync "-av --delete -l" toggleTargetPath tempBackupPath) 0,
          .setValue "Restoring...",
          .system (.rsync "-av --delete -l" (toggleSourcePath selection)
            toggleTargetPath) r2,
          .setValue "Failed...",
          .system (.rsync "-av --delete -l" tempBackupPath toggleTargetPath) r3,
          .sleep_for 2000, .setValue "", .setEnabled true]) ∨
    (∃ r3 : ℤ,
      (toggleRestore h world params selection).trace =
        [.setEnabled false, .system (.rsync "-av --delete -l" toggleTargetPath tempBackupPath) 0,
          .setValue "Restoring...",
          .system (.rsync "-av --delete -l" (toggleSourcePath selection)
            toggleTargetPath) 0,
          .setValue "Success!", .updateFrogPilotToggles,
          .system (.rm "-rf" tempBackupPath) r3,
          .sleep_for 2000, .setValue "", .setEnabled true]) := by
  by_cases h1 : (h.system world (.rsync "-av --delete -l" toggleTargetPath tempBackupPath)).1 = 0
  · by_cases h2 : (h.system (h.system world
        (.rsync "-av --delete -l" toggleTargetPath tempBackupPath)).2
        (.rsync "-av --delete -l" (toggleSourcePath selection)
          toggleTargetPath)).1 = 0
    · simp [toggleRestore, Run.system, Run.emit, Run.idle, Run.start, h1, h2]
    · simp [toggleRestore, Run.system, Run.emit, Run.idle, Run.start, h1, h2]
  · simp [toggleRestore, Run.system, Run.emit, Run.idle, Run.start, h1]

theorem toggleSource_ne_tempBackup (s : String) :
    toggleSourcePath s ≠ tempBackupPath := by
  intro h
  have hd := congrArg (fun x : String => x.data.take 7) h
  simp only [toggleSourcePath, String.data_append, String.append_assoc, tempBackupPath] at hd
  rw [List.take_append_of_le_length (by decide)] at hd
  revert hd
  decide

@[simp] theorem isCleanupOrRollback_rm (options path : String) :
    isCleanupOrRollback (.rm options path) = true := by
  simp [isCleanupOrRollback, Command.isDelete]

@[simp] theorem isCleanupOrRollback_rollback :
    isCleanupOrRollback (.rsync "-av --delete -l" tempBackupPath toggleTargetPath) = true := by
  simp [isCleanupOrRollback, rollbackCommand]

@[simp] theorem isCleanupOrRollback_mv (source destination : String) :
    isCleanupOrRollback (.mv source destination) = false := by
  simp [isCleanupOrRollback, Command.isDelete, rollbackCommand]

@[simp] theorem isCleanupOrRollback_mkdirP (dir : String) :
    isCleanupOrRollback (.mkdirP dir) = false := by
  simp [isCleanupOrRollback, Command.isDelete, rollbackCommand]

@[simp] theorem isCleanupOrRollback_tarExtract (archive dir : String) :
    isCleanupOrRollback (.tarExtract archive dir) = false := by
  simp [isCleanupOrRollback, Command.isDelete, rollbackCommand]

@[simp] theorem isCleanupOrRollback_backupCopy (n : String) :
    isCleanupOrRollback (backupCopyCommand n) = false := by
  simp [isCleanupOrRollback, Command.isDelete, rollbackCommand, backupCopyCommand]

@[simp] theorem isCleanupOrRollback_backupCompress (n : String) :
    isCleanupOrRollback (backupCompressCommand n) = false := by
  simp [isCleanupOrRollback, Command.isDelete, rollbackCommand, backupCompressCommand]

@[simp] theorem isCleanupOrRollback_restoreSync (sourcePath : String) :
    isCleanupOrRollback (restoreSyncCommand sourcePath) = false := by
  simp [isCleanupOrRollback, Command.isDelete, rollbackCommand, restoreSyncCommand]

@[simp] theorem isCleanupOrRollback_snapshot :
    isCleanupOrRollback (.rsync "-av --delete -l" toggleTargetPath tempBackupPath) = false := by
  simp [isCleanupOrRollback, Command.isDelete, rollbackCommand, toggleTargetPath,
    tempBackupPath]

@[simp] theorem isCleanupOrRollback_toggleSource (s : String) :
    isCleanupOrRollback (.rsync "-av --delete -l" (toggleSourcePath s) toggleTargetPath)
      = false := by
  simp [isCleanupOrRollback, Command.isDelete, rollbackCommand, toggleSource_ne_tempBackup]

namespace SimWorld

theorem apply_frame (c : Command) (content : String → Option String) (p : String)
    (hp : ∀ d ∈ c.touches, sameDir d p = false) : apply c content p = content p := by
  induction c generalizing content with
  | mkdirP dir =>
    have hd : sameDir dir p = false := hp dir (by simp [Command.touches])
    simp only [apply]
    split
    · rfl
    · simp [write, hd]
  | rsync options source destination =>
    have hd : sameDir destination p = false := hp destination (by simp [Command.touches])
    simp [apply, write, hd]
  | tarCreate archive dir =>
    have hd : sameDir archive p = false := hp archive (by simp [Command.touches])
    simp [apply, write, hd]
  | tarExtract archive dir =>
    have hd : sameDir dir p = false := hp dir (by simp [Command.touches])
    simp [apply, write, hd]
  | mv source destination =>
    have hs : sameDir source p = false := hp source (by simp [Command.touches])
    have hd : sameDir destination p = false := hp destination (by simp [Command.touches])
    simp [apply, write, hs, hd]
  | rm options path =>
    have hd : sameDir path p = false := hp path (by simp [Command.touches])
    simp [apply, write, hd]
  | andThen first second ih1 ih2 =>
    have h1 : ∀ d ∈ first.touches, sameDir d p = false :=
      fun d hd => hp d (by simp [Command.touches, hd])
    have h2 : ∀ d ∈ second.touches, sameDir d p = false :=
      fun d hd => hp d (by simp [Command.touches, hd])
    simp only [apply]
    rw [ih2 _ h2, ih1 _ h1]

theorem host_frame (w : SimWorld) (c : Command) (p : String)
    (hp : ∀ d ∈ c.touches, sameDir d p = false) :
    (host.system w c).2.content p = w.content p := by
  unfold host
  simp only
  split
  · exact apply_frame c w.content p hp
  · split
    · exact apply_frame c w.content p hp
    · rfl

theorem host_failed (w : SimWorld) (c : Command) (p : String)
    (hf : (host.system w c).1 ≠ 0) : (host.system w c).2.content p = w.content p := by
  unfold host at hf ⊢
  simp only at hf ⊢
  split
  · rename_i he
    rw [he] at hf
    exact absurd rfl hf
  · rename_i e rest he
    rw [he] at hf
    simp only at hf
    split
    · rename_i h0
      rw [if_pos h0] at hf
      exact absurd rfl hf
    · rfl

end SimWorld

section WorkflowClaims

variable {σ : Type}

/-- C14: in the FrogPilot backup with compression, for every backup name, every host and
every outcome of the commands, if the compression command (tar followed by removal of the
working directory) returns non-zero then no rename is issued; on a host whose commands
change only the paths they name, the final path `<name>.tar.gz` holds after the workflow
what it held before, so nothing exists there if nothing did; and the status shown is the
failure message, never the success message. -/
theorem backup_compress_failure_no_rename (h : Host σ) (content : σ → String → Option String)
    (hframe : ∀ (w : σ) (c : Command) (p : String),
      (∀ d ∈ c.touches, sameDir d p = false) → content (h.system w c).2 p = content w p)
    (world : σ) (params : Params) (nameSelection : String) (res : ℤ) (hres : res ≠ 0)
    (hfail : Event.system (backupCompressCommand nameSelection) res ∈
      (frogpilotBackup h world params nameSelection true).trace) :
    (∀ (source destination : String) (result : ℤ),
      Event.system (.mv source destination) result ∉
        (frogpilotBackup h world params nameSelection true).trace) ∧
    content (frogpilotBackup h world params nameSelection true).world (tarFilePath nameSelection)
      = content world (tarFilePath nameSelection) ∧
    (content world (tarFilePath nameSelection) = none →
      content (frogpilotBackup h world params nameSelection true).world
        (tarFilePath nameSelection) = none) ∧
    Event.setValue "Failed..." ∈ (frogpilotBackup h world params nameSelection true).trace ∧
    Event.setValue "Success!" ∉ (frogpilotBackup h world params nameSelection true).trace := by
  have hcopy : ∀ w, content (h.system w (backupCopyCommand nameSelection)).2
      (tarFilePath nameSelection) = content w (tarFilePath nameSelection) := by
    intro w
    apply hframe
    intro d hd
    simp only [backupCopyCommand, Command.touches, List.cons_append, List.nil_append,
      List.mem_cons, List.mem_singleton, List.not_mem_nil, or_false] at hd
    rcases hd with hd | hd
    · rw [hd]; exact sameDir_inProgress_tarFile nameSelection
    · rw [hd]; exact sameDir_inProgress_slash_tarFile nameSelection
  have hcompress : ∀ w, content (h.system w (backupCompressCommand nameSelection)).2
      (tarFilePath nameSelection) = content w (tarFilePath nameSelection) := by
    intro w
    apply hframe
    intro d hd
    simp only [backupCompressCommand, Command.touches, List.cons_append, List.nil_append,
      List.mem_cons, List.mem_singleton, List.not_mem_nil, or_false] at hd
    rcases hd with hd | hd
    · rw [hd]; exact sameDir_tarInProgress_tarFile nameSelection
    · rw [hd]; exact sameDir_inProgress_tarFile nameSelection
  have hrm1 : ∀ w, content (h.system w (.rm "-f" (tarFilePathInProgress nameSelection))).2
      (tarFilePath nameSelection) = content w (tarFilePath nameSelection) := by
    intro w
    apply hframe
    intro d hd
    simp only [Command.touches, List.mem_singleton] at hd
    rw [hd]; exact sameDir_tarInProgress_tarFile nameSelection
  have hrm2 : ∀ w, content (h.system w (.rm "-rf" (inProgressBackupPath nameSelection))).2
      (tarFilePath nameSelection) = content w (tarFilePath nameSelection) := by
    intro w
    apply hframe
    intro d hd
    simp only [Command.touches, List.mem_singleton] at hd
    rw [hd]; exact sameDir_inProgress_tarFile nameSelection
  have hne := backupCompress_ne_backupCopy nameSelection
  by_cases h1 : (h.system world (backupCopyCommand nameSelection)).1 = 0
  · by_cases h2 : (h.system (h.system world (backupCopyCommand nameSelection)).2
        (backupCompressCommand nameSelection)).1 = 0
    · exfalso
      by_cases h3 : (h.system (h.system (h.system world (backupCopyCommand nameSelection)).2
          (backupCompressCommand nameSelection)).2
          (.mv (tarFilePathInProgress nameSelection) (tarFilePath nameSelection))).1 = 0
      · simp [frogpilotBackup, Run.system, Run.emit, Run.idle, Run.start, h1, h2, h3, hne,
          backupCompress_ne_rm, backupCompress_ne_mv, hres] at hfail
      · simp [frogpilotBackup, Run.system, Run.emit, Run.idle, Run.start, h1, h2, h3, hne,
          backupCompress_ne_rm, backupCompress_ne_mv, hres] at hfail
    · have key : content (frogpilotBackup h world params nameSelection true).world
          (tarFilePath nameSelection) = content world (tarFilePath nameSelection) := by
        simp only [frogpilotBackup, Run.system, Run.emit, Run.idle, Run.start, h1, h2,
          if_true, if_false]
        rw [hrm2, hrm1, hcompress, hcopy]
      refine ⟨?_, key, fun h0 => key.trans h0, ?_, ?_⟩
      · intro source destination result
        simp [frogpilotBackup, Run.system, Run.emit, Run.idle, Run.start, h1, h2,
          (backupCompress_ne_mv nameSelection source destination).symm,
          (backupCopy_ne_mv nameSelection source destination).symm]
      · simp [frogpilotBackup, Run.system, Run.emit, Run.idle, Run.start, h1, h2]
      · simp [frogpilotBackup, Run.system, Run.emit, Run.idle, Run.start, h1, h2]
  · exfalso
    simp [frogpilotBackup, Run.system, Run.emit, Run.idle, Run.start, h1, hne,
      backupCompress_ne_rm] at hfail

theorem backup_compress_failure_no_rename_witness :
    SimWorld.content
        (frogpilotBackup SimWorld.host
          (SimWorld.ofList [("/data/openpilot/", "code")] [0, 1] true) (Params.ofList []) "x"
          true).world (tarFilePath "x")
      = SimWorld.content (SimWorld.ofList [("/data/openpilot/", "code")] [0, 1] true)
          (tarFilePath "x") ∧
    Event.setValue "Failed..." ∈
      (frogpilotBackup SimWorld.host
        (SimWorld.ofList [("/data/openpilot/", "code")] [0, 1] true) (Params.ofList []) "x"
        true).trace :=
  ⟨(backup_compress_failure_no_rename SimWorld.host SimWorld.content SimWorld.host_frame
      (SimWorld.ofList [("/data/openpilot/", "code")] [0, 1] true) (Params.ofList []) "x" 1
      (by decide) (by decide!)).2.1,
    (backup_compress_failure_no_rename SimWorld.host SimWorld.content SimWorld.host_frame
      (SimWorld.ofList [("/data/openpilot/", "code")] [0, 1] true) (Params.ofList []) "x" 1
      (by decide) (by decide!)).2.2.2.1⟩

/-- C16, as stated, fails on the order: when the copy fails, the failure status is shown
first (line 470) and the delete of the working directory is issued after it (line 471);
no delete precedes the status. -/
theorem backup_delete_follows_failure_status :
    beforeFailure
        (frogpilotBackup SimWorld.host (SimWorld.ofList [] [23] true) (Params.ofList []) "x"
          false).trace
      = [.setEnabled false, .setValue "Backing up...", .system (backupCopyCommand "x") 23] ∧
    afterFailure
        (frogpilotBackup SimWorld.host (SimWorld.ofList [] [23] true) (Params.ofList []) "x"
          false).trace
      = [.system (.rm "-rf" (inProgressBackupPath "x")) 0, .sleep_for 2000, .setValue "",
          .setEnabled true] := by
  decide!

/-- C16, amended: in the FrogPilot backup, for every backup name, compression choice and
host, whenever a step fails the workflow deletes the intermediate artifacts it created,
after the failure status is shown and before the control returns to idle: the working
directory `<name>_in_progress` when the copy, the tar step or the rename of the directory
failed, and the archive `<name>_in_progress.tar.gz` when the compression or the rename of
the archive failed; no delete is issued before the failure status. -/
theorem backup_failure_cleanup_after_status (h : Host σ) (world : σ) (params : Params)
    (n : String) (compressed : Bool) :
    (∀ res : ℤ, res ≠ 0 →
      Event.system (backupCopyCommand n) res ∈ (frogpilotBackup h world params n compressed).trace →
      ∃ r : ℤ, afterFailure (frogpilotBackup h world params n compressed).trace =
        [.system (.rm "-rf" (inProgressBackupPath n)) r, .sleep_for 2000, .setValue "",
          .setEnabled true]) ∧
    (∀ res : ℤ, res ≠ 0 →
      Event.system (backupCompressCommand n) res ∈
        (frogpilotBackup h world params n compressed).trace →
      ∃ r1 r2 : ℤ, afterFailure (frogpilotBackup h world params n compressed).trace =
        [.system (.rm "-f" (tarFilePathInProgress n)) r1,
          .system (.rm "-rf" (inProgressBackupPath n)) r2, .sleep_for 2000, .setValue "",
          .setEnabled true]) ∧
    (∀ res : ℤ, res ≠ 0 →
      Event.system (.mv (tarFilePathInProgress n) (tarFilePath n)) res ∈
        (frogpilotBackup h world params n compressed).trace →
      ∃ r : ℤ, afterFailure (frogpilotBackup h world params n compressed).trace =
        [.system (.rm "-f" (tarFilePathInProgress n)) r, .sleep_for 2000, .setValue "",
          .setEnabled true]) ∧
    (∀ res : ℤ, res ≠ 0 →
      Event.system (.mv (inProgressBackupPath n) (fullBackupPath n)) res ∈
        (frogpilotBackup h world params n compressed).trace →
      ∃ r : ℤ, afterFailure (frogpilotBackup h world params n compressed).trace =
        [.system (.rm "-rf" (inProgressBackupPath n)) r, .sleep_for 2000, .setValue "",
          .setEnabled true]) ∧
    (systemCalls (beforeFailure (frogpilotBackup h world params n compressed).trace)).all
      (fun call => !call.1.isDelete) = true := by
  have e1 := backupCompress_ne_backupCopy n
  have e2 : inProgressBackupPath n ≠ tarFilePathInProgress n := by
    unfold inProgressBackupPath tarFilePathInProgress
    rw [Ne, append_left_cancel_iff]
    decide
  have e3 : tarFilePathInProgress n ≠ inProgressBackupPath n := e2.symm
  rcases frogpilotBackup_trace h world params n compressed with
    ⟨r1, r2, hr, ht⟩ | ⟨hc, r2, r3, r4, hr, ht⟩ | ⟨hc, r3, r4, hr, ht⟩ | ⟨hc, ht⟩ |
    ⟨hc, r2, r3, hr, ht⟩ | ⟨hc, ht⟩ <;>
  · rw [ht]
    refine ⟨?_, ?_, ?_, ?_, ?_⟩
    · intro res hres hmem
      simp [afterFailure, e1, e1.symm, e2, e3, hres, backupCopy_ne_rm, backupCopy_ne_mv,
        backupCompress_ne_rm, backupCompress_ne_mv] at hmem ⊢
    · intro res hres hmem
      simp [afterFailure, e1, e1.symm, e2, e3, hres, backupCopy_ne_rm, backupCopy_ne_mv,
        backupCompress_ne_rm, backupCompress_ne_mv] at hmem ⊢
    · intro res hres hmem
      simp [afterFailure, e1, e1.symm, e2, e3, hres, (backupCopy_ne_mv n _ _).symm,
        (backupCompress_ne_mv n _ _).symm] at hmem ⊢
    · intro res hres hmem
      simp [afterFailure, e1, e1.symm, e2, e3, hres, (backupCopy_ne_mv n _ _).symm,
        (backupCompress_ne_mv n _ _).symm] at hmem ⊢
    · simp [beforeFailure, systemCalls, Command.isDelete, backupCopyCommand,
        backupCompressCommand]

/-- C15: in the FrogPilot backup, the FrogPilot restore and the toggle restore, for every
host and so every assignment of exit codes, the forward steps issued are an initial part of
the workflow's fixed list of forward steps, in that order, and after a call that returned
non-zero only cleanup or rollback commands are issued; so a forward step is issued only if
every step before it returned 0. -/
theorem forward_steps_gated (h : Host σ) (world : σ) (params : Params)
    (nameSelection selection : String) (compressed : Bool) :
    ((∃ k, forwardSteps (frogpilotBackup h world params nameSelection compressed).trace =
        (backupPlan nameSelection compressed).take k) ∧
      OnlyCleanupAfterFailure
        (systemCalls (frogpilotBackup h world params nameSelection compressed).trace)) ∧
    ((∃ k, forwardSteps (frogpilotRestore h world params selection).trace =
        (restorePlan selection).take k) ∧
      OnlyCleanupAfterFailure (systemCalls (frogpilotRestore h world params selection).trace)) ∧
    ((∃ k, forwardSteps (toggleRestore h world params selection).trace =
        (toggleRestorePlan selection).take k) ∧
      OnlyCleanupAfterFailure (systemCalls (toggleRestore h world params selection).trace)) := by
  refine ⟨?_, ?_, ?_⟩
  · rcases frogpilotBackup_trace h world params nameSelection compressed with
      ⟨r1, r2, _, ht⟩ | ⟨hc, r2, r3, r4, _, ht⟩ | ⟨hc, r3, r4, _, ht⟩ | ⟨hc, ht⟩ |
      ⟨hc, r2, r3, _, ht⟩ | ⟨hc, ht⟩
    · rw [ht]
      refine ⟨⟨1, ?_⟩, ?_⟩
      · cases compressed <;> simp [forwardSteps, systemCalls, backupPlan]
      · simp [systemCalls, OnlyCleanupAfterFailure]
    · subst hc; rw [ht]
      refine ⟨⟨2, ?_⟩, ?_⟩
      · simp [forwardSteps, systemCalls, backupPlan]
      · simp [systemCalls, OnlyCleanupAfterFailure]
    · subst hc; rw [ht]
      refine ⟨⟨3, ?_⟩, ?_⟩
      · simp [forwardSteps, systemCalls, backupPlan]
      · simp [systemCalls, OnlyCleanupAfterFailure]
    · subst hc; rw [ht]
      refine ⟨⟨3, ?_⟩, ?_⟩
      · simp [forwardSteps, systemCalls, backupPlan]
      · simp [systemCalls, OnlyCleanupAfterFailure]
    · subst hc; rw [ht]
      refine ⟨⟨2, ?_⟩, ?_⟩
      · simp [forwardSteps, systemCalls, backupPlan]
      · simp [systemCalls, OnlyCleanupAfterFailure]
    · subst hc; rw [ht]
      refine ⟨⟨2, ?_⟩, ?_⟩
      · simp [forwardSteps, systemCalls, backupPlan]
      · simp [systemCalls, OnlyCleanupAfterFailure]
  · rcases frogpilotRestore_trace h world params selection with
      ⟨ha, r1, _, ht⟩ | ⟨ha, r2, _, ht⟩ | ⟨ha, r3, _, ht⟩ | ⟨ha, ht⟩ | ⟨ha, ht⟩ |
      ⟨ha, r3, _, ht⟩ | ⟨ha, ht⟩ | ⟨ha, ht⟩
    · rw [ht]
      exact ⟨⟨1, by simp [forwardSteps, systemCalls, restorePlan, ha]⟩,
        by simp [systemCalls, OnlyCleanupAfterFailure]⟩
    · rw [ht]
      exact ⟨⟨2, by simp [forwardSteps, systemCalls, restorePlan, ha]⟩,
        by simp [systemCalls, OnlyCleanupAfterFailure]⟩
    · rw [ht]
      exact ⟨⟨3, by simp [forwardSteps, systemCalls, restorePlan, ha]⟩,
        by simp [systemCalls, OnlyCleanupAfterFailure]⟩
    · rw [ht]
      exact ⟨⟨3, by simp [forwardSteps, systemCalls, restorePlan, ha]⟩,
        by simp [systemCalls, OnlyCleanupAfterFailure]⟩
    · rw [ht]
      exact ⟨⟨3, by simp [forwardSteps, systemCalls, restorePlan, ha]⟩,
        by simp [systemCalls, OnlyCleanupAfterFailure]⟩
    · rw [ht]
      exact ⟨⟨1, by simp [forwardSteps, systemCalls, restorePlan, ha]⟩,
        by simp [systemCalls, OnlyCleanupAfterFailure]⟩
    · rw [ht]
      exact ⟨⟨1, by simp [forwardSteps, systemCalls, restorePlan, ha]⟩,
        by simp [systemCalls, OnlyCleanupAfterFailure]⟩
    · rw [ht]
      exact ⟨⟨1, by simp [forwardSteps, systemCalls, restorePlan, ha]⟩,
        by simp [systemCalls, OnlyCleanupAfterFailure]⟩
  · rcases toggleRestore_trace h world params selection with
      ⟨r1, _, ht⟩ | ⟨r2, r3, _, ht⟩ | ⟨r3, ht⟩
    · rw [ht]
      exact ⟨⟨1, by simp [forwardSteps, systemCalls, toggleRestorePlan]⟩,
        by simp [systemCalls, OnlyCleanupAfterFailure]⟩
    · rw [ht]
      exact ⟨⟨2, by simp [forwardSteps, systemCalls, toggleRestorePlan]⟩,
        by simp [systemCalls, OnlyCleanupAfterFailure]⟩
    · rw [ht]
      exact ⟨⟨2, by simp [forwardSteps, systemCalls, toggleRestorePlan]⟩,
        by simp [systemCalls, OnlyCleanupAfterFailure]⟩

/-- C17, the code at a failing input: with the in-progress artifacts of the backup `x` in
the listing, the filter of line 419 drops the working directory `x_in_progress` but keeps
the in-progress archive `x_in_progress.tar.gz`, whose name does not end in `_in_progress`;
it is offered for delete and restore. -/
theorem backupNames_keeps_in_progress_archive :
    backupNames ["old", "x_in_progress", "x_in_progress.tar.gz"] =
      ["old", "x_in_progress.tar.gz"] ∧
    "x" ++ "_in_progress.tar.gz" ∈ backupNames ["old", "x_in_progress", "x_in_progress.tar.gz"] ∧
    "/data/backups" ++ "/" ++ ("x" ++ "_in_progress.tar.gz") = tarFilePathInProgress "x" ∧
    "x" ++ "_in_progress" ∉ backupNames ["old", "x_in_progress", "x_in_progress.tar.gz"] := by
  decide

/-- C18, the code at a failing input: the toggle backup issues one command, which creates
the final directory `/data/toggle_backups/x/` and copies into it; when that command exits
non-zero the status is the failure message and the workflow returns to idle without any
delete. -/
theorem toggleBackup_failure_leaves_final_path :
    (toggleBackup SimWorld.host (SimWorld.ofList [] [23] true) (Params.ofList []) "x").trace =
      [.setEnabled false, .setValue "Backing up...",
        .system
          (.andThen (.mkdirP "/data/toggle_backups/x/")
            (.rsync "-av" "/data/params/d/" "/data/toggle_backups/x/")) 23,
        .setValue "Failed...", .sleep_for 2000, .setValue "", .setEnabled true] ∧
    (toggleBackupCommand "x").render =
      "mkdir -p /data/toggle_backups/x/ && rsync -av /data/params/d/ /data/toggle_backups/x/" := by
  decide!

/-- C19, the code at a failing input: restoring the archive `x.tar.gz`, with the
extraction directory created and the extraction exiting non-zero, the workflow shows the
failure status and returns to idle; no removal of `/data/restore_temp` is issued. -/
theorem restore_failure_keeps_extract_directory :
    (frogpilotRestore SimWorld.host
        (SimWorld.ofList [("/data/backups/x.tar.gz", "new")] [0, 2] true) (Params.ofList [])
        "x.tar.gz").trace =
      [.setEnabled false, .setValue "Restoring...", .setValue "Extracting...",
        .system (.mkdirP "/data/restore_temp") 0,
        .system (.tarExtract "/data/backups/x.tar.gz" "/data/restore_temp") 2,
        .setValue "Failed...", .sleep_for 2000, .setValue "", .setEnabled true] ∧
    Event.remove_all extractDirectory ∉
      (frogpilotRestore SimWorld.host
        (SimWorld.ofList [("/data/backups/x.tar.gz", "new")] [0, 2] true) (Params.ofList [])
        "x.tar.gz").trace ∧
    (frogpilotRestore SimWorld.host
        (SimWorld.ofList [("/data/backups/x.tar.gz", "new")] [0, 2] true) (Params.ofList [])
        "x.tar.gz").world.content "/data/restore_temp" = some "" := by
  decide!

/-- C20, as stated, fails: restoring the directory `x`, with the sync succeeding and the
marker file not writable, the workflow ends in the failure status with no marker file
written, and the live target holds the content of the backup, not what it held before. -/
theorem restore_marker_failure_changes_target :
    (frogpilotRestore SimWorld.host
        (SimWorld.ofList [("/data/backups/x", "new"), ("/data/safe_staging/finalized", "old")]
          [0] false) (Params.ofList []) "x").trace =
      [.setEnabled false, .setValue "Restoring...",
        .system (restoreSyncCommand "/data/backups/x") 0,
        .ofstream "/data/safe_staging/finalized/.overlay_consistent" false,
        .setValue "Failed...", .sleep_for 2000, .setValue "", .setEnabled true] ∧
    (SimWorld.ofList [("/data/backups/x", "new"), ("/data/safe_staging/finalized", "old")]
        [0] false).content restoreTargetPath = some "old" ∧
    (frogpilotRestore SimWorld.host
        (SimWorld.ofList [("/data/backups/x", "new"), ("/data/safe_staging/finalized", "old")]
          [0] false) (Params.ofList []) "x").world.content restoreTargetPath = some "new" := by
  decide!

/-- C20, amended: in the FrogPilot restore, on a host where a failed command has no effect
and a command changes only the paths it names, on every path where the sync has not
succeeded (creating the extraction directory, the extraction or the sync itself failed)
the workflow ends in the failure status with no marker file written and the content of
the live target `/data/safe_staging/finalized` equals its content before the restore
started. -/
theorem restore_failure_before_sync_keeps_target (h : Host σ)
    (content : σ → String → Option String)
    (hframe : ∀ (w : σ) (c : Command) (p : String),
      (∀ d ∈ c.touches, sameDir d p = false) → content (h.system w c).2 p = content w p)
    (hfailed : ∀ (w : σ) (c : Command) (p : String),
      (h.system w c).1 ≠ 0 → content (h.system w c).2 p = content w p)
    (world : σ) (params : Params) (selection : String)
    (hnosync : ∀ source : String,
      Event.system (restoreSyncCommand source) 0 ∉
        (frogpilotRestore h world params selection).trace) :
    Event.setValue "Failed..." ∈ (frogpilotRestore h world params selection).trace ∧
    (∀ (path : String) (ok : Bool),
      Event.ofstream path ok ∉ (frogpilotRestore h world params selection).trace) ∧
    content (frogpilotRestore h world params selection).world restoreTargetPath =
      content world restoreTargetPath := by
  have hmk : ∀ w, content (h.system w (.mkdirP extractDirectory)).2 restoreTargetPath =
      content w restoreTargetPath := by
    intro w
    apply hframe
    intro d hd
    simp only [Command.touches, List.mem_singleton] at hd
    rw [hd]; decide
  have htar : ∀ w a, content (h.system w (.tarExtract a extractDirectory)).2 restoreTargetPath =
      content w restoreTargetPath := by
    intro w a
    apply hframe
    intro d hd
    simp only [Command.touches, List.mem_singleton] at hd
    rw [hd]; decide
  cases ha : endsWith selection ".tar.gz"
  · by_cases h3 : (h.system world (restoreSyncCommand (restoreSourcePath selection))).1 = 0
    · exfalso
      apply hnosync (restoreSourcePath selection)
      cases h4 : (h.ofstream (h.system world
          (restoreSyncCommand (restoreSourcePath selection))).2
          (restoreTargetPath ++ "/.overlay_consistent")).1 <;>
        simp [frogpilotRestore, frogpilotRestoreSync, Run.system, Run.emit, Run.idle,
          Run.start, ha, h3, h4]
    · refine ⟨?_, ?_, ?_⟩
      · simp [frogpilotRestore, frogpilotRestoreSync, Run.system, Run.emit, Run.idle,
          Run.start, ha, h3]
      · intro path ok
        simp [frogpilotRestore, frogpilotRestoreSync, Run.system, Run.emit, Run.idle,
          Run.start, ha, h3]
      · simp only [frogpilotRestore, frogpilotRestoreSync, Run.system, Run.emit, Run.idle,
          Run.start, ha, h3, if_false, Bool.false_eq_true]
        exact hfailed _ _ _ h3
  · by_cases h1 : (h.system world (.mkdirP extractDirectory)).1 = 0
    · by_cases h2 : (h.system (h.system world (.mkdirP extractDirectory)).2
          (.tarExtract (restoreSourcePath selection) extractDirectory)).1 = 0
      · by_cases h3 : (h.system (h.system (h.system world (.mkdirP extractDirectory)).2
            (.tarExtract (restoreSourcePath selection) extractDirectory)).2
            (restoreSyncCommand extractDirectory)).1 = 0
        · exfalso
          apply hnosync extractDirectory
          cases h4 : (h.ofstream (h.system (h.system (h.system world
              (.mkdirP extractDirectory)).2
              (.tarExtract (restoreSourcePath selection) extractDirectory)).2
              (restoreSyncCommand extractDirectory)).2
              (restoreTargetPath ++ "/.overlay_consistent")).1 <;>
            simp [frogpilotRestore, frogpilotRestoreSync, Run.system, Run.emit, Run.idle,
              Run.start, ha, h1, h2, h3, h4]
        · refine ⟨?_, ?_, ?_⟩
          · simp [frogpilotRestore, frogpilotRestoreSync, Run.system, Run.emit, Run.idle,
              Run.start, ha, h1, h2, h3]
          · intro path ok
            simp [frogpilotRestore, frogpilotRestoreSync, Run.system, Run.emit, Run.idle,
              Run.start, ha, h1, h2, h3]
          · simp only [frogpilotRestore, frogpilotRestoreSync, Run.system, Run.emit,
              Run.idle, Run.start, ha, h1, h2, h3, if_true, if_false, ne_eq,
              not_true_eq_false]
            rw [hfailed _ _ _ h3, htar, hmk]
      · refine ⟨?_, ?_, ?_⟩
        · simp [frogpilotRestore, frogpilotRestoreSync, Run.system, Run.emit, Run.idle,
            Run.start, ha, h1, h2]
        · intro path ok
          simp [frogpilotRestore, frogpilotRestoreSync, Run.system, Run.emit, Run.idle,
            Run.start, ha, h1, h2]
        · simp only [frogpilotRestore, frogpilotRestoreSync, Run.system, Run.emit,
            Run.idle, Run.start, ha, h1, h2, if_true, if_false, ne_eq, not_true_eq_false,
            not_false_eq_true]
          rw [hfailed _ _ _ h2, hmk]
    · refine ⟨?_, ?_, ?_⟩
      · simp [frogpilotRestore, frogpilotRestoreSync, Run.system, Run.emit, Run.idle,
          Run.start, ha, h1]
      · intro path ok
        simp [frogpilotRestore, frogpilotRestoreSync, Run.system, Run.emit, Run.idle,
          Run.start, ha, h1]
      · simp only [frogpilotRestore, frogpilotRestoreSync, Run.system, Run.emit,
          Run.idle, Run.start, ha, h1, if_true, if_false, ne_eq, not_false_eq_true]
        exact hfailed _ _ _ h1

theorem restore_failure_before_sync_keeps_target_witness :
    Event.setValue "Failed..." ∈
      (frogpilotRestore SimWorld.host
        (SimWorld.ofList
          [("/data/backups/x.tar.gz", "new"), ("/data/safe_staging/finalized", "old")]
          [0, 2] true) (Params.ofList []) "x.tar.gz").trace ∧
    SimWorld.content
        (frogpilotRestore SimWorld.host
          (SimWorld.ofList
            [("/data/backups/x.tar.gz", "new"), ("/data/safe_staging/finalized", "old")]
            [0, 2] true) (Params.ofList []) "x.tar.gz").world restoreTargetPath =
      SimWorld.content
        (SimWorld.ofList
          [("/data/backups/x.tar.gz", "new"), ("/data/safe_staging/finalized", "old")]
          [0, 2] true) restoreTargetPath :=
  ⟨(restore_failure_before_sync_keeps_target SimWorld.host SimWorld.content
      SimWorld.host_frame SimWorld.host_failed
      (SimWorld.ofList
        [("/data/backups/x.tar.gz", "new"), ("/data/safe_staging/finalized", "old")]
        [0, 2] true) (Params.ofList []) "x.tar.gz"
      (by
        intro source hmem
        have ht : (frogpilotRestore SimWorld.host
            (SimWorld.ofList
              [("/data/backups/x.tar.gz", "new"), ("/data/safe_staging/finalized", "old")]
              [0, 2] true) (Params.ofList []) "x.tar.gz").trace =
            [.setEnabled false, .setValue "Restoring...", .setValue "Extracting...",
              .system (.mkdirP "/data/restore_temp") 0,
              .system (.tarExtract "/data/backups/x.tar.gz" "/data/restore_temp") 2,
              .setValue "Failed...", .sleep_for 2000, .setValue "", .setEnabled true] := by
          decide!
        rw [ht] at hmem
        simp [restoreSyncCommand] at hmem)).1,
    (restore_failure_before_sync_keeps_target SimWorld.host SimWorld.content
      SimWorld.host_frame SimWorld.host_failed
      (SimWorld.ofList
        [("/data/backups/x.tar.gz", "new"), ("/data/safe_staging/finalized", "old")]
        [0, 2] true) (Params.ofList []) "x.tar.gz"
      (by
        intro source hmem
        have ht : (frogpilotRestore SimWorld.host
            (SimWorld.ofList
              [("/data/backups/x.tar.gz", "new"), ("/data/safe_staging/finalized", "old")]
              [0, 2] true) (Params.ofList []) "x.tar.gz").trace =
            [.setEnabled false, .setValue "Restoring...", .setValue "Extracting...",
              .system (.mkdirP "/data/restore_temp") 0,
              .system (.tarExtract "/data/backups/x.tar.gz" "/data/restore_temp") 2,
              .setValue "Failed...", .sleep_for 2000, .setValue "", .setEnabled true] := by
          decide!
        rw [ht] at hmem
        simp [restoreSyncCommand] at hmem)).2.2⟩

theorem backup_failure_cleanup_after_status_witness :
    ∃ r : ℤ,
      afterFailure
          (frogpilotBackup SimWorld.host (SimWorld.ofList [] [23] true) (Params.ofList []) "x"
            false).trace =
        [.system (.rm "-rf" (inProgressBackupPath "x")) r, .sleep_for 2000, .setValue "",
          .setEnabled true] :=
  (backup_failure_cleanup_after_status SimWorld.host (SimWorld.ofList [] [23] true)
    (Params.ofList []) "x" false).1 23 (by decide) (by decide!)

theorem forward_steps_gated_witness :
    forwardSteps
        (frogpilotBackup SimWorld.host (SimWorld.ofList [] [0, 1] true) (Params.ofList []) "x"
          true).trace
      = [backupCopyCommand "x", backupCompressCommand "x"] ∧
    OnlyCleanupAfterFailure
      (systemCalls
        (toggleRestore SimWorld.host (SimWorld.ofList [] [0, 5, 0] true) (Params.ofList [])
          "x").trace) :=
  ⟨by decide!,
    (forward_steps_gated SimWorld.host (SimWorld.ofList [] [0, 5, 0] true) (Params.ofList [])
      "x" "x" true).2.2.2⟩

end WorkflowClaims

/-! ## Toggle restore rollback and return to idle -/

theorem sameDir_self (d : String) : sameDir d d = true := by
  simp [sameDir]

theorem SimWorld.host_mirror (w : SimWorld) (options source destination : String)
    (h0 : (SimWorld.host.system w (.rsync options source destination)).1 = 0) :
    (SimWorld.host.system w (.rsync options source destination)).2.content destination =
      w.content source := by
  unfold SimWorld.host at h0 ⊢
  simp only at h0 ⊢
  split
  · simp [SimWorld.apply, SimWorld.write, sameDir_self]
  · rename_i e rest he
    rw [he] at h0
    simp only at h0
    split
    · simp [SimWorld.apply, SimWorld.write, sameDir_self]
    · rename_i hne
      rw [if_neg hne] at h0
      exact absurd h0 hne

theorem Run.idle_revertsToIdle {σ : Type} (r : Run σ)
    (hr : r.trace.head? = some (.setEnabled false)) : RevertsToIdle r.idle.trace := by
  rw [Run.idle_trace]
  constructor
  · cases ht : r.trace with
    | nil => rw [ht] at hr; cases hr
    | cons e rest => rw [ht] at hr; simpa using hr
  · simp

section IdleClaims

variable {σ : Type}

/-- C21: in the toggle restore, on a host where a successful mirror sync makes the
destination's content equal to the source's and a command changes only the paths it
names: if the safety snapshot of `/data/params/d/` into `/data/params/d_backup/` succeeds,
the restore sync fails (whatever it leaves in the live directory) and the rollback sync
succeeds, then the live parameter directory's content afterwards equals its content before
the restore, and the last status shown before the return to idle is the failure message. -/
theorem toggle_restore_rolls_back (h : Host σ) (content : σ → String → Option String)
    (hframe : ∀ (w : σ) (c : Command) (p : String),
      (∀ d ∈ c.touches, sameDir d p = false) → content (h.system w c).2 p = content w p)
    (hmirror : ∀ (w : σ) (options source destination : String),
      (h.system w (.rsync options source destination)).1 = 0 →
        content (h.system w (.rsync options source destination)).2 destination =
          content w source)
    (world : σ) (params : Params) (selection : String) (res : ℤ) (hres : res ≠ 0)
    (hsnapshot : Event.system (.rsync "-av --delete -l" toggleTargetPath tempBackupPath) 0 ∈
      (toggleRestore h world params selection).trace)
    (hrestore : Event.system
        (.rsync "-av --delete -l" (toggleSourcePath selection) toggleTargetPath) res ∈
      (toggleRestore h world params selection).trace)
    (hrollback : Event.system (.rsync "-av --delete -l" tempBackupPath toggleTargetPath) 0 ∈
      (toggleRestore h world params selection).trace) :
    content (toggleRestore h world params selection).world toggleTargetPath =
      content world toggleTargetPath ∧
    (toggleRestore h world params selection).trace =
      [.setEnabled false, .system (.rsync "-av --delete -l" toggleTargetPath tempBackupPath) 0,
        .setValue "Restoring...",
        .system (.rsync "-av --delete -l" (toggleSourcePath selection) toggleTargetPath) res,
        .setValue "Failed...",
        .system (.rsync "-av --delete -l" tempBackupPath toggleTargetPath) 0,
        .sleep_for 2000, .setValue "", .setEnabled true] := by
  have hsrc := toggleSource_ne_tempBackup selection
  have hlit : toggleTargetPath ≠ tempBackupPath := by decide
  by_cases h1 : (h.system world (.rsync "-av --delete -l" toggleTargetPath tempBackupPath)).1 = 0
  · by_cases h2 : (h.system (h.system world
        (.rsync "-av --delete -l" toggleTargetPath tempBackupPath)).2
        (.rsync "-av --delete -l" (toggleSourcePath selection) toggleTargetPath)).1 = 0
    · exfalso
      simp [toggleRestore, Run.system, Run.emit, Run.idle, Run.start, h1, h2, hsrc, hlit,
        hlit.symm, hres] at hrestore
    · have hr2 : res = (h.system (h.system world
          (.rsync "-av --delete -l" toggleTargetPath tempBackupPath)).2
          (.rsync "-av --delete -l" (toggleSourcePath selection) toggleTargetPath)).1 := by
        simp [toggleRestore, Run.system, Run.emit, Run.idle, Run.start, h1, h2, hsrc, hlit,
          hlit.symm, hres] at hrestore
        exact hrestore
      have h3 : (h.system (h.system (h.system world
          (.rsync "-av --delete -l" toggleTargetPath tempBackupPath)).2
          (.rsync "-av --delete -l" (toggleSourcePath selection) toggleTargetPath)).2
          (.rsync "-av --delete -l" tempBackupPath toggleTargetPath)).1 = 0 := by
        simp [toggleRestore, Run.system, Run.emit, Run.idle, Run.start, h1, h2, hsrc.symm,
          hlit, hlit.symm] at hrollback
        exact hrollback.symm
      constructor
      · simp only [toggleRestore, Run.system, Run.emit, Run.idle, Run.start, h1, h2,
          if_true, if_false]
        rw [hmirror _ _ _ _ h3]
        rw [hframe _ (.rsync "-av --delete -l" (toggleSourcePath selection) toggleTargetPath)
          tempBackupPath (by
            intro d hd
            simp only [Command.touches, List.mem_singleton] at hd
            rw [hd]; decide)]
        exact hmirror _ _ _ _ h1
      · simp [toggleRestore, Run.system, Run.emit, Run.idle, Run.start, h1, h2, h3, hr2]
  · exfalso
    simp [toggleRestore, Run.system, Run.emit, Run.idle, Run.start, h1] at hsnapshot
    exact h1 hsnapshot.symm

theorem toggle_restore_rolls_back_witness :
    SimWorld.content
        (toggleRestore SimWorld.host
          (SimWorld.ofList [("/data/params/d/", "live"), ("/data/toggle_backups/x/", "bk")]
            [0, 5, 0] true) (Params.ofList []) "x").world toggleTargetPath =
      SimWorld.content
        (SimWorld.ofList [("/data/params/d/", "live"), ("/data/toggle_backups/x/", "bk")]
          [0, 5, 0] true) toggleTargetPath :=
  (toggle_restore_rolls_back SimWorld.host SimWorld.content SimWorld.host_frame
    SimWorld.host_mirror
    (SimWorld.ofList [("/data/params/d/", "live"), ("/data/toggle_backups/x/", "bk")]
      [0, 5, 0] true) (Params.ofList []) "x" 5 (by decide) (by decide!) (by decide!)
    (by decide!)).1

/-- C22: for every host and so whatever the exit codes, every run of the FrogPilot backup,
the FrogPilot backup delete, the toggle backup delete, the toggle backup and the toggle
restore, and every run of the FrogPilot restore that does not reach the reboot, starts by
disabling the triggering control and ends with clearing its status text and re-enabling
it, in that order. -/
theorem workflows_revert_to_idle (h : Host σ) (world : σ) (params : Params)
    (nameSelection selection : String) (compressed : Bool) :
    RevertsToIdle (frogpilotBackup h world params nameSelection compressed).trace ∧
    RevertsToIdle (frogpilotDelete h world params selection).trace ∧
    RevertsToIdle (toggleDelete h world params selection).trace ∧
    RevertsToIdle (toggleBackup h world params nameSelection).trace ∧
    RevertsToIdle (toggleRestore h world params selection).trace ∧
    (Event.reboot ∉ (frogpilotRestore h world params selection).trace →
      RevertsToIdle (frogpilotRestore h world params selection).trace) := by
  refine ⟨?_, ?_, ?_, ?_, ?_, ?_⟩
  · rcases frogpilotBackup_trace h world params nameSelection compressed with
      ⟨r1, r2, _, ht⟩ | ⟨_, r2, r3, r4, _, ht⟩ | ⟨_, r3, r4, _, ht⟩ | ⟨_, ht⟩ |
      ⟨_, r2, r3, _, ht⟩ | ⟨_, ht⟩ <;>
    · rw [ht]
      simp [RevertsToIdle]
  · unfold frogpilotDelete
    simp only
    split <;>
    · apply Run.idle_revertsToIdle
      simp [Run.emit, Run.start]
  · unfold toggleDelete
    apply Run.idle_revertsToIdle
    simp [Run.emit, Run.start]
  · unfold toggleBackup
    apply Run.idle_revertsToIdle
    simp [Run.emit, Run.start, Run.system]
  · rcases toggleRestore_trace h world params selection with
      ⟨r1, _, ht⟩ | ⟨r2, r3, _, ht⟩ | ⟨r3, ht⟩ <;>
    · rw [ht]
      simp [RevertsToIdle]
  · intro hno
    rcases frogpilotRestore_trace h world params selection with
      ⟨_, r1, _, ht⟩ | ⟨_, r2, _, ht⟩ | ⟨_, r3, _, ht⟩ | ⟨_, ht⟩ | ⟨_, ht⟩ |
      ⟨_, r3, _, ht⟩ | ⟨_, ht⟩ | ⟨_, ht⟩ <;>
    · rw [ht] at hno ⊢
      simp [RevertsToIdle] at hno ⊢

theorem workflows_revert_to_idle_witness :
    RevertsToIdle
      (frogpilotRestore SimWorld.host
        (SimWorld.ofList [("/data/backups/x.tar.gz", "new")] [0, 2] true) (Params.ofList [])
        "x.tar.gz").trace :=
  (workflows_revert_to_idle SimWorld.host
    (SimWorld.ofList [("/data/backups/x.tar.gz", "new")] [0, 2] true) (Params.ofList [])
    "x" "x.tar.gz" true).2.2.2.2.2 (by decide!)

end IdleClaims

/-! ## DevicePanel slots and navigation -/

section DevicePanelClaims

/-- C27: `DevicePanel::reboot` writes `DoReboot = true` exactly when the system is not
engaged at the start, the user confirms and the system is still not engaged at the
re-check; in every other case the store is unchanged. The same holds for
`DevicePanel::poweroff` with `DoShutdown`. -/
theorem reboot_writes_only_when_confirmed_and_disengaged (params : Params)
    (engaged confirmed engagedAgain : Bool) :
    ((engaged = false ∧ confirmed = true ∧ engagedAgain = false) →
      (DevicePanel.reboot params engaged confirmed engagedAgain).1 =
          params.putBool "DoReboot" true ∧
        (DevicePanel.reboot params engaged confirmed engagedAgain).1.getBool "DoReboot" = true) ∧
    (¬(engaged = false ∧ confirmed = true ∧ engagedAgain = false) →
      (DevicePanel.reboot params engaged confirmed engagedAgain).1 = params) ∧
    ((engaged = false ∧ confirmed = true ∧ engagedAgain = false) →
      (DevicePanel.poweroff params engaged confirmed engagedAgain).1 =
          params.putBool "DoShutdown" true ∧
        (DevicePanel.poweroff params engaged confirmed engagedAgain).1.getBool "DoShutdown"
          = true) ∧
    (¬(engaged = false ∧ confirmed = true ∧ engagedAgain = false) →
      (DevicePanel.poweroff params engaged confirmed engagedAgain).1 = params) := by
  cases engaged <;> cases confirmed <;> cases engagedAgain <;>
    simp [DevicePanel.reboot, DevicePanel.poweroff, Params.getBool_putBool]

theorem reboot_writes_only_when_confirmed_and_disengaged_witness :
    (DevicePanel.reboot (Params.ofList []) false true false).1 =
        (Params.ofList []).putBool "DoReboot" true ∧
      (DevicePanel.reboot (Params.ofList []) false true false).1.getBool "DoReboot" = true :=
  (reboot_writes_only_when_confirmed_and_disengaged (Params.ofList []) false true false).1
    ⟨rfl, rfl, rfl⟩

/-- C28: a click on a sidebar navigation button emits `closeParentToggle` and resets
`previousScrollPosition` to 0 but leaves the three disclosure flags unchanged; after
opening a parent toggle and clicking a navigation button, the next Back press clears
`parentToggleOpen` and emits `closeParentToggle`, not `closeSettings`. -/
theorem navigation_keeps_disclosure_flags (s : SettingsWindow) :
    s.navButtonClicked.2 = [.closeParentToggle] ∧
    s.navButtonClicked.1.previousScrollPosition = 0 ∧
    s.navButtonClicked.1.parentToggleOpen = s.parentToggleOpen ∧
    s.navButtonClicked.1.subParentToggleOpen = s.subParentToggleOpen ∧
    s.navButtonClicked.1.subSubParentToggleOpen = s.subSubParentToggleOpen ∧
    (SettingsWindow.initial.handle .openParentToggle).navButtonClicked.1.parentToggleOpen
      = true ∧
    (SettingsWindow.initial.handle
        .openParentToggle).navButtonClicked.1.closeButtonClicked.2 = [.closeParentToggle] ∧
    (SettingsWindow.initial.handle
        .openParentToggle).navButtonClicked.1.closeButtonClicked.1.parentToggleOpen = false ∧
    SettingsSignal.closeSettings ∉
      (SettingsWindow.initial.handle .openParentToggle).navButtonClicked.1.closeButtonClicked.2 :=
  ⟨rfl, rfl, rfl, rfl, rfl, by decide, by decide, by decide, by decide⟩

theorem DevicePanel.forceStartedClicks_append (btn : FrogPilotButtonsControl)
    (paramsMemory : Params) (ids : List ℤ) (id : ℤ) :
    DevicePanel.forceStartedClicks btn paramsMemory (ids ++ [id]) =
      DevicePanel.forceStartedClicked (DevicePanel.forceStartedClicks btn paramsMemory ids).1
        (DevicePanel.forceStartedClicks btn paramsMemory ids).2 id := by
  induction ids generalizing btn paramsMemory with
  | nil => rfl
  | cons i rest ih => simp [DevicePanel.forceStartedClicks, ih]

theorem FrogPilotButtonsControl.setCheckedButton_params (c : FrogPilotButtonsControl)
    (params : Params) (id : ℤ) : (c.setCheckedButton params id).2.1 = params := by
  unfold FrogPilotButtonsControl.setCheckedButton
  split <;> rfl

/-- C29: after every click on the Force Started State control with an id in {0, 1, 2},
whatever the clicks before it, the in-memory parameters satisfy `ForceOffroad = (id == 0)`
and `ForceOnroad = (id == 1)`, so they are never both true after a click; a click with any
other id leaves the in-memory store unchanged. -/
theorem force_started_exclusive (btn : FrogPilotButtonsControl) (paramsMemory : Params)
    (before : List ℤ) (id : ℤ) :
    ((id = 0 ∨ id = 1 ∨ id = 2) →
      (DevicePanel.forceStartedClicks btn paramsMemory (before ++ [id])).2.getBool
          "ForceOffroad" = decide (id = 0) ∧
      (DevicePanel.forceStartedClicks btn paramsMemory (before ++ [id])).2.getBool
          "ForceOnroad" = decide (id = 1) ∧
      ¬((DevicePanel.forceStartedClicks btn paramsMemory (before ++ [id])).2.getBool
            "ForceOffroad" = true ∧
          (DevicePanel.forceStartedClicks btn paramsMemory (before ++ [id])).2.getBool
            "ForceOnroad" = true)) ∧
    (¬(id = 0 ∨ id = 1 ∨ id = 2) →
      (DevicePanel.forceStartedClicked btn paramsMemory id).2 = paramsMemory) := by
  constructor
  · intro hid
    rw [DevicePanel.forceStartedClicks_append]
    simp only [DevicePanel.forceStartedClicked,
      FrogPilotButtonsControl.setCheckedButton_params]
    rcases hid with h0 | h0 | h0 <;> subst h0 <;>
      simp [Params.getBool_putBool]
  · intro hid
    simp only [not_or] at hid
    obtain ⟨h0, h1, h2⟩ := hid
    simp only [DevicePanel.forceStartedClicked,
      FrogPilotButtonsControl.setCheckedButton_params, h0, h1, h2, if_false]

theorem force_started_exclusive_witness :
    (DevicePanel.forceStartedClicks DevicePanel.forceStartedBtn (Params.ofList [])
        ([0, 2] ++ [1])).2.getBool "ForceOffroad" = decide ((1 : ℤ) = 0) ∧
    (DevicePanel.forceStartedClicks DevicePanel.forceStartedBtn (Params.ofList [])
        ([0, 2] ++ [1])).2.getBool "ForceOnroad" = decide ((1 : ℤ) = 1) ∧
    ¬((DevicePanel.forceStartedClicks DevicePanel.forceStartedBtn (Params.ofList [])
          ([0, 2] ++ [1])).2.getBool "ForceOffroad" = true ∧
        (DevicePanel.forceStartedClicks DevicePanel.forceStartedBtn (Params.ofList [])
          ([0, 2] ++ [1])).2.getBool "ForceOnroad" = true) :=
  (force_started_exclusive DevicePanel.forceStartedBtn (Params.ofList []) [0, 2] 1).1
    (Or.inr (Or.inl rfl))

end DevicePanelClaims

/-! ## FrogPilotParamToggleControl: indices of the secondary buttons -/

theorem Params.putBool_data_of_ne (p : Params) (key k : String) (v : Bool) (h : k ≠ key) :
    (p.putBool key v).data k = p.data k := by
  simp [Params.putBool, h]

namespace QButtonGroup

theorem setChecked_checkable (g : QButtonGroup) (i : ℕ) (checked : Bool) :
    (g.setChecked i checked).1.buttons.map (fun b => b.checkable) =
      g.buttons.map (fun b => b.checkable) := by
  have h := congrArg (List.map (fun b : QPushButton => b.checkable))
    (setChecked_unchecked g i checked)
  simpa [List.map_map, Function.comp_def, QPushButton.unchecked] using h

theorem setChecked_text (g : QButtonGroup) (i : ℕ) (checked : Bool) :
    (g.setChecked i checked).1.buttons.map (fun b => b.text) =
      g.buttons.map (fun b => b.text) := by
  have h := congrArg (List.map (fun b : QPushButton => b.text))
    (setChecked_unchecked g i checked)
  simpa [List.map_map, Function.comp_def, QPushButton.unchecked] using h

theorem setChecked_nonexclusive_get (g : QButtonGroup) (hex : g.exclusive = false) (i : ℕ)
    (checked : Bool) (b : QPushButton) (hb : g.buttons[i]? = some b)
    (hc : b.checkable = true) :
    ((g.setChecked i checked).1.buttons[i]?).map (fun x => x.checked) = some checked := by
  have hi : i < g.buttons.length := by
    by_contra hn
    rw [List.getElem?_eq_none (by omega)] at hb
    cases hb
  unfold setChecked
  rw [hb]
  by_cases h1 : b.checked = checked
  · simp [hc, h1, hb]
  · cases checked <;> simp [hc, h1, hex, hi]

theorem setChecked_nonexclusive_other (g : QButtonGroup) (hex : g.exclusive = false)
    (i j : ℕ) (hij : i ≠ j) (checked : Bool) :
    (g.setChecked i checked).1.buttons[j]? = g.buttons[j]? := by
  unfold setChecked
  split
  · rfl
  · split_ifs <;> simp_all [List.getElem?_set_ne hij]

theorem foldl_addButton_nonexclusive (texts : List String) (g : QButtonGroup)
    (hex : g.exclusive = false) :
    texts.foldl
        (fun g text =>
          g.addButton
            { text := text, checkable := true, checked := false, enabled := true,
              visible := true }) g =
      { exclusive := false,
        buttons := g.buttons ++ texts.map (fun text => ⟨text, true, false, true, true⟩) } := by
  induction texts generalizing g with
  | nil => cases g; simp at hex; simp [hex]
  | cons t rest ih =>
    rw [List.foldl_cons, ih _ (by simp [addButton, hex])]
    simp [addButton, hex]

end QButtonGroup

namespace FrogPilotParamToggleControl

theorem new_builtFrom (param : String) (button_params button_texts : List String) :
    (new param button_params button_texts).BuiltFrom button_params button_texts := by
  unfold BuiltFrom new
  rw [QButtonGroup.foldl_addButton_nonexclusive button_texts ⟨false, []⟩ rfl]
  simp [List.map_map, Function.comp_def]

theorem updateButtonStatesFrom_checked (c : FrogPilotParamToggleControl) (params : Params)
    (i n : ℕ) (h : i + n ≤ c.button_params.length)
    (hn : i + n ≤ c.button_group.buttons.length)
    (hex : c.button_group.exclusive = false)
    (hch : ∀ b ∈ c.button_group.buttons.map (fun b => b.checkable), b = true)
    (hpre : ∀ j, j < i → ∀ key, c.button_params[j]? = some key →
      (c.button_group.buttons[j]?).map (fun x => x.checked) = some (params.getBool key)) :
    ∃ r, updateButtonStatesFrom c params i n = some r ∧ r.2 = params ∧
      ∀ j, j < i + n → ∀ key, c.button_params[j]? = some key →
        (r.1.button_group.buttons[j]?).map (fun x => x.checked) =
          some (params.getBool key) := by
  induction n generalizing c i with
  | zero => exact ⟨(c, params), rfl, rfl, hpre⟩
  | succ n ih =>
    have hi : i < c.button_params.length := by omega
    have hib : i < c.button_group.buttons.length := by omega
    have hbi : c.button_group.button (i : ℤ) = some c.button_group.buttons[i] := by
      simp [QButtonGroup.button, List.getElem?_eq_getElem hib]
    rw [updateButtonStatesFrom, List.getElem?_eq_getElem hi, hbi]
    simp only []
    have hcb : c.button_group.buttons[i].checkable = true := by
      apply hch
      exact List.mem_map.mpr ⟨_, List.getElem_mem hib, rfl⟩
    obtain ⟨r, hr, hp, hv⟩ :=
      ih { c with
            button_group :=
              (c.button_group.setChecked i (params.getBool c.button_params[i])).1 }
        (i + 1) (by simp only []; omega)
        (by simp only [QButtonGroup.setChecked_length]; omega)
        (by simp only [QButtonGroup.setChecked_exclusive]; exact hex)
        (by simp only [QButtonGroup.setChecked_checkable]; exact hch)
        (by
          intro j hj key hkey
          simp only [] at hkey ⊢
          by_cases hji : j = i
          · subst hji
            rw [List.getElem?_eq_getElem hi] at hkey
            cases hkey
            exact QButtonGroup.setChecked_nonexclusive_get _ hex _ _ _
              (List.getElem?_eq_getElem hib) hcb
          · rw [QButtonGroup.setChecked_nonexclusive_other _ hex _ _ (Ne.symm hji)]
            exact hpre j (by omega) key hkey)
    exact ⟨r, hr, hp, fun j hj key hkey => hv j (by omega) key hkey⟩

theorem buttonClicked_spec (c : FrogPilotParamToggleControl) (params : Params) (i : ℕ)
    (checked : Bool) (hi : i < c.button_group.buttons.length)
    (hlen : c.button_group.buttons.length ≤ c.button_params.length) :
    ∃ key r, c.button_params[i]? = some key ∧ c.buttonClicked params i checked = some r ∧
      r.2.1 = params.putBool key checked := by
  have hp : i < c.button_params.length := by omega
  refine ⟨c.button_params[i],
    ({ c with button_group := (c.button_group.setChecked i checked).1 },
      params.putBool c.button_params[i] checked,
      [.buttonClicked checked, .buttonTypeClicked (i : ℤ)]),
    List.getElem?_eq_getElem hp, ?_, rfl⟩
  simp [buttonClicked, List.getElem?_eq_getElem hp, QButtonGroup.button,
    List.getElem?_eq_getElem hi]

end FrogPilotParamToggleControl

section ToggleControlClaims

/-- C30: the constructor of `FrogPilotParamToggleControl` creates one button per entry of
`button_texts` and keeps `button_params` as given. For every control built so, in any
state of its buttons, with `button_texts.size() <= button_params.size()`: the click slot
of every button `i` finds `button_params[i]` in bounds and leaves the store equal to the
old one with `button_params[i]` set to the clicked state, so every other key is unchanged
(also for a user click); and `updateButtonStates` completes, leaves the store unchanged
and sets each button `i` to the stored value of `button_params[i]`. -/
theorem toggle_control_indices_in_bounds (c : FrogPilotParamToggleControl)
    (button_params button_texts : List String)
    (hbuilt : c.BuiltFrom button_params button_texts)
    (hlen : button_texts.length ≤ button_params.length) (params : Params) :
    (∀ param, (FrogPilotParamToggleControl.new param button_params button_texts).BuiltFrom
      button_params button_texts) ∧
    (∀ i, i < button_texts.length → ∀ checked, ∃ key r,
      button_params[i]? = some key ∧ c.buttonClicked params i checked = some r ∧
        r.2.1 = params.putBool key checked ∧ ∀ k, k ≠ key → r.2.1.data k = params.data k) ∧
    (∀ i, i < button_texts.length → ∃ key r,
      button_params[i]? = some key ∧ c.click params i = some r ∧
        ∀ k, k ≠ key → r.2.1.data k = params.data k) ∧
    (∃ r, c.updateButtonStates params = some r ∧ r.2 = params ∧
      ∀ i, i < button_texts.length → ∃ key b,
        button_params[i]? = some key ∧ r.1.button_group.button (i : ℤ) = some b ∧
          b.checked = params.getBool key) := by
  obtain ⟨hbp, hex, htext, hch⟩ := hbuilt
  have hbl : c.button_group.buttons.length = button_texts.length := by
    rw [← htext, List.length_map]
  refine ⟨fun param => FrogPilotParamToggleControl.new_builtFrom param _ _, ?_, ?_, ?_⟩
  · intro i hi checked
    obtain ⟨key, r, hkey, hr, hs⟩ :=
      FrogPilotParamToggleControl.buttonClicked_spec c params i checked (by omega)
        (by rw [hbp]; omega)
    refine ⟨key, r, by rw [← hbp]; exact hkey, hr, hs, ?_⟩
    intro k hk
    rw [hs, Params.putBool_data_of_ne _ _ _ _ hk]
  · intro i hi
    have hib : i < c.button_group.buttons.length := by omega
    have hp : i < button_params.length := by omega
    refine ⟨button_params[i], ?_⟩
    unfold FrogPilotParamToggleControl.click
    rw [List.getElem?_eq_getElem hib]
    simp only []
    by_cases hen : c.button_group.buttons[i].enabled = true
    · have hlen2 : (c.button_group.click i).1.buttons.length = c.button_group.buttons.length := by
        unfold QButtonGroup.click
        rw [List.getElem?_eq_getElem hib]
        simp only []
        split_ifs <;> simp [QButtonGroup.setChecked_length]
      have hib2 : i < (c.button_group.click i).1.buttons.length := by omega
      obtain ⟨key, r, hkey, hr, hs⟩ :=
        FrogPilotParamToggleControl.buttonClicked_spec
          { c with button_group := (c.button_group.click i).1 } params i
          ((c.button_group.click i).1.buttons[i]).checked hib2
          (by simp only []; rw [hlen2, hbp]; omega)
      simp only [hbp, List.getElem?_eq_getElem hp, Option.some.injEq] at hkey
      subst hkey
      refine ⟨r, List.getElem?_eq_getElem hp, ?_, ?_⟩
      · simp only [hen, Bool.not_true, Bool.false_eq_true, if_false,
          List.getElem?_eq_getElem hib2]
        exact hr
      · intro k hk
        rw [hs, Params.putBool_data_of_ne _ _ _ _ hk]
    · refine ⟨(c, params, []), List.getElem?_eq_getElem hp, ?_, fun k _ => rfl⟩
      simp [hen]
  · obtain ⟨r, hr, hp, hv⟩ :=
      FrogPilotParamToggleControl.updateButtonStatesFrom_checked c params 0
        c.button_group.buttons.length (by rw [hbp]; omega) (by omega) hex hch
        (fun j hj => absurd hj (Nat.not_lt_zero j))
    have hlen3 : r.1.button_group.buttons.length = c.button_group.buttons.length := by
      have h5 := FrogPilotParamToggleControl.updateButtonStatesFrom_spec c params 0
        c.button_group.buttons.length (by rw [hbp]; omega)
      obtain ⟨r2, hr2, _, hvis⟩ := h5
      rw [hr] at hr2
      cases hr2
      have := congrArg List.length hvis
      simpa using this
    refine ⟨r, hr, hp, ?_⟩
    intro i hi
    have hpi : i < button_params.length := by omega
    have hib : i < r.1.button_group.buttons.length := by omega
    have h6 := hv i (by omega) button_params[i] (by rw [hbp]; exact List.getElem?_eq_getElem hpi)
    refine ⟨button_params[i], r.1.button_group.buttons[i], List.getElem?_eq_getElem hpi, ?_, ?_⟩
    · simp [QButtonGroup.button, List.getElem?_eq_getElem hib]
    · rw [List.getElem?_eq_getElem hib] at h6
      simpa using h6

theorem toggle_control_indices_in_bounds_witness :
    ∃ r, (FrogPilotParamToggleControl.new "P" ["A", "B", "C"] ["a", "b"]).updateButtonStates
        (Params.ofList [("B", .bool true)]) = some r ∧
      r.2 = Params.ofList [("B", .bool true)] ∧
      ∀ i, i < ["a", "b"].length → ∃ key b,
        ["A", "B", "C"][i]? = some key ∧ r.1.button_group.button (i : ℤ) = some b ∧
          b.checked = (Params.ofList [("B", .bool true)]).getBool key :=
  (toggle_control_indices_in_bounds
    (FrogPilotParamToggleControl.new "P" ["A", "B", "C"] ["a", "b"]) ["A", "B", "C"] ["a", "b"]
    (FrogPilotParamToggleControl.new_builtFrom "P" ["A", "B", "C"] ["a", "b"]) (by decide)
    (Params.ofList [("B", .bool true)])).2.2.2

end ToggleControlClaims

/-! ## TogglesPanel: updateToggles -/

theorem Params.getBool_of_data_none (p : Params) (key : String) (h : p.data key = none) :
    p.getBool key = false := by
  simp [Params.getBool, h]

/-- In a build without `ENABLE_MAPS` the constructor creates no `NavSettingLeftSide` toggle,
and line 201 of `updateToggles` goes through the null pointer that `toggles[...]` yields. -/
theorem TogglesPanel.updateToggles_without_maps :
    Failure.of
        ((TogglesPanel.new false (Params.ofList []) samplePersonalityControl).updateToggles
          sampleParse sampleHasLongitudinalControl (Params.ofList [])) =
      some (.nullDereference "NavSettingLeftSide") := by
  decide!

section TogglesPanelClaims

/-- C23, counterexample: with `AlwaysOnLateral` true and no `CarParamsPersistent` in the
store, `updateToggles` on a freshly constructed panel hides the Disengage on Accelerator
toggle (line 197), which was visible before; the openpilot-longitudinal toggle is not the
only toggle it hides. -/
theorem updateToggles_absent_descriptor_hides_other_toggle :
    (Params.ofList [("AlwaysOnLateral", .bool true)]).get "CarParamsPersistent" = "" ∧
    ((TogglesPanel.new true (Params.ofList [("AlwaysOnLateral", .bool true)])
        samplePersonalityControl).toggles "DisengageOnAccelerator").map (fun t => t.visible)
      = some true ∧
    (((TogglesPanel.new true (Params.ofList [("AlwaysOnLateral", .bool true)])
        samplePersonalityControl).updateToggles sampleParse sampleHasLongitudinalControl
        (Params.ofList [("AlwaysOnLateral", .bool true)])).toOption.bind
      (fun r => r.1.toggles "DisengageOnAccelerator")).map (fun t => t.visible) = some false ∧
    (((TogglesPanel.new true (Params.ofList [("AlwaysOnLateral", .bool true)])
        samplePersonalityControl).updateToggles sampleParse sampleHasLongitudinalControl
        (Params.ofList [("AlwaysOnLateral", .bool true)])).toOption.bind
      (fun r => r.1.toggles "ExperimentalLongitudinalEnabled")).map (fun t => t.visible)
      = some false := by
  decide!

/-- C23, amended: when `CarParamsPersistent` is absent (empty), on a panel that holds the
five toggles `updateToggles` looks up, the call returns and leaves the store unchanged;
the Experimental Mode toggle gets the description `e2e_description` and is otherwise
unchanged (neither hidden nor disabled); the openpilot-longitudinal toggle is hidden; the
visibility of the Disengage on Accelerator, driver camera and map-side toggles is set
from `AlwaysOnLateral`, from `DeviceManagement`, `NoLogging`, `NoUploads`, and from
`FullMap`; every other toggle and the personality control are unchanged. -/
theorem updateToggles_absent_descriptor (parse : String → Option CarParams)
    (hasLongitudinalControl : CarParams → Params → Bool) (panel : TogglesPanel)
    (params : Params) (tD tR tN tE tL : ParamControl)
    (hD : panel.toggles "DisengageOnAccelerator" = some tD)
    (hR : panel.toggles "RecordFront" = some tR)
    (hN : panel.toggles "NavSettingLeftSide" = some tN)
    (hE : panel.toggles "ExperimentalMode" = some tE)
    (hL : panel.toggles "ExperimentalLongitudinalEnabled" = some tL)
    (habsent : params.get "CarParamsPersistent" = "") :
    ∃ r, panel.updateToggles parse hasLongitudinalControl params = .ok r ∧ r.2 = params ∧
      r.1.toggles "ExperimentalMode" =
        some { tE with description := TogglesPanel.e2e_description } ∧
      r.1.toggles "ExperimentalLongitudinalEnabled" = some { tL with visible := false } ∧
      r.1.toggles "DisengageOnAccelerator" =
        some { tD with visible := !params.getBool "AlwaysOnLateral" } ∧
      r.1.toggles "RecordFront" =
        some { tR with
          visible :=
            !(params.getBool "DeviceManagement" && params.getBool "NoLogging" &&
              params.getBool "NoUploads") } ∧
      r.1.toggles "NavSettingLeftSide" = some { tN with visible := !params.getBool "FullMap" } ∧
      (∀ k, k ∉ ["DisengageOnAccelerator", "RecordFront", "NavSettingLeftSide",
          "ExperimentalMode", "ExperimentalLongitudinalEnabled"] →
        r.1.toggles k = panel.toggles k) ∧
      r.1.long_personality_setting = panel.long_personality_setting := by
  simp only [TogglesPanel.updateToggles, TogglesPanel.toggle, TogglesPanel.setToggle, hD, hR,
    hN, hE, hL, habsent]
  simp only [String.reduceEq, if_false, ne_eq, not_true_eq_false]
  refine ⟨_, rfl, rfl, ?_, ?_, ?_, ?_, ?_, ?_, rfl⟩
  · simp
  · simp
  · simp
  · simp
  · simp
  · intro k hk
    simp only [List.mem_cons, List.mem_singleton, List.not_mem_nil, or_false, not_or] at hk
    obtain ⟨h1, h2, h3, h4, h5⟩ := hk
    simp [h1, h2, h3, h4, h5]

theorem updateToggles_absent_descriptor_witness :
    ∃ r, (TogglesPanel.new true (Params.ofList [("FullMap", .bool true)])
          samplePersonalityControl).updateToggles sampleParse sampleHasLongitudinalControl
          (Params.ofList [("FullMap", .bool true)]) = .ok r ∧
      r.2 = Params.ofList [("FullMap", .bool true)] ∧
      r.1.toggles "ExperimentalMode" =
        some { key := "ExperimentalMode", toggle_on := false, enabled := true, visible := true,
               description := TogglesPanel.e2e_description } :=
  let ⟨r, h1, h2, h3, _⟩ :=
    updateToggles_absent_descriptor sampleParse sampleHasLongitudinalControl
      (TogglesPanel.new true (Params.ofList [("FullMap", .bool true)]) samplePersonalityControl)
      (Params.ofList [("FullMap", .bool true)])
      { key := "DisengageOnAccelerator", toggle_on := false, enabled := true, visible := true,
        description := "When enabled, pressing the accelerator pedal will disengage openpilot." }
      { key := "RecordFront", toggle_on := false, enabled := true, visible := true,
        description :=
          "Upload data from the driver facing camera and help improve the driver monitoring algorithm." }
      { key := "NavSettingLeftSide", toggle_on := false, enabled := true, visible := true,
        description := "Show map on left side when in split screen view." }
      { key := "ExperimentalMode", toggle_on := false, enabled := true, visible := true,
        description := "" }
      { key := "ExperimentalLongitudinalEnabled", toggle_on := false, enabled := true,
        visible := true,
        description :=
          "<b>" ++ "WARNING: openpilot longitudinal control is in alpha for this car and will disable Automatic Emergency Braking (AEB)." ++ "</b><br><br>" ++
            "On this car, openpilot defaults to the car's built-in ACC instead of openpilot's longitudinal control. Enable this to switch to openpilot longitudinal control. Enabling Experimental mode is recommended when enabling openpilot longitudinal control alpha." }
      (by decide!) (by decide!) (by decide!) (by decide!) (by decide!) (by decide!)
  ⟨r, h1, h2, h3⟩

/-- C24, the code at a failing input: with a non-empty `CarParamsPersistent` on which the
capnp reader throws, `updateToggles` on a freshly constructed panel does not return: the
exception leaves the function (lines 219-222 stand in no `try` block). With the descriptor
absent the same call returns. -/
theorem updateToggles_malformed_descriptor_throws :
    (Params.ofList [("CarParamsPersistent", .text "garbage")]).get "CarParamsPersistent"
      = "garbage" ∧
    sampleParse "garbage" = none ∧
    Failure.of
        ((TogglesPanel.new true (Params.ofList [("CarParamsPersistent", .text "garbage")])
          samplePersonalityControl).updateToggles sampleParse sampleHasLongitudinalControl
          (Params.ofList [("CarParamsPersistent", .text "garbage")])) =
      some .uncaughtException ∧
    Failure.of
        ((TogglesPanel.new true (Params.ofList []) samplePersonalityControl).updateToggles
          sampleParse sampleHasLongitudinalControl (Params.ofList [])) = none := by
  decide!

/-- C25, as stated, fails in a build without `ENABLE_MAPS`: the constructor creates no
`NavSettingLeftSide` toggle, so with a parsed descriptor of a car without longitudinal
control and `ExperimentalMode` true in the store, `updateToggles` goes through the null
pointer of line 201 and does not return; it never reaches the removal of line 243. -/
theorem updateToggles_capability_absent_without_maps :
    sampleParse
        ((Params.ofList [("CarParamsPersistent", .text "stock"),
          ("ExperimentalMode", .bool true)]).get "CarParamsPersistent") =
      some { experimentalLongitudinalAvailable := false,
             openpilotLongitudinalControl := false } ∧
    sampleHasLongitudinalControl
        { experimentalLongitudinalAvailable := false, openpilotLongitudinalControl := false }
        ((Params.ofList [("CarParamsPersistent", .text "stock"),
          ("ExperimentalMode", .bool true)]).remove "ExperimentalLongitudinalEnabled") = false ∧
    (TogglesPanel.new false
        (Params.ofList [("CarParamsPersistent", .text "stock"), ("ExperimentalMode", .bool true)])
        samplePersonalityControl).toggles "NavSettingLeftSide" = none ∧
    Failure.of
        ((TogglesPanel.new false
          (Params.ofList [("CarParamsPersistent", .text "stock"),
            ("ExperimentalMode", .bool true)])
          samplePersonalityControl).updateToggles sampleParse sampleHasLongitudinalControl
          (Params.ofList [("CarParamsPersistent", .text "stock"),
            ("ExperimentalMode", .bool true)])) =
      some (.nullDereference "NavSettingLeftSide") := by
  decide!

/-- C25, amended: for every parsed capability descriptor `CP` and every store content, on a
panel that holds the five toggles `updateToggles` looks up (as the constructor builds it
when `ENABLE_MAPS` is defined), the call returns; if
`hasLongitudinalControl(CP)` is false at line 228, then afterwards `ExperimentalMode` is
absent from the store (and reads as false), the Experimental Mode toggle is disabled and
every button of the driving-personality control is disabled; if `CP` reports experimental
longitudinal control as unavailable, `ExperimentalLongitudinalEnabled` is absent from the
store and its toggle is hidden. -/
theorem updateToggles_capability_absent (parse : String → Option CarParams)
    (hasLongitudinalControl : CarParams → Params → Bool) (panel : TogglesPanel)
    (params : Params) ( CP : CarParams) (tD tR tN tE tL : ParamControl)
    (hD : panel.toggles "DisengageOnAccelerator" = some tD)
    (hR : panel.toggles "RecordFront" = some tR)
    (hN : panel.toggles "NavSettingLeftSide" = some tN)
    (hE : panel.toggles "ExperimentalMode" = some tE)
    (hL : panel.toggles "ExperimentalLongitudinalEnabled" = some tL)
    (hbytes : params.get "CarParamsPersistent" ≠ "")
    (hparse : parse (params.get "CarParamsPersistent") = some CP) :
    ∃ r, panel.updateToggles parse hasLongitudinalControl params = .ok r ∧
      (hasLongitudinalControl CP
          (if !CP.experimentalLongitudinalAvailable then
            params.remove "ExperimentalLongitudinalEnabled"
          else params) = false →
        r.2.data "ExperimentalMode" = none ∧ r.2.getBool "ExperimentalMode" = false ∧
        (r.1.toggles "ExperimentalMode").map (fun t => t.enabled) = some false ∧
        ∀ btn ∈ r.1.long_personality_setting.button_group.buttons, btn.enabled = false) ∧
      (CP.experimentalLongitudinalAvailable = false →
        r.2.data "ExperimentalLongitudinalEnabled" = none ∧
        r.2.getBool "ExperimentalLongitudinalEnabled" = false ∧
        (r.1.toggles "ExperimentalLongitudinalEnabled").map (fun t => t.visible)
          = some false) := by
  simp only [TogglesPanel.updateToggles, TogglesPanel.toggle, TogglesPanel.setToggle, hD, hR,
    hN, hE, hL]
  simp only [String.reduceEq, if_false]
  rw [if_pos hbytes]
  simp only [hparse]
  by_cases hlc : hasLongitudinalControl CP
      (if !CP.experimentalLongitudinalAvailable then
        params.remove "ExperimentalLongitudinalEnabled"
      else params) = true
  · rw [if_pos hlc]
    refine ⟨_, rfl, ?_, ?_⟩
    · intro hf
      rw [hf] at hlc
      cases hlc
    · intro hav
      have hstore : ∀ b : Bool,
          (if b = true then
              ((params.remove "ExperimentalLongitudinalEnabled").putBool "ExperimentalMode"
                true).putBool "ExperimentalModeConfirmed" true
            else params.remove "ExperimentalLongitudinalEnabled").data
            "ExperimentalLongitudinalEnabled" = none := by
        intro b
        cases b <;> simp [Params.remove, Params.putBool]
      simp only [hav, Bool.not_false, if_true]
      exact ⟨hstore _, Params.getBool_of_data_none _ _ (hstore _), by simp⟩
  · rw [if_neg hlc]
    refine ⟨_, rfl, ?_, ?_⟩
    · intro _
      simp [Params.remove, Params.getBool, ParamControl.refreshToggle,
        ButtonParamControl.setEnabled]
    · intro hav
      simp [hav, Params.remove, Params.getBool, ParamControl.refreshToggle]

theorem updateToggles_capability_absent_witness :
    ∃ r, (TogglesPanel.new true
            (Params.ofList [("CarParamsPersistent", .text "stock"),
              ("ExperimentalMode", .bool true)])
            samplePersonalityControl).updateToggles sampleParse sampleHasLongitudinalControl
          (Params.ofList [("CarParamsPersistent", .text "stock"),
            ("ExperimentalMode", .bool true)]) = .ok r ∧
      r.2.data "ExperimentalMode" = none ∧ r.2.getBool "ExperimentalMode" = false ∧
      (r.1.toggles "ExperimentalMode").map (fun t => t.enabled) = some false ∧
      ∀ btn ∈ r.1.long_personality_setting.button_group.buttons, btn.enabled = false :=
  let ⟨r, h1, h2, _⟩ :=
    updateToggles_capability_absent sampleParse sampleHasLongitudinalControl
      (TogglesPanel.new true
        (Params.ofList [("CarParamsPersistent", .text "stock"), ("ExperimentalMode", .bool true)])
        samplePersonalityControl)
      (Params.ofList [("CarParamsPersistent", .text "stock"), ("ExperimentalMode", .bool true)])
      { experimentalLongitudinalAvailable := false, openpilotLongitudinalControl := false }
      { key := "DisengageOnAccelerator", toggle_on := false, enabled := true, visible := true,
        description := "When enabled, pressing the accelerator pedal will disengage openpilot." }
      { key := "RecordFront", toggle_on := false, enabled := true, visible := true,
        description :=
          "Upload data from the driver facing camera and help improve the driver monitoring algorithm." }
      { key := "NavSettingLeftSide", toggle_on := false, enabled := true, visible := true,
        description := "Show map on left side when in split screen view." }
      { key := "ExperimentalMode", toggle_on := false, enabled := true, visible := true,
        description := "" }
      { key := "ExperimentalLongitudinalEnabled", toggle_on := false, enabled := true,
        visible := true,
        description :=
          "<b>" ++ "WARNING: openpilot longitudinal control is in alpha for this car and will disable Automatic Emergency Braking (AEB)." ++ "</b><br><br>" ++
            "On this car, openpilot defaults to the car's built-in ACC instead of openpilot's longitudinal control. Enable this to switch to openpilot longitudinal control. Enabling Experimental mode is recommended when enabling openpilot longitudinal control alpha." }
      (by decide!) (by decide!) (by decide!) (by decide!) (by decide!) (by decide!) (by decide!)
  ⟨r, h1, h2 (by decide!)⟩

/-- C26, the code at a failing input: with `ExperimentalModeLock` true, the constructor
leaves the Experimental Mode toggle disabled (lines 148-149); with a descriptor of a car
with openpilot longitudinal control and `ConditionalExperimental` false, `updateToggles`
then enables it (line 236), although the lock is still true in the store. -/
theorem updateToggles_enables_locked_toggle :
    (Params.ofList [("ExperimentalModeLock", .bool true),
        ("CarParamsPersistent", .text "long")]).getBool ("ExperimentalMode" ++ "Lock") = true ∧
    ((TogglesPanel.new true
        (Params.ofList [("ExperimentalModeLock", .bool true),
          ("CarParamsPersistent", .text "long")])
        samplePersonalityControl).toggles "ExperimentalMode").map (fun t => t.enabled)
      = some false ∧
    (((TogglesPanel.new true
        (Params.ofList [("ExperimentalModeLock", .bool true),
          ("CarParamsPersistent", .text "long")])
        samplePersonalityControl).updateToggles sampleParse sampleHasLongitudinalControl
        (Params.ofList [("ExperimentalModeLock", .bool true),
          ("CarParamsPersistent", .text "long")])).toOption.bind
      (fun r => r.1.toggles "ExperimentalMode")).map (fun t => t.enabled) = some true ∧
    ((((TogglesPanel.new true
        (Params.ofList [("ExperimentalModeLock", .bool true),
          ("CarParamsPersistent", .text "long")])
        samplePersonalityControl).updateToggles sampleParse sampleHasLongitudinalControl
        (Params.ofList [("ExperimentalModeLock", .bool true),
          ("CarParamsPersistent", .text "long")])).toOption.map
      (fun r => r.2.getBool "ExperimentalModeLock")) = some true) := by
  decide!

end TogglesPanelClaims

end FrogPilot
